import Mathlib

/-!
# GVfs GDU volume: mount / unlock orchestration (`monitor/gdu/ggduvolume.c`)

A shallow embedding of `ggduvolume.c`.  One `GGduVolume` object is modelled
together with the `MountOpData` records allocated for it, the data attached
to its device, and a trace of every call the code makes into its
collaborators (GIO results, the mount operation, the GDU backend, the
keyring, PolicyKit).

Each C function is a Lean function that threads the state explicitly.
Values that the code reads from collaborators (device properties, pool
lookups, the clock) come from a `Backend` snapshot handed to the function.
-/

namespace GduMonitor

/-! ## Object identities -/

/-- Address of a `MountOpData` record. -/
abbrev DataId := Nat
/-- Identity of a `GMountOperation`. -/
abbrev MountOperationId := Nat
/-- Identity of a `GCancellable`. -/
abbrev CancellableId := Nat
/-- Identity of a `GduDevice`. -/
abbrev DeviceId := Nat
/-- Identity of a `GduVolume` presentable. -/
abbrev GduVolumeId := Nat
/-- Identity of a `GGduDrive`. -/
abbrev DriveId := Nat
/-- Identity of a `GGduMount`. -/
abbrev MountId := Nat

/-! ## Errors and enumerations of the libraries -/

/-- Error domains (`GQuark`). -/
inductive GQuark
  | G_IO_ERROR
  | GDU_ERROR
  | other (q : Nat)
deriving DecidableEq, Repr

/-- A `GError`: domain, code and message. -/
structure GError where
  domain : GQuark
  code : Int
  message : String
deriving DecidableEq, Repr

/-- `G_IO_ERROR_FAILED` of `GIOErrorEnum` in gio. -/
def G_IO_ERROR_FAILED : Int := 0
/-- `G_IO_ERROR_PERMISSION_DENIED` of `GIOErrorEnum` in gio. -/
def G_IO_ERROR_PERMISSION_DENIED : Int := 14
/-- `G_IO_ERROR_FAILED_HANDLED` of `GIOErrorEnum` in gio. -/
def G_IO_ERROR_FAILED_HANDLED : Int := 30
/-- `GDU_ERROR_INHIBITED` of `GduError` in gnome-disk-utility
(`FAILED, BUSY, CANCELLED, INHIBITED, ...`). -/
def GDU_ERROR_INHIBITED : Int := 3

/-- `GMountOperationResult` of gio. -/
inductive GMountOperationResult
  | G_MOUNT_OPERATION_HANDLED
  | G_MOUNT_OPERATION_ABORTED
  | G_MOUNT_OPERATION_UNHANDLED
deriving DecidableEq, Repr

/-- Integer value of a `GMountOperationResult`, as printed with `%d`. -/
def GMountOperationResult.toInt : GMountOperationResult → Int
  | .G_MOUNT_OPERATION_HANDLED => 0
  | .G_MOUNT_OPERATION_ABORTED => 1
  | .G_MOUNT_OPERATION_UNHANDLED => 2

/-- `GPasswordSave` of gio. -/
inductive GPasswordSave
  | G_PASSWORD_SAVE_NEVER
  | G_PASSWORD_SAVE_FOR_SESSION
  | G_PASSWORD_SAVE_PERMANENTLY
deriving DecidableEq, Repr

/-- `G_ASK_PASSWORD_NEED_PASSWORD` of `GAskPasswordFlags`. -/
def G_ASK_PASSWORD_NEED_PASSWORD : Nat := 1
/-- `G_ASK_PASSWORD_SAVING_SUPPORTED` of `GAskPasswordFlags`. -/
def G_ASK_PASSWORD_SAVING_SUPPORTED : Nat := 8

/-- `PolKitResult` of PolicyKit. -/
inductive PolKitResult
  | POLKIT_RESULT_UNKNOWN
  | POLKIT_RESULT_NO
  | POLKIT_RESULT_ONLY_VIA_ADMIN_AUTH
  | POLKIT_RESULT_ONLY_VIA_ADMIN_AUTH_KEEP_SESSION
  | POLKIT_RESULT_ONLY_VIA_ADMIN_AUTH_KEEP_ALWAYS
  | POLKIT_RESULT_ONLY_VIA_SELF_AUTH
  | POLKIT_RESULT_ONLY_VIA_SELF_AUTH_KEEP_SESSION
  | POLKIT_RESULT_ONLY_VIA_SELF_AUTH_KEEP_ALWAYS
  | POLKIT_RESULT_YES
  | POLKIT_RESULT_ONLY_VIA_ADMIN_AUTH_ONE_SHOT
  | POLKIT_RESULT_ONLY_VIA_SELF_AUTH_ONE_SHOT
deriving DecidableEq, Repr

/-- A `GIcon` value; `g_icon_equal` on two icons is equality of these
values (and two `NULL` icons are equal). -/
inductive GIcon
  | themed_with_default_fallbacks (iconname : String)
  | other (key : Nat)
deriving DecidableEq, Repr

/-- `g_icon_equal (icon1, icon2)`. -/
def g_icon_equal (icon1 icon2 : Option GIcon) : Bool :=
  decide (icon1 = icon2)

/-- The test `g_strcmp0 (str1, str2) == 0`; both arguments may be `NULL`. -/
def g_strcmp0_eq (str1 str2 : Option String) : Bool :=
  decide (str1 = str2)

/-- The call `g_str_has_prefix (str, pfx)`, on the characters of the two
strings. -/
def g_str_has_prefix (str pfx : String) : Bool := pfx.data.isPrefixOf str.data

/-- The gettext call `_(msgid)`, in the untranslated locale. -/
def gettext (msgid : String) : String := msgid

/-! ## The backend: what the collaborators report at the time of a call -/

/-- Properties of one `GduDevice`. -/
structure GduDeviceInfo where
  object_path : String
  device_file : Option String
  is_luks : Bool
  luks_holder : Option String
  is_mounted : Bool
  optical_disc_is_blank : Bool
  id_usage : Option String
  id_type : Option String
  id_label : String
  id_uuid : String
  is_partition : Bool
  partition_number : Int

/-- Properties of one `GduPresentable` (a `GduVolume`). -/
structure GduPresentableInfo where
  device : DeviceId
  name : Option String
  icon : Option GIcon
  toplevel_name : Option String

/-- Snapshot of everything the code reads from outside the volume object. -/
structure Backend where
  presentable : GduVolumeId → GduPresentableInfo
  device : DeviceId → GduDeviceInfo
  pool_get_by_object_path : String → Option DeviceId
  pool_get_volume_by_device : DeviceId → Option GduVolumeId
  pool_is_daemon_inhibited : Bool
  util_get_secret : DeviceId → Option String
  error_check_polkit_not_authorized : GError → Option (String × PolKitResult)
  /-- The value of `time (NULL)`, a `time_t`. -/
  now : Int
  /-- The value of `g_gdu_drive_get_time_of_last_media_insertion`, a `time_t`. -/
  time_of_last_media_insertion : DriveId → Int

/-! ## The volume object and `update_volume` -/

/-- The record `struct _GGduVolume`.  `cleartext_handlers` lists the
cleartext `GduVolume` objects on which the three handlers
`gdu_cleartext_volume_removed / _changed / _job_changed` are connected. -/
structure GGduVolume where
  mount : Option MountId
  drive : Option DriveId
  gdu_volume : GduVolumeId
  cleartext_gdu_volume : Option GduVolumeId
  pending_mount_op : Option DataId
  icon : Option GIcon
  activation_root : Option String
  name : Option String
  device_file : Option String
  uuid : Option String
  can_mount : Bool
  should_automount : Bool
  cleartext_handlers : List GduVolumeId

/-- The three `g_signal_handlers_disconnect_by_func` calls and the unref
made on `volume->cleartext_gdu_volume` when it is not `NULL`
(lines 199-205 and 223-230, without the final assignment). -/
def disconnect_cleartext (volume : GGduVolume) : GGduVolume :=
  match volume.cleartext_gdu_volume with
  | some old =>
    { volume with cleartext_handlers := volume.cleartext_handlers.filter (fun o => o != old) }
  | none => volume

/-- Lines 182-196 of `update_volume`: the cleartext `GduVolume` of the
unlocked mapping.  The outer option is none when no mapping is found (the
device is not LUKS, it has no holder, the holder is "/", or the pool does
not resolve the holder); the inner one is the result of
`gdu_pool_get_volume_by_device`, which may be `NULL`. -/
def find_unlocked_mapping (b : Backend) (device : DeviceId) : Option (Option GduVolumeId) :=
  if (b.device device).is_luks then
    match (b.device device).luks_holder with
    | some holder_objpath =>
      if holder_objpath ≠ "/" then
        match b.pool_get_by_object_path holder_objpath with
        | some cleartext_device => some (b.pool_get_volume_by_device cleartext_device)
        | none => none
      else none
    | none => none
  else none

/-- Lines 181-231 of `update_volume`: rebind `cleartext_gdu_volume` and its
signal handlers to the unlocked mapping, and drop the binding when no
mapping is kept. -/
def update_cleartext_binding (b : Backend) (volume : GGduVolume) (device : DeviceId) :
    GGduVolume :=
  match find_unlocked_mapping b device with
  | some cleartext_gdu_volume =>
    -- keep_cleartext_volume = TRUE
    if cleartext_gdu_volume ≠ volume.cleartext_gdu_volume then
      let volume := disconnect_cleartext volume
      { volume with
        cleartext_gdu_volume := cleartext_gdu_volume
        cleartext_handlers := cleartext_gdu_volume.toList ++ volume.cleartext_handlers }
    else volume
  | none =>
    -- keep_cleartext_volume = FALSE
    let volume := disconnect_cleartext volume
    { volume with cleartext_gdu_volume := none }

/-- The difference `a - b` of two `time_t` values as the compiled code
computes it: `time_t` is the 64-bit signed integer of the LP64 platforms,
and a difference outside its range wraps around in two's complement. -/
def time_t_sub (a b : Int) : Int :=
  (a - b + 9223372036854775808) % 18446744073709551616 - 9223372036854775808

/-- Lines 234-297 of `update_volume`: recompute icon, name, device file,
`can_mount` and `should_automount`. -/
def update_attributes (b : Backend) (volume : GGduVolume) (device : DeviceId) : GGduVolume :=
  match volume.cleartext_gdu_volume with
  | some cleartext =>
    let luks_cleartext_volume_device := (b.presentable cleartext).device
    { volume with
      icon := (b.presentable cleartext).icon
      name := (b.presentable cleartext).name
      device_file := (b.device luks_cleartext_volume_device).device_file
      can_mount := true
      should_automount := false }
  | none =>
    let icon := (b.presentable volume.gdu_volume).icon
    let name := (b.presentable volume.gdu_volume).name
    let activation_uri := volume.activation_root
    let audio : Bool :=
      match activation_uri with
      | some uri => g_str_has_prefix uri "cdda://"
      | none => false
    let icon := if audio then some (GIcon.themed_with_default_fallbacks "media-optical-audio") else icon
    let name := if audio then some (gettext "Audio Disc") else name
    let should_automount : Bool :=
      match volume.drive with
      | some drive => !decide (time_t_sub b.now (b.time_of_last_media_insertion drive) > 5)
      | none => true
    { volume with
      icon := icon
      name := name
      device_file := (b.device device).device_file
      can_mount := true
      should_automount := should_automount }

/-- The function `update_volume`: recompute the volume from the backend and
return whether an observable attribute changed. -/
def update_volume (b : Backend) (volume : GGduVolume) : Bool × GGduVolume :=
  let old_can_mount := volume.can_mount
  let old_should_automount := volume.should_automount
  let old_name := volume.name
  let old_device_file := volume.device_file
  let old_icon := volume.icon
  let device := (b.presentable volume.gdu_volume).device
  let volume := update_cleartext_binding b volume device
  let volume := update_attributes b volume device
  let changed := !((old_can_mount == volume.can_mount) &&
                   (old_should_automount == volume.should_automount) &&
                   g_strcmp0_eq old_name volume.name &&
                   g_strcmp0_eq old_device_file volume.device_file &&
                   g_icon_equal old_icon volume.icon)
  (changed, volume)

/-! ## Mount requests: `MountOpData`, the heap and the effect trace -/

/-- The callbacks handed to asynchronous backend operations. -/
inductive Callback
  | unlock_from_keyring_cb
  | unlock_cb
  | mount_cb
  | mount_obtain_authz_cb
deriving DecidableEq, Repr

/-- A `GSimpleAsyncResult`: the error set on it (none: success) and how
many times `g_simple_async_result_complete` was invoked on it. -/
structure GSimpleAsyncResult where
  error : Option GError
  completed : Nat
deriving DecidableEq, Repr

/-- The record `struct MountOpData` (its `volume` field is the one modelled
volume).  Two bookkeeping fields are added: `outstanding` lists the backend
operations issued with this record as `user_data` whose callback has not
run yet, and `released` counts the calls of `mount_op_data_unref` on it. -/
structure MountOpData where
  device_to_mount : Option DeviceId
  simple : GSimpleAsyncResult
  cancellable : Option CancellableId
  cancelled_handler_id : Nat
  mount_operation : Option MountOperationId
  mount_operation_reply_handler_id : Nat
  is_cancelled : Bool
  outstanding : List Callback
  released : Nat
deriving DecidableEq, Repr

/-- A record as `g_new0 (MountOpData, 1)` returns it. -/
def MountOpData.zero : MountOpData :=
  { device_to_mount := none, simple := { error := none, completed := 0 },
    cancellable := none, cancelled_handler_id := 0, mount_operation := none,
    mount_operation_reply_handler_id := 0, is_cancelled := false,
    outstanding := [], released := 0 }

/-- Calls made into collaborators, in the order the code makes them.
`simple_async_result_complete none _` is a completion of a result that
belongs to no `MountOpData`. -/
inductive Effect
  | simple_async_result_complete (data : Option DataId) (error : Option GError)
  | signal_emit_aborted (mount_operation : MountOperationId)
  | signal_emit_ask_password (mount_operation : MountOperationId) (message : String) (flags : Nat)
  | signal_emit_changed
  | signal_emit_volume_changed
  | signal_connect (handler_id : Nat) (detailed_signal : String) (user_data : Option DataId)
  | signal_handler_disconnect (handler_id : Nat)
  | util_get_secret (device : DeviceId)
  | device_op_luks_unlock (device : DeviceId) (secret : Option String) (callback : Callback)
      (data : DataId)
  | device_op_filesystem_mount (device : DeviceId) (data : DataId)
  | obtain_authz (action_id : String) (cancellable : Option CancellableId) (data : DataId)
  | util_save_secret (device : DeviceId) (password : String) (save_in_keyring_session : Bool)
  | scrub_n_free_string (password : String)
  | mount_unset_volume (mount : MountId)
  | drive_unset_volume (drive : DriveId)
deriving DecidableEq, Repr

/-- The data attached to a `GduDevice` under the keys "password" and
"password-save" (`G_PASSWORD_SAVE_NEVER` is the integer 0 of an unset key). -/
structure DeviceData where
  password : Option String
  password_save : GPasswordSave
deriving DecidableEq, Repr

/-- The whole modelled state. Records at addresses below `data_count` have
been allocated by `g_gdu_volume_mount`. -/
structure State where
  volume : GGduVolume
  heap : DataId → MountOpData
  data_count : Nat
  handler_count : Nat
  device_data : DeviceId → DeviceData
  trace : List Effect

/-- Append one effect to the trace. -/
def State.emit (s : State) (e : Effect) : State :=
  { s with trace := s.trace ++ [e] }

/-- Rewrite the record at address `data`. -/
def State.modify (s : State) (data : DataId) (f : MountOpData → MountOpData) : State :=
  { s with heap := Function.update s.heap data (f (s.heap data)) }

/-- The assignment `volume->pending_mount_op = p`. -/
def State.set_pending (s : State) (p : Option DataId) : State :=
  { s with volume := { s.volume with pending_mount_op := p } }

/-- The call `g_signal_connect (instance, detailed_signal, handler, user_data)`:
returns a fresh non-zero handler id.  `user_data` is a `MountOpData`
address, or none when the handler is given the volume. -/
def g_signal_connect (s : State) (detailed_signal : String) (user_data : Option DataId) :
    Nat × State :=
  let id := s.handler_count + 1
  (id, { s with handler_count := id }.emit (.signal_connect id detailed_signal user_data))

/-- The call `g_simple_async_result_set_error (data->simple, domain, code, message)`. -/
def g_simple_async_result_set_error (s : State) (data : DataId) (domain : GQuark) (code : Int)
    (message : String) : State :=
  s.modify data fun d =>
    { d with simple := { d.simple with error := some { domain := domain, code := code, message := message } } }

/-- The call `g_simple_async_result_set_from_error (data->simple, error)`. -/
def g_simple_async_result_set_from_error (s : State) (data : DataId) (error : GError) : State :=
  s.modify data fun d => { d with simple := { d.simple with error := some error } }

/-- The call `g_simple_async_result_complete (data->simple)`: the completion
is counted on the result and recorded in the trace.  The caller's callback,
which GLib runs inside this call, is here taken not to call back into the
volume; `g_simple_async_result_complete_calling` below is the call with a
callback that does. -/
def g_simple_async_result_complete (s : State) (data : DataId) : State :=
  let s := s.modify data fun d =>
    { d with simple := { d.simple with completed := d.simple.completed + 1 } }
  s.emit (.simple_async_result_complete (some data) (s.heap data).simple.error)

/-- The function `scrub_n_free_string`. -/
def scrub_n_free_string (s : State) (password : String) : State :=
  s.emit (.scrub_n_free_string password)

/-- The call `g_object_set_data_full (device, "password", value, scrub_n_free_string)`
(also `g_object_set_data (device, "password", NULL)`): the value stored before
is handed to its destroy notification `scrub_n_free_string`. -/
def set_device_password (s : State) (device : DeviceId) (value : Option String) : State :=
  let s := (match (s.device_data device).password with
    | some old => scrub_n_free_string s old
    | none => s)
  let entry : DeviceData := { s.device_data device with password := value }
  { s with device_data := Function.update s.device_data device entry }

/-- The call `g_object_set_data (device, "password-save", GINT_TO_POINTER (value))`. -/
def set_device_password_save (s : State) (device : DeviceId) (value : GPasswordSave) : State :=
  let entry : DeviceData := { s.device_data device with password_save := value }
  { s with device_data := Function.update s.device_data device entry }

/-- The call `gdu_device_op_luks_unlock (device, secret, callback, data)`. -/
def gdu_device_op_luks_unlock (s : State) (device : DeviceId) (secret : Option String)
    (callback : Callback) (data : DataId) : State :=
  (s.emit (.device_op_luks_unlock device secret callback data)).modify data fun d =>
    { d with outstanding := d.outstanding ++ [callback] }

/-- The call `gdu_device_op_filesystem_mount (device, mount_cb, data)`. -/
def gdu_device_op_filesystem_mount (s : State) (device : DeviceId) (data : DataId) : State :=
  (s.emit (.device_op_filesystem_mount device data)).modify data fun d =>
    { d with outstanding := d.outstanding ++ [Callback.mount_cb] }

/-- The call `_obtain_authz (action_id, cancellable, mount_obtain_authz_cb, data)`. -/
def obtain_authz (s : State) (action_id : String) (cancellable : Option CancellableId)
    (data : DataId) : State :=
  (s.emit (.obtain_authz action_id cancellable data)).modify data fun d =>
    { d with outstanding := d.outstanding ++ [Callback.mount_obtain_authz_cb] }

/-! ## The functions of the mount flow -/

/-- The function `emit_changed`.  The volume monitor is taken to be alive:
the weak pointer `volume->volume_monitor` is not `NULL`. -/
def emit_changed (s : State) : State :=
  (s.emit .signal_emit_changed).emit .signal_emit_volume_changed

/-- The function `mount_op_data_unref`. -/
def mount_op_data_unref (s : State) (data : DataId) : State :=
  let d := s.heap data
  let s := if d.cancelled_handler_id ≠ 0 then
      s.emit (.signal_handler_disconnect d.cancelled_handler_id) else s
  let s := if d.mount_operation_reply_handler_id ≠ 0 then
      s.emit (.signal_handler_disconnect d.mount_operation_reply_handler_id) else s
  s.modify data fun d => { d with released := d.released + 1 }

/-- The function `cancel_pending_mount_op`. -/
def cancel_pending_mount_op (s : State) (data : DataId) : State :=
  let s := s.set_pending none
  let s := s.modify data fun d => { d with is_cancelled := true }
  let s := (match (s.heap data).mount_operation with
    | some mount_operation => s.emit (.signal_emit_aborted mount_operation)
    | none => s)
  let s := g_simple_async_result_set_error s data .G_IO_ERROR G_IO_ERROR_FAILED_HANDLED
    "Operation was cancelled"
  g_simple_async_result_complete s data

/-- The statement repeated at lines 620-624, 685-689 and 800-804:
"be quiet if the daemon is inhibited". -/
def quiet_if_inhibited (error : GError) : GError :=
  if error.code = GDU_ERROR_INHIBITED then
    { error with domain := .G_IO_ERROR, code := G_IO_ERROR_FAILED_HANDLED }
  else error

/-- The function `mount_obtain_authz_cb`; `res` is the error of
`_obtain_authz_finish`, none when the authorization was obtained. -/
def mount_obtain_authz_cb (s : State) (data : DataId) (res : Option GError) : State :=
  if (s.heap data).is_cancelled then
    -- bailout
    mount_op_data_unref (s.set_pending none) data
  else
    match res with
    | some error =>
      let s := g_simple_async_result_set_from_error s data (quiet_if_inhibited error)
      let s := g_simple_async_result_complete s data
      -- bailout
      mount_op_data_unref (s.set_pending none) data
    | none =>
      -- got the authz, now try again
      match (s.heap data).device_to_mount with
      | some device_to_mount => gdu_device_op_filesystem_mount s device_to_mount data
      | none => s

/-- The function `mount_cb`; `error` is none when the mount succeeded. -/
def mount_cb (b : Backend) (s : State) (data : DataId) (error : Option GError) : State :=
  if (s.heap data).is_cancelled then
    -- bailout
    mount_op_data_unref (s.set_pending none) data
  else
    let finish := fun (s : State) =>
      let s := g_simple_async_result_complete s data
      -- bailout
      mount_op_data_unref (s.set_pending none) data
    match error with
    | some error =>
      let not_authorized :=
        if (s.heap data).mount_operation ≠ none then b.error_check_polkit_not_authorized error
        else none
      match not_authorized with
      | some (action_id, pk_result) =>
        if pk_result ≠ .POLKIT_RESULT_NO ∧ pk_result ≠ .POLKIT_RESULT_UNKNOWN then
          obtain_authz s action_id (s.heap data).cancellable data
        else
          finish (g_simple_async_result_set_from_error s data error)
      | none =>
        finish (g_simple_async_result_set_from_error s data (quiet_if_inhibited error))
    | none => finish s

/-- The function `mount_cleartext_device`. -/
def mount_cleartext_device (b : Backend) (s : State) (data : DataId)
    (object_path_of_cleartext_device : String) : State :=
  if (s.heap data).is_cancelled then
    mount_op_data_unref s data
  else
    let device_to_mount := b.pool_get_by_object_path object_path_of_cleartext_device
    let s := s.modify data fun d => { d with device_to_mount := device_to_mount }
    match device_to_mount with
    | none =>
      let s := g_simple_async_result_set_error s data .G_IO_ERROR G_IO_ERROR_FAILED
        "Successfully unlocked encrypted volume but cleartext device does not exist"
      let s := g_simple_async_result_complete s data
      let s := s.set_pending none
      mount_op_data_unref s data
    | some device_to_mount => gdu_device_op_filesystem_mount s device_to_mount data

/-- The message built at lines 967-988 of `mount_with_mount_operation`. -/
def ask_password_message (b : Backend) (volume : GGduVolume) : String :=
  let device := (b.presentable volume.gdu_volume).device
  match (b.presentable volume.gdu_volume).toplevel_name with
  | some drive_name =>
    if (b.device device).is_partition then
      "Enter a password to unlock the volume\nThe device \"" ++ drive_name ++
        "\" contains encrypted data on partition " ++
        toString (b.device device).partition_number ++ "."
    else
      "Enter a password to unlock the volume\nThe device \"" ++ drive_name ++
        "\" contains encrypted data."
  | none =>
    "Enter a password to unlock the volume\nThe device " ++
      ((b.device device).device_file.getD "(null)") ++ " contains encrypted data."

/-- The function `mount_with_mount_operation`. -/
def mount_with_mount_operation (b : Backend) (s : State) (data : DataId) : State :=
  if (s.heap data).is_cancelled then
    mount_op_data_unref s data
  else
    match (s.heap data).mount_operation with
    | none =>
      let s := g_simple_async_result_set_error s data .G_IO_ERROR G_IO_ERROR_FAILED
        "Password required to access the encrypted data"
      let s := g_simple_async_result_complete s data
      let s := s.set_pending none
      mount_op_data_unref s data
    | some mount_operation =>
      let message := ask_password_message b s.volume
      let (id, s) := g_signal_connect s "reply" (some data)
      let s := s.modify data fun d => { d with mount_operation_reply_handler_id := id }
      s.emit (.signal_emit_ask_password mount_operation message
        (G_ASK_PASSWORD_NEED_PASSWORD ||| G_ASK_PASSWORD_SAVING_SUPPORTED))

/-- The function `unlock_from_keyring_cb`; `result` is the object path of
the cleartext device, or the error of the unlock. -/
def unlock_from_keyring_cb (b : Backend) (s : State) (data : DataId)
    (result : Except GError String) : State :=
  if (s.heap data).is_cancelled then
    mount_op_data_unref s data
  else
    match result with
    | .error _ =>
      -- the password retrieved from the keyring did not work: prompt the user
      mount_with_mount_operation b s data
    | .ok object_path_of_cleartext_device =>
      mount_cleartext_device b s data object_path_of_cleartext_device

/-- The function `unlock_cb`; `device` is the device the unlock was issued
on and `result` the object path of the cleartext device or the error. -/
def unlock_cb (b : Backend) (s : State) (data : DataId) (device : DeviceId)
    (result : Except GError String) : State :=
  let s :=
    if (s.heap data).is_cancelled then
      mount_op_data_unref s data
    else
      match result with
      | .error error =>
        let s := g_simple_async_result_set_from_error s data (quiet_if_inhibited error)
        let s := g_simple_async_result_complete s data
        let s := s.set_pending none
        mount_op_data_unref s data
      | .ok object_path_of_cleartext_device =>
        let password_save := (s.device_data device).password_save
        let s := (match (s.device_data device).password with
          | some password =>
            match password_save with
            | .G_PASSWORD_SAVE_FOR_SESSION => s.emit (.util_save_secret device password true)
            | .G_PASSWORD_SAVE_PERMANENTLY => s.emit (.util_save_secret device password false)
            | .G_PASSWORD_SAVE_NEVER => s
          | none => s)
        -- now we have a cleartext device; update the GVolume details to show that
        let updated := update_volume b s.volume
        let s := { s with volume := updated.2 }
        let s := if updated.1 then emit_changed s else s
        mount_cleartext_device b s data object_path_of_cleartext_device
  -- bailout: scrub the password
  let s := set_device_password_save s device .G_PASSWORD_SAVE_NEVER
  set_device_password s device none

/-- The function `mount_operation_reply`; `password` and `password_save`
are what `g_mount_operation_get_password` and
`g_mount_operation_get_password_save` return on the mount operation. -/
def mount_operation_reply (b : Backend) (s : State) (data : DataId)
    (result : GMountOperationResult) (password : Option String)
    (password_save : GPasswordSave) : State :=
  if (s.heap data).is_cancelled then
    mount_op_data_unref s data
  else
    -- we got what we wanted; don't listen to any other signals from the mount operation
    let s := if (s.heap data).mount_operation_reply_handler_id ≠ 0 then
        (s.emit (.signal_handler_disconnect (s.heap data).mount_operation_reply_handler_id)).modify
          data fun d => { d with mount_operation_reply_handler_id := 0 }
      else s
    if result ≠ .G_MOUNT_OPERATION_HANDLED then
      let s := if result = .G_MOUNT_OPERATION_ABORTED then
          g_simple_async_result_set_error s data .G_IO_ERROR G_IO_ERROR_FAILED_HANDLED
            "Password dialog aborted (user should never see this error since it is G_IO_ERROR_FAILED_HANDLED)"
        else
          g_simple_async_result_set_error s data .G_IO_ERROR G_IO_ERROR_PERMISSION_DENIED
            ("Expected G_MOUNT_OPERATION_HANDLED but got " ++ toString result.toInt)
      let s := g_simple_async_result_complete s data
      let s := s.set_pending none
      mount_op_data_unref s data
    else
      let device := (b.presentable s.volume.gdu_volume).device
      let s := set_device_password_save s device password_save
      let s := set_device_password s device password
      gdu_device_op_luks_unlock s device password .unlock_cb data

/-- The function `cancelled_cb`; its `user_data` is the volume. -/
def cancelled_cb (s : State) : State :=
  match s.volume.pending_mount_op with
  | some pending_mount_op => cancel_pending_mount_op s pending_mount_op
  | none => s

/-- The function `g_gdu_volume_removed`. -/
def g_gdu_volume_removed (s : State) : State :=
  let s := (match s.volume.pending_mount_op with
    | some pending_mount_op => cancel_pending_mount_op s pending_mount_op
    | none => s)
  let s := (match s.volume.mount with
    | some mount =>
      { s.emit (.mount_unset_volume mount) with volume := { s.volume with mount := none } }
    | none => s)
  match s.volume.drive with
  | some drive =>
    { s.emit (.drive_unset_volume drive) with volume := { s.volume with drive := none } }
  | none => s

/-- Lines 1076-1092 of `g_gdu_volume_mount`: allocate the `MountOpData` at
address `data_count`, fill in the cancellable and the mount operation,
connect `cancelled_cb` when a cancellable is given, and store the record in
`pending_mount_op`. -/
def new_mount_op_data (s : State) (mount_operation : Option MountOperationId)
    (cancellable : Option CancellableId) : State :=
  let data := s.data_count
  let s := { s with data_count := data + 1, heap := Function.update s.heap data MountOpData.zero }
  let s := s.modify data fun d => { d with cancellable := cancellable }
  let s := s.modify data fun d => { d with mount_operation := mount_operation }
  let s := (match cancellable with
    | some _ =>
      let (id, s) := g_signal_connect s "cancelled" none
      s.modify data fun d => { d with cancelled_handler_id := id }
    | none => s)
  s.set_pending (some data)

/-- Lines 1094-1145 of `g_gdu_volume_mount`: mount the cleartext device when
the volume is already unlocked; for a LUKS device try the keyring secret,
else fail when the daemon is inhibited, else prompt; otherwise mount the
device itself. -/
def start_mount_op (b : Backend) (s : State) (device : DeviceId) (data : DataId) : State :=
  -- if the device is already unlocked, just attempt to mount it
  match s.volume.cleartext_gdu_volume with
  | some cleartext_gdu_volume =>
    let luks_cleartext_volume_device := (b.presentable cleartext_gdu_volume).device
    let object_path_of_cleartext_device := (b.device luks_cleartext_volume_device).object_path
    mount_cleartext_device b s data object_path_of_cleartext_device
  | none =>
    let usage := (b.device device).id_usage
    let type := (b.device device).id_type
    if g_strcmp0_eq usage (some "crypto") && g_strcmp0_eq type (some "crypto_LUKS") then
      -- if we have the secret in the keyring, try with that first
      let s := s.emit (.util_get_secret device)
      match b.util_get_secret device with
      | some password =>
        let s := gdu_device_op_luks_unlock s device (some password)
          .unlock_from_keyring_cb data
        scrub_n_free_string s password
      | none =>
        -- don't put up a password dialog if the daemon is inhibited
        if b.pool_is_daemon_inhibited then
          let s := g_simple_async_result_set_error s data .G_IO_ERROR
            G_IO_ERROR_FAILED_HANDLED "Daemon is currently inhibited"
          let s := g_simple_async_result_complete s data
          let s := s.set_pending none
          mount_op_data_unref s data
        else
          mount_with_mount_operation b s data
    else
      let s := s.modify data fun d => { d with device_to_mount := some device }
      gdu_device_op_filesystem_mount s device data

/-- The function `g_gdu_volume_mount`. -/
def g_gdu_volume_mount (b : Backend) (s : State) (mount_operation : Option MountOperationId)
    (cancellable : Option CancellableId) : State :=
  if s.volume.pending_mount_op ≠ none then
    s.emit (.simple_async_result_complete none (some
      { domain := .G_IO_ERROR, code := G_IO_ERROR_FAILED,
        message := "A mount operation is already pending" }))
  else
    let device := (b.presentable s.volume.gdu_volume).device
    if (b.device device).optical_disc_is_blank || (b.device device).is_mounted then
      s.emit (.simple_async_result_complete none none)
    else
      let data := s.data_count
      let s := new_mount_op_data s mount_operation cancellable
      start_mount_op b s device data

/-- The function `gdu_volume_changed`, the handler of "changed" on the
volume's `GduVolume`.  The four handlers below have the same body. -/
def gdu_volume_changed (b : Backend) (s : State) : State :=
  let updated := update_volume b s.volume
  let s := { s with volume := updated.2 }
  if updated.1 then emit_changed s else s

/-- The function `gdu_volume_job_changed`. -/
def gdu_volume_job_changed (b : Backend) (s : State) : State :=
  let updated := update_volume b s.volume
  let s := { s with volume := updated.2 }
  if updated.1 then emit_changed s else s

/-- The function `gdu_cleartext_volume_removed`. -/
def gdu_cleartext_volume_removed (b : Backend) (s : State) : State :=
  let updated := update_volume b s.volume
  let s := { s with volume := updated.2 }
  if updated.1 then emit_changed s else s

/-- The function `gdu_cleartext_volume_changed`. -/
def gdu_cleartext_volume_changed (b : Backend) (s : State) : State :=
  let updated := update_volume b s.volume
  let s := { s with volume := updated.2 }
  if updated.1 then emit_changed s else s

/-- The function `gdu_cleartext_volume_job_changed`. -/
def gdu_cleartext_volume_job_changed (b : Backend) (s : State) : State :=
  let updated := update_volume b s.volume
  let s := { s with volume := updated.2 }
  if updated.1 then emit_changed s else s

/-- The function `g_gdu_volume_new`: the state right after construction. -/
def g_gdu_volume_new (b : Backend) (gdu_volume : GduVolumeId) (drive : Option DriveId)
    (activation_root : Option String) : State :=
  let volume : GGduVolume :=
    { mount := none, drive := none, gdu_volume := gdu_volume, cleartext_gdu_volume := none,
      pending_mount_op := none, icon := none, activation_root := activation_root,
      name := none, device_file := none, uuid := none, can_mount := false,
      should_automount := false, cleartext_handlers := [] }
  let volume := { volume with drive := drive }
  { volume := (update_volume b volume).2
    heap := fun _ => MountOpData.zero
    data_count := 0
    handler_count := 0
    device_data := fun _ => { password := none, password_save := .G_PASSWORD_SAVE_NEVER }
    trace := [] }

/-! ## Identifiers -/

/-- `G_VOLUME_IDENTIFIER_KIND_UNIX_DEVICE` of gio. -/
def G_VOLUME_IDENTIFIER_KIND_UNIX_DEVICE : String := "unix-device"
/-- `G_VOLUME_IDENTIFIER_KIND_LABEL` of gio. -/
def G_VOLUME_IDENTIFIER_KIND_LABEL : String := "label"
/-- `G_VOLUME_IDENTIFIER_KIND_UUID` of gio. -/
def G_VOLUME_IDENTIFIER_KIND_UUID : String := "uuid"

/-- The call `strlen (str)` on a C string: the number of its bytes. -/
def strlen (str : String) : Nat := str.utf8ByteSize

/-- The function `g_gdu_volume_get_identifier`; none is `NULL`. -/
def g_gdu_volume_get_identifier (b : Backend) (volume : GGduVolume) (kind : String) :
    Option String :=
  let device := (b.presentable volume.gdu_volume).device
  let label := (b.device device).id_label
  let uuid := (b.device device).id_uuid
  if kind = G_VOLUME_IDENTIFIER_KIND_UNIX_DEVICE then
    volume.device_file
  else if kind = G_VOLUME_IDENTIFIER_KIND_LABEL then
    if strlen label > 0 then some label else none
  else if kind = G_VOLUME_IDENTIFIER_KIND_UUID then
    if strlen uuid > 0 then some uuid else none
  else none

/-- The function `g_gdu_volume_enumerate_identifiers`: the entries of the
returned array before its terminating `NULL`. -/
def g_gdu_volume_enumerate_identifiers (b : Backend) (volume : GGduVolume) : List String :=
  let device := (b.presentable volume.gdu_volume).device
  let label := (b.device device).id_label
  let uuid := (b.device device).id_uuid
  let p : List String := []
  let p := p ++ [G_VOLUME_IDENTIFIER_KIND_UNIX_DEVICE]
  let p := if strlen label > 0 then p ++ [G_VOLUME_IDENTIFIER_KIND_LABEL] else p
  let p := if strlen uuid > 0 then p ++ [G_VOLUME_IDENTIFIER_KIND_UUID] else p
  p

/-! ## Events and reachable states -/

/-- Whether the "cancelled" handler installed for this record is still
connected: it is connected in `g_gdu_volume_mount` and disconnected only by
`mount_op_data_unref`. -/
def MountOpData.cancelled_handler_connected (d : MountOpData) : Bool :=
  d.released == 0 && d.cancelled_handler_id != 0

/-- Whether the "reply" handler installed for this record is still
connected: it is connected in `mount_with_mount_operation` and disconnected
by `mount_operation_reply` (which resets the id) or by `mount_op_data_unref`. -/
def MountOpData.reply_handler_connected (d : MountOpData) : Bool :=
  d.released == 0 && d.mount_operation_reply_handler_id != 0

/-- A request is active when it was created by `g_gdu_volume_mount`, is not
cancelled and its result has not been completed. -/
def State.active (s : State) (data : DataId) : Bool :=
  decide (data < s.data_count) && !(s.heap data).is_cancelled &&
    (s.heap data).simple.completed == 0

/-- The backend invokes a callback: the operation is no longer outstanding. -/
def State.take (s : State) (data : DataId) (callback : Callback) : State :=
  s.modify data fun d => { d with outstanding := d.outstanding.erase callback }

/-- What can happen to the volume: a call of one of its entry points, or the
invocation of a signal handler or callback it has registered.  Each event
runs to completion before the next one starts: a signal the code emits
("aborted", "ask-password", "changed") is recorded in the trace, and what its
receivers do in response (a prompt reply, a new `mount ()` call) is a later
event.  For `g_simple_async_result_complete` this means that the caller's
callback, which GLib runs inside the call, is taken not to call back into
the volume or to cancel a cancellable while it runs; a callback that does so
is the subject of `g_simple_async_result_complete_calling`.  `cancelled data` and
`reply data ..` are the invocations of the handlers connected for the record
`data`; one signal emission that reaches several connected handlers is the
sequence of their invocations. -/
inductive Event
  | mount (mount_operation : Option MountOperationId) (cancellable : Option CancellableId)
  | cancelled (data : DataId)
  | removed
  | reply (data : DataId) (result : GMountOperationResult) (password : Option String)
      (password_save : GPasswordSave)
  | unlock_from_keyring_cb (data : DataId) (result : Except GError String)
  | unlock_cb (data : DataId) (device : DeviceId) (result : Except GError String)
  | mount_cb (data : DataId) (error : Option GError)
  | mount_obtain_authz_cb (data : DataId) (res : Option GError)
  | presentable_changed

/-- One event, run against the backend as it is at that moment.  A handler
runs only while it is connected and a callback only for an operation that
is outstanding; otherwise the event cannot happen (none). -/
def step (b : Backend) (s : State) : Event → Option State
  | .mount mount_operation cancellable => some (g_gdu_volume_mount b s mount_operation cancellable)
  | .cancelled data =>
    if (s.heap data).cancelled_handler_connected then some (cancelled_cb s) else none
  | .removed => some (g_gdu_volume_removed s)
  | .reply data result password password_save =>
    if (s.heap data).reply_handler_connected then
      some (mount_operation_reply b s data result password password_save)
    else none
  | .unlock_from_keyring_cb data result =>
    if Callback.unlock_from_keyring_cb ∈ (s.heap data).outstanding then
      some (unlock_from_keyring_cb b (s.take data .unlock_from_keyring_cb) data result)
    else none
  | .unlock_cb data device result =>
    if Callback.unlock_cb ∈ (s.heap data).outstanding then
      some (unlock_cb b (s.take data .unlock_cb) data device result)
    else none
  | .mount_cb data error =>
    if Callback.mount_cb ∈ (s.heap data).outstanding then
      some (mount_cb b (s.take data .mount_cb) data error)
    else none
  | .mount_obtain_authz_cb data res =>
    if Callback.mount_obtain_authz_cb ∈ (s.heap data).outstanding then
      some (mount_obtain_authz_cb (s.take data .mount_obtain_authz_cb) data res)
    else none
  | .presentable_changed => some (gdu_volume_changed b s)

/-- Run a sequence of events, each against its own backend snapshot. -/
def run (s : State) : List (Backend × Event) → Option State
  | [] => some s
  | (b, e) :: rest =>
    match step b s e with
    | some s1 => run s1 rest
    | none => none

/-- States reachable from a freshly constructed volume. -/
inductive Reachable : State → Prop
  | init (b : Backend) (gdu_volume : GduVolumeId) (drive : Option DriveId)
      (activation_root : Option String) :
      Reachable (g_gdu_volume_new b gdu_volume drive activation_root)
  | step {s s1 : State} (b : Backend) (e : Event) :
      Reachable s → step b s e = some s1 → Reachable s1

/-! ## Sample backends -/

/-- A plain, unmounted, non-encrypted partition `/dev/sdb1` (device 0,
presentable 0). -/
def plain_backend : Backend :=
  { presentable := fun _ =>
      { device := 0, name := some "Data", icon := some (GIcon.other 0),
        toplevel_name := some "USB Stick" }
    device := fun _ =>
      { object_path := "/org/freedesktop/DeviceKit/Disks/devices/sdb1",
        device_file := some "/dev/sdb1", is_luks := false, luks_holder := none,
        is_mounted := false, optical_disc_is_blank := false,
        id_usage := some "filesystem", id_type := some "ext3", id_label := "Data",
        id_uuid := "1234", is_partition := true, partition_number := 1 }
    pool_get_by_object_path := fun _ => none
    pool_get_volume_by_device := fun _ => none
    pool_is_daemon_inhibited := false
    util_get_secret := fun _ => none
    error_check_polkit_not_authorized := fun _ => none
    now := 1000
    time_of_last_media_insertion := fun _ => 999 }

/-- A backend failure "device is busy". -/
def busy_error : GError :=
  { domain := .GDU_ERROR, code := 1, message := "Device is busy" }

/-- The same partition once the backend reports it mounted. -/
def mounted_backend : Backend :=
  { plain_backend with
    device := fun d => { plain_backend.device d with is_mounted := true } }

/-- A freshly constructed volume on the plain partition. -/
def fresh_plain_state : State := g_gdu_volume_new plain_backend 0 none none

/-- The plain volume after one `mount ()` call: request 0 is pending, its
filesystem mount is outstanding. -/
def pending_plain_state : State := g_gdu_volume_mount plain_backend fresh_plain_state none none

/-- A locked LUKS partition `/dev/sdb2` (device 0, presentable 0): no
cleartext holder, no secret in the keyring, daemon not inhibited. -/
def luks_backend : Backend :=
  { presentable := fun _ =>
      { device := 0, name := some "Encrypted", icon := some (GIcon.other 1),
        toplevel_name := some "USB Stick" }
    device := fun _ =>
      { object_path := "/org/freedesktop/DeviceKit/Disks/devices/sdb2",
        device_file := some "/dev/sdb2", is_luks := true, luks_holder := some "/",
        is_mounted := false, optical_disc_is_blank := false,
        id_usage := some "crypto", id_type := some "crypto_LUKS", id_label := "",
        id_uuid := "abcd", is_partition := true, partition_number := 2 }
    pool_get_by_object_path := fun _ => none
    pool_get_volume_by_device := fun _ => none
    pool_is_daemon_inhibited := false
    util_get_secret := fun _ => none
    error_check_polkit_not_authorized := fun _ => none
    now := 1000
    time_of_last_media_insertion := fun _ => 999 }

/-- The locked LUKS partition with a secret stored in the keyring. -/
def luks_keyring_backend : Backend :=
  { luks_backend with util_get_secret := fun _ => some "old secret" }

/-- The LUKS partition once unlocked: the holder is the cleartext device
`dm-0` (device 1, presentable 1), which the pool resolves. -/
def luks_unlocked_backend : Backend :=
  { luks_backend with
    presentable := fun v =>
      if v = 1 then
        { device := 1, name := some "Secret Data", icon := some (GIcon.other 2),
          toplevel_name := some "USB Stick" }
      else luks_backend.presentable v
    device := fun d =>
      if d = 1 then
        { object_path := "/org/freedesktop/DeviceKit/Disks/devices/dm_2d0",
          device_file := some "/dev/dm-0", is_luks := false, luks_holder := none,
          is_mounted := false, optical_disc_is_blank := false,
          id_usage := some "filesystem", id_type := some "ext3", id_label := "Secret Data",
          id_uuid := "ef01", is_partition := false, partition_number := 0 }
      else
        { luks_backend.device d with
          luks_holder := some "/org/freedesktop/DeviceKit/Disks/devices/dm_2d0" }
    pool_get_by_object_path := fun path =>
      if path = "/org/freedesktop/DeviceKit/Disks/devices/dm_2d0" then some 1 else none
    pool_get_volume_by_device := fun d => if d = 1 then some 1 else none }

/-- A freshly constructed volume on the locked LUKS partition. -/
def fresh_luks_state : State := g_gdu_volume_new luks_backend 0 none none

/-- The LUKS volume after `mount ()` with mount operation 5 and cancellable 7
while the keyring holds a secret: request 0 waits for the keyring unlock. -/
def keyring_unlock_state : State :=
  g_gdu_volume_mount luks_keyring_backend fresh_luks_state (some 5) (some 7)

/-- The LUKS volume after `mount ()` with mount operation 5 and cancellable 7
and no secret in the keyring: request 0 waits for the prompt reply. -/
def prompting_state : State :=
  g_gdu_volume_mount luks_backend fresh_luks_state (some 5) (some 7)

/-- A backend failure of an unlock. -/
def unlock_error : GError :=
  { domain := .GDU_ERROR, code := 0, message := "Error unlocking device" }

/-- Five events on the plain volume: request 0 is started with cancellable
7 and cancelled; request 1 is started; the mount callback of the cancelled
request 0 arrives (the backend reports a failure); request 2 is started. -/
def overlapping_requests : List (Backend × Event) :=
  [(plain_backend, .mount none (some 7)),
   (plain_backend, .cancelled 0),
   (plain_backend, .mount none none),
   (plain_backend, .mount_cb 0 (some busy_error)),
   (plain_backend, .mount none none)]

/-- The state the plain volume is in after `overlapping_requests`. -/
def overlapping_state : State :=
  g_gdu_volume_mount plain_backend
    (mount_cb plain_backend
      ((g_gdu_volume_mount plain_backend
        (cancelled_cb (g_gdu_volume_mount plain_backend fresh_plain_state none (some 7)))
        none none).take 0 .mount_cb)
      0 (some busy_error))
    none none

/-- The LUKS volume after request 0 was cancelled while it waited for the
prompt reply. -/
def cancelled_prompt_state : State := cancelled_cb prompting_state

/-- The effects that are calls on behalf of a mount request: secret lookup
and store, prompt signals, unlock, filesystem mount, authorization request
and completion of a result.  (Signal connections and disconnections, change
notifications and scrubbing are the others.) -/
def Effect.is_request_call : Effect → Bool
  | .simple_async_result_complete _ _ => true
  | .signal_emit_aborted _ => true
  | .signal_emit_ask_password _ _ _ => true
  | .util_get_secret _ => true
  | .device_op_luks_unlock _ _ _ _ => true
  | .device_op_filesystem_mount _ _ => true
  | .obtain_authz _ _ _ => true
  | .util_save_secret _ _ _ => true
  | _ => false

/-- The volume record of the plain partition on drive 3 as `g_gdu_volume_new`
has filled it in before it calls `update_volume`. -/
def appearing_volume : GGduVolume :=
  { mount := none, drive := some 3, gdu_volume := 0, cleartext_gdu_volume := none,
    pending_mount_op := none, icon := none, activation_root := none,
    name := none, device_file := none, uuid := none, can_mount := false,
    should_automount := false, cleartext_handlers := [] }

/-- The plain partition ten seconds after the last media insertion of its
drive. -/
def late_backend : Backend := { plain_backend with now := 1009 }

/-- A volume record of the plain partition that belongs to drive 3. -/
def drive_volume : GGduVolume := (g_gdu_volume_new plain_backend 0 (some 3) none).volume

/-- The locked LUKS partition while the daemon is inhibited. -/
def luks_inhibited_backend : Backend := { luks_backend with pool_is_daemon_inhibited := true }

/-- A failure that is not the backend's inhibited error: its domain is not
`GDU_ERROR` (for instance a D-Bus transport error that the backend hands on
unchanged), while its code happens to be 3. -/
def foreign_error : GError :=
  { domain := .other 1, code := 3, message := "Could not get owner of name" }

/-- The not-authorized failure of a filesystem mount that PolicyKit would
grant after authentication. -/
def not_authorized_error : GError :=
  { domain := .other 1, code := 32, message := "Not authorized" }

/-- The plain partition where mounting needs an authorization that can be
obtained: `gdu_error_check_polkit_not_authorized` recognises
`not_authorized_error`. -/
def polkit_backend : Backend :=
  { plain_backend with
    error_check_polkit_not_authorized := fun error =>
      if error = not_authorized_error then
        some ("org.freedesktop.devicekit.disks.filesystem-mount",
          PolKitResult.POLKIT_RESULT_ONLY_VIA_ADMIN_AUTH)
      else none }

/-- Request 0 of the LUKS volume fails in `unlock_cb` with `foreign_error`. -/
def foreign_unlock_failure : List (Backend × Event) :=
  [(luks_backend, .mount (some 5) (some 7)),
   (luks_backend, .reply 0 .G_MOUNT_OPERATION_HANDLED (some "passphrase")
      .G_PASSWORD_SAVE_NEVER),
   (luks_backend, .unlock_cb 0 0 (.error foreign_error))]

/-- Request 0 of the plain volume fails in `mount_cb` with `foreign_error`. -/
def foreign_mount_failure : List (Backend × Event) :=
  [(plain_backend, .mount none none),
   (plain_backend, .mount_cb 0 (some foreign_error))]

/-- Request 0 of the plain volume (mount operation 5) is not authorized to
mount, asks for the authorization, and `mount_obtain_authz_cb` receives
`foreign_error`. -/
def foreign_authz_failure : List (Backend × Event) :=
  [(polkit_backend, .mount (some 5) none),
   (polkit_backend, .mount_cb 0 (some not_authorized_error)),
   (polkit_backend, .mount_obtain_authz_cb 0 (some foreign_error))]

/-- The error of the result of record `data` in the state reached by a run,
none when the run is not possible or the result carries no error. -/
def run_result_error (s : State) (events : List (Backend × Event)) (data : DataId) :
    Option GError :=
  match run s events with
  | some s1 => (s1.heap data).simple.error
  | none => none

/-- The record whose handler or callback an event runs, if any. -/
def Event.record : Event → Option DataId
  | .mount _ _ => none
  | .cancelled data => some data
  | .removed => none
  | .reply data _ _ _ => some data
  | .unlock_from_keyring_cb data _ => some data
  | .unlock_cb data _ _ => some data
  | .mount_cb data _ => some data
  | .mount_obtain_authz_cb data _ => some data
  | .presentable_changed => none

/-- The LUKS volume after the prompt of request 0 was answered with a
passphrase: the unlock is outstanding. -/
def unlocking_events : List (Backend × Event) :=
  [(luks_backend, .mount (some 5) (some 7)),
   (luks_backend, .reply 0 .G_MOUNT_OPERATION_HANDLED (some "passphrase")
      .G_PASSWORD_SAVE_NEVER)]

/-- The state reached by `unlocking_events`. -/
def unlocking_state : State :=
  mount_operation_reply luks_backend prompting_state 0 .G_MOUNT_OPERATION_HANDLED
    (some "passphrase") .G_PASSWORD_SAVE_NEVER

/-- A volume record of the LUKS partition whose activation root is the
audio-disc location `cdda://sr0`. -/
def audio_luks_volume : GGduVolume :=
  (g_gdu_volume_new luks_backend 0 none (some "cdda://sr0")).volume

/-- A volume record of the plain partition whose activation root is the
audio-disc location `cdda://sr0`. -/
def audio_volume : GGduVolume :=
  (g_gdu_volume_new plain_backend 0 none (some "cdda://sr0")).volume

/-- Whether at least one of `can_mount`, `should_automount`, `name`,
`device_file` and `icon` differs between two volume records. -/
def observable_change (old new : GGduVolume) : Bool :=
  decide (old.can_mount ≠ new.can_mount ∨ old.should_automount ≠ new.should_automount ∨
    old.name ≠ new.name ∨ old.device_file ≠ new.device_file ∨ old.icon ≠ new.icon)

/-- The five handlers that recompute the volume. -/
def change_handlers : List (Backend → State → State) :=
  [gdu_volume_changed, gdu_volume_job_changed, gdu_cleartext_volume_removed,
   gdu_cleartext_volume_changed, gdu_cleartext_volume_job_changed]

/-! ## Effect lists named in the statements -/

/-- The effects of `cancel_pending_mount_op` on a request bound to
`mount_operation`: "aborted" on the mount operation when one is bound, then
the completion with `(G_IO_ERROR, G_IO_ERROR_FAILED_HANDLED)`. -/
def cancel_effects (data : DataId) (mount_operation : Option MountOperationId) : List Effect :=
  (match mount_operation with
    | some m => [Effect.signal_emit_aborted m]
    | none => []) ++
  [Effect.simple_async_result_complete (some data) (some
    { domain := .G_IO_ERROR, code := G_IO_ERROR_FAILED_HANDLED,
      message := "Operation was cancelled" })]

/-- The effects of the last two statements of `g_gdu_volume_removed`. -/
def unset_effects (volume : GGduVolume) : List Effect :=
  (match volume.mount with
    | some mount => [Effect.mount_unset_volume mount]
    | none => []) ++
  (match volume.drive with
    | some drive => [Effect.drive_unset_volume drive]
    | none => [])

/-- The effects of the success branch of `unlock_cb` before the mount of
the cleartext device: the secret store chosen by the save policy, then the
change notification when `update_volume` reports a change. -/
def unlock_success_effects (b : Backend) (s : State) (device : DeviceId) : List Effect :=
  (match (s.device_data device).password with
    | some password =>
      match (s.device_data device).password_save with
      | .G_PASSWORD_SAVE_FOR_SESSION => [Effect.util_save_secret device password true]
      | .G_PASSWORD_SAVE_PERMANENTLY => [Effect.util_save_secret device password false]
      | .G_PASSWORD_SAVE_NEVER => []
    | none => []) ++
  (if (update_volume b s.volume).1 then
    [Effect.signal_emit_changed, Effect.signal_emit_volume_changed]
   else [])

/-- The error `mount_operation_reply` sets on the result for a reply that is
not `G_MOUNT_OPERATION_HANDLED` (lines 884-898). -/
def not_handled_error (result : GMountOperationResult) : GError :=
  if result = .G_MOUNT_OPERATION_ABORTED then
    { domain := .G_IO_ERROR, code := G_IO_ERROR_FAILED_HANDLED,
      message := "Password dialog aborted (user should never see this error since it is G_IO_ERROR_FAILED_HANDLED)" }
  else
    { domain := .G_IO_ERROR, code := G_IO_ERROR_PERMISSION_DENIED,
      message := "Expected G_MOUNT_OPERATION_HANDLED but got " ++ toString result.toInt }

/-! ## The invariant of the mount flow -/

/-- Bookkeeping of one `MountOpData` record that holds in every reachable
state: it is released at most once, and only after its result was completed
exactly once and with no operation outstanding; at most one continuation (an
outstanding backend operation or the "reply" handler) exists for it; a
cancelled record has its result completed exactly once; a record that is
neither cancelled nor released has its result not completed. -/
def record_ok (x : MountOpData) : Prop :=
  x.released ≤ 1 ∧
  (x.released = 1 → x.outstanding = [] ∧ x.simple.completed = 1) ∧
  x.outstanding.length + (if x.mount_operation_reply_handler_id = 0 then 0 else 1) ≤ 1 ∧
  (x.is_cancelled = true → x.simple.completed = 1) ∧
  (x.is_cancelled = false → x.released = 0 → x.simple.completed = 0)

/-- The invariant of the mount flow: every record satisfies `record_ok`, and
the record in `pending_mount_op` is neither cancelled nor released. -/
def Inv (s : State) : Prop :=
  (∀ d : DataId, record_ok (s.heap d)) ∧
  (∀ p : DataId, s.volume.pending_mount_op = some p →
    (s.heap p).is_cancelled = false ∧ (s.heap p).released = 0)

/-- A record for which no continuation exists: it is not released, no
operation is outstanding and the "reply" handler is not connected.  This is
the situation of a record while one of its callbacks runs. -/
def Quiet (s : State) (data : DataId) : Prop :=
  (s.heap data).outstanding = [] ∧ (s.heap data).mount_operation_reply_handler_id = 0 ∧
    (s.heap data).released = 0

/-! ## Sample data: inhibition, authorization and late callbacks -/

/-- The locked LUKS partition with a secret in the keyring while the daemon
is inhibited. -/
def luks_keyring_inhibited_backend : Backend :=
  { luks_keyring_backend with pool_is_daemon_inhibited := true }

/-- Request 0 of the LUKS volume (mount operation 5, cancellable 7) is
started while the keyring holds a secret and the daemon is inhibited; the
unlock with the keyring secret fails. -/
def inhibited_keyring_failure : List (Backend × Event) :=
  [(luks_keyring_inhibited_backend, .mount (some 5) (some 7)),
   (luks_keyring_inhibited_backend, .unlock_from_keyring_cb 0 (.error unlock_error))]

/-- The state the LUKS volume is in after `inhibited_keyring_failure`. -/
def inhibited_prompt_state : State :=
  unlock_from_keyring_cb luks_keyring_inhibited_backend
    ((g_gdu_volume_mount luks_keyring_inhibited_backend fresh_luks_state (some 5)
      (some 7)).take 0 .unlock_from_keyring_cb)
    0 (.error unlock_error)

/-- One round of the authorization retry of record `data`: the filesystem
mount fails with `error`, and the authorization that `mount_cb` asks for is
granted. -/
def authz_round (b : Backend) (error : GError) (data : DataId) : List (Backend × Event) :=
  [(b, .mount_cb data (some error)), (b, .mount_obtain_authz_cb data none)]

/-- The events of `n` rounds of the authorization retry in a row. -/
def authz_rounds (b : Backend) (error : GError) (data : DataId) : Nat → List (Backend × Event)
  | 0 => []
  | n + 1 => authz_round b error data ++ authz_rounds b error data n

/-- Request 0 of the plain volume (mount operation 5) is not authorized to
mount; the authorization is granted, the mount that is issued again fails
the same way, and the authorization is granted a second time. -/
def repeated_authorization : List (Backend × Event) :=
  (polkit_backend, .mount (some 5) none) :: authz_rounds polkit_backend not_authorized_error 0 2

/-- The state the plain volume is in after `repeated_authorization`. -/
def repeated_authorization_state : State :=
  mount_obtain_authz_cb
    ((mount_cb polkit_backend
      ((mount_obtain_authz_cb
        ((mount_cb polkit_backend
          ((g_gdu_volume_mount polkit_backend fresh_plain_state (some 5) none).take 0 .mount_cb)
          0 (some not_authorized_error)).take 0 .mount_obtain_authz_cb)
        0 none).take 0 .mount_cb)
      0 (some not_authorized_error)).take 0 .mount_obtain_authz_cb)
    0 none

/-- The locked LUKS partition where the backend recognises
`not_authorized_error` as a polkit failure that an authentication would
overcome. -/
def luks_polkit_backend : Backend :=
  { luks_backend with
    error_check_polkit_not_authorized := polkit_backend.error_check_polkit_not_authorized }

/-- Request 0 of the plain volume is started with cancellable 7 and
cancelled; request 1 is started while the filesystem mount of request 0 is
still outstanding. -/
def superseded_mount : List (Backend × Event) :=
  [(plain_backend, .mount none (some 7)),
   (plain_backend, .cancelled 0),
   (plain_backend, .mount none none)]

/-- The state the plain volume is in after `superseded_mount`. -/
def superseded_mount_state : State :=
  g_gdu_volume_mount plain_backend
    (cancelled_cb (g_gdu_volume_mount plain_backend fresh_plain_state none (some 7)))
    none none

/-- Request 0 of the plain volume (mount operation 5, cancellable 7) has
asked for the authorization to mount and is cancelled; request 1 is started
while the authorization request of request 0 is still outstanding. -/
def superseded_authz : List (Backend × Event) :=
  [(polkit_backend, .mount (some 5) (some 7)),
   (polkit_backend, .mount_cb 0 (some not_authorized_error)),
   (polkit_backend, .cancelled 0),
   (polkit_backend, .mount (some 5) none)]

/-- The state the plain volume is in after `superseded_authz`. -/
def superseded_authz_state : State :=
  g_gdu_volume_mount polkit_backend
    (cancelled_cb
      (mount_cb polkit_backend
        ((g_gdu_volume_mount polkit_backend fresh_plain_state (some 5) (some 7)).take 0
          .mount_cb)
        0 (some not_authorized_error)))
    (some 5) none

/-- The calls of `gdu_util_save_secret`. -/
def Effect.is_save_secret : Effect → Bool
  | .util_save_secret _ _ _ => true
  | _ => false

/-- The calls of `gdu_util_save_secret` made so far, in order. -/
def State.saved (s : State) : List Effect := s.trace.filter Effect.is_save_secret

/-! ## The memory of a scrubbed string -/

/-- The C call `strlen (s)` on the bytes of a buffer: the number of bytes
before the first zero byte. -/
def buffer_strlen (buffer : List Nat) : Nat := (buffer.takeWhile fun byte => byte ≠ 0).length

/-- The C call `memset (s, c, n)`: the first `n` bytes of the buffer are
set to `c`. -/
def memset (buffer : List Nat) (c : Nat) (n : Nat) : List Nat :=
  List.replicate (min n buffer.length) c ++ buffer.drop n

/-- The bytes of the buffer `password` at the moment `scrub_n_free_string`
hands it to `g_free`: after `memset (password, 0, strlen (password))`. -/
def scrubbed (password : List Nat) : List Nat := memset password 0 (buffer_strlen password)

/-! ## Sample data: a cancellation that reaches another request -/

/-- Six events on the plain volume: request 0 is started with cancellable 7
and cancelled; request 1 is started with cancellable 8; the mount callback
of the cancelled request 0 arrives; request 2 is started without a
cancellable; cancellable 8 emits "cancelled", which invokes the handler
connected for request 1. -/
def misdirected_cancel : List (Backend × Event) :=
  [(plain_backend, .mount none (some 7)),
   (plain_backend, .cancelled 0),
   (plain_backend, .mount none (some 8)),
   (plain_backend, .mount_cb 0 none),
   (plain_backend, .mount none none),
   (plain_backend, .cancelled 1)]

/-- The state the plain volume is in after the first five events of
`misdirected_cancel`. -/
def three_requests_state : State :=
  g_gdu_volume_mount plain_backend
    (mount_cb plain_backend
      ((g_gdu_volume_mount plain_backend
        (cancelled_cb (g_gdu_volume_mount plain_backend fresh_plain_state none (some 7)))
        none (some 8)).take 0 .mount_cb)
      0 none)
    none none

/-- The state the plain volume is in after `misdirected_cancel`. -/
def misdirected_cancel_state : State := cancelled_cb three_requests_state

/-- Four events on the plain volume: request 0 is started with cancellable
7; the volume is removed; request 1 is started without a cancellable;
cancellable 7 emits "cancelled", which invokes the handler connected for
request 0. -/
def cancel_after_removal : List (Backend × Event) :=
  [(plain_backend, .mount none (some 7)),
   (plain_backend, .removed),
   (plain_backend, .mount none none),
   (plain_backend, .cancelled 0)]

/-- The state the plain volume is in after `cancel_after_removal`. -/
def cancel_after_removal_state : State :=
  cancelled_cb
    (g_gdu_volume_mount plain_backend
      (g_gdu_volume_removed (g_gdu_volume_mount plain_backend fresh_plain_state none (some 7)))
      none none)

/-! ## Completion while the caller's callback calls back -/

/-- The call `g_simple_async_result_complete (data->simple)` when the
caller's callback, which GLib runs inside this call before it returns,
calls back into the volume.  `calls` lists what the callback reaches, in
order: a `mount ()` call, or the "cancelled" handler of a record, which
`g_cancellable_cancel` invokes before it returns.  The calls run in the state
the completing function has reached so far; when one of them is not possible
there (its handler is not connected) the callback makes none.  What the
callback does when it is run again inside these calls is not followed. -/
def g_simple_async_result_complete_calling (s : State) (data : DataId)
    (calls : List (Backend × Event)) : State :=
  let s := g_simple_async_result_complete s data
  match run s calls with
  | some s1 => s1
  | none => s

/-- The function `mount_cb`, with what the caller's callback does while
`g_simple_async_result_complete` runs it (line 699): the statements after
the completion, `data->volume->pending_mount_op = NULL` and
`mount_op_data_unref (data)`, act on the state the callback leaves behind. -/
def mount_cb_calling (b : Backend) (s : State) (data : DataId) (error : Option GError)
    (calls : List (Backend × Event)) : State :=
  if (s.heap data).is_cancelled then
    -- bailout
    mount_op_data_unref (s.set_pending none) data
  else
    let finish := fun (s : State) =>
      let s := g_simple_async_result_complete_calling s data calls
      -- bailout
      mount_op_data_unref (s.set_pending none) data
    match error with
    | some error =>
      let not_authorized :=
        if (s.heap data).mount_operation ≠ none then b.error_check_polkit_not_authorized error
        else none
      match not_authorized with
      | some (action_id, pk_result) =>
        if pk_result ≠ .POLKIT_RESULT_NO ∧ pk_result ≠ .POLKIT_RESULT_UNKNOWN then
          obtain_authz s action_id (s.heap data).cancellable data
        else
          finish (g_simple_async_result_set_from_error s data error)
      | none =>
        finish (g_simple_async_result_set_from_error s data (quiet_if_inhibited error))
    | none => finish s

/-- Request 0 of the plain volume, started with cancellable 7, is mounted
successfully; the caller's callback, run by the completion in `mount_cb`,
cancels cancellable 7. -/
def cancel_in_callback_state : State :=
  mount_cb_calling plain_backend
    ((g_gdu_volume_mount plain_backend fresh_plain_state none (some 7)).take 0 .mount_cb)
    0 none [(plain_backend, .cancelled 0)]

/-! ## Theorems -/

/-! ### Projections of the primitive state updates -/

@[simp] theorem emit_trace (s : State) (e : Effect) : (s.emit e).trace = s.trace ++ [e] := rfl
@[simp] theorem emit_heap (s : State) (e : Effect) : (s.emit e).heap = s.heap := rfl
@[simp] theorem emit_volume (s : State) (e : Effect) : (s.emit e).volume = s.volume := rfl
@[simp] theorem emit_data_count (s : State) (e : Effect) :
    (s.emit e).data_count = s.data_count := rfl
@[simp] theorem emit_handler_count (s : State) (e : Effect) :
    (s.emit e).handler_count = s.handler_count := rfl
@[simp] theorem emit_device_data (s : State) (e : Effect) :
    (s.emit e).device_data = s.device_data := rfl

@[simp] theorem modify_trace (s : State) (d : DataId) (f : MountOpData → MountOpData) :
    (s.modify d f).trace = s.trace := rfl
@[simp] theorem modify_heap (s : State) (d : DataId) (f : MountOpData → MountOpData) :
    (s.modify d f).heap = Function.update s.heap d (f (s.heap d)) := rfl
@[simp] theorem modify_volume (s : State) (d : DataId) (f : MountOpData → MountOpData) :
    (s.modify d f).volume = s.volume := rfl
@[simp] theorem modify_data_count (s : State) (d : DataId) (f : MountOpData → MountOpData) :
    (s.modify d f).data_count = s.data_count := rfl
@[simp] theorem modify_handler_count (s : State) (d : DataId) (f : MountOpData → MountOpData) :
    (s.modify d f).handler_count = s.handler_count := rfl
@[simp] theorem modify_device_data (s : State) (d : DataId) (f : MountOpData → MountOpData) :
    (s.modify d f).device_data = s.device_data := rfl

@[simp] theorem set_pending_trace (s : State) (p : Option DataId) :
    (s.set_pending p).trace = s.trace := rfl
@[simp] theorem set_pending_heap (s : State) (p : Option DataId) :
    (s.set_pending p).heap = s.heap := rfl
@[simp] theorem set_pending_pending (s : State) (p : Option DataId) :
    (s.set_pending p).volume.pending_mount_op = p := rfl
@[simp] theorem set_pending_volume (s : State) (p : Option DataId) :
    (s.set_pending p).volume = { s.volume with pending_mount_op := p } := rfl
@[simp] theorem set_pending_data_count (s : State) (p : Option DataId) :
    (s.set_pending p).data_count = s.data_count := rfl
@[simp] theorem set_pending_handler_count (s : State) (p : Option DataId) :
    (s.set_pending p).handler_count = s.handler_count := rfl
@[simp] theorem set_pending_device_data (s : State) (p : Option DataId) :
    (s.set_pending p).device_data = s.device_data := rfl

/-! ### What `cancel_pending_mount_op` does -/

theorem cancel_pending_mount_op_heap (s : State) (p : DataId) :
    (cancel_pending_mount_op s p).heap = Function.update s.heap p
      { s.heap p with
        is_cancelled := true
        simple :=
          { error := some { domain := .G_IO_ERROR, code := G_IO_ERROR_FAILED_HANDLED,
                            message := "Operation was cancelled" },
            completed := (s.heap p).simple.completed + 1 } } := by
  unfold cancel_pending_mount_op g_simple_async_result_complete g_simple_async_result_set_error
  cases h : (s.heap p).mount_operation <;> simp [h]

theorem cancel_pending_mount_op_volume (s : State) (p : DataId) :
    (cancel_pending_mount_op s p).volume = { s.volume with pending_mount_op := none } := by
  unfold cancel_pending_mount_op g_simple_async_result_complete g_simple_async_result_set_error
  cases h : (s.heap p).mount_operation <;> simp [h]

theorem cancel_pending_mount_op_trace (s : State) (p : DataId) :
    (cancel_pending_mount_op s p).trace =
      s.trace ++
        ((match (s.heap p).mount_operation with
          | some m => [Effect.signal_emit_aborted m]
          | none => []) ++
        [Effect.simple_async_result_complete (some p) (some
          { domain := .G_IO_ERROR, code := G_IO_ERROR_FAILED_HANDLED,
            message := "Operation was cancelled" })]) := by
  unfold cancel_pending_mount_op g_simple_async_result_complete g_simple_async_result_set_error
  cases h : (s.heap p).mount_operation <;> simp [h]

/-- Claim C2 (busy rejection): when `pending_mount_op` is not `NULL`,
`g_gdu_volume_mount` only completes a fresh result with
`(G_IO_ERROR, G_IO_ERROR_FAILED)` "A mount operation is already pending":
the trace gains exactly that completion (no secret lookup, prompt, unlock
or mount call), and the volume with its `pending_mount_op`, every
`MountOpData` record, the allocation counters and the device data are
unchanged. -/
theorem mount_busy_rejected (b : Backend) (s : State)
    (mount_operation : Option MountOperationId) (cancellable : Option CancellableId)
    (h : s.volume.pending_mount_op ≠ none) :
    (g_gdu_volume_mount b s mount_operation cancellable).trace =
        s.trace ++ [Effect.simple_async_result_complete none (some
          { domain := .G_IO_ERROR, code := G_IO_ERROR_FAILED,
            message := "A mount operation is already pending" })] ∧
      (g_gdu_volume_mount b s mount_operation cancellable).volume = s.volume ∧
      (g_gdu_volume_mount b s mount_operation cancellable).heap = s.heap ∧
      (g_gdu_volume_mount b s mount_operation cancellable).data_count = s.data_count ∧
      (g_gdu_volume_mount b s mount_operation cancellable).handler_count = s.handler_count ∧
      (g_gdu_volume_mount b s mount_operation cancellable).device_data = s.device_data := by
  simp [g_gdu_volume_mount, h, State.emit]

/-- Claim C2, instance of `mount_busy_rejected`: a second `mount ()` on the plain
volume while request 0 is pending. -/
theorem mount_busy_rejected_witness :
    pending_plain_state.volume.pending_mount_op ≠ none ∧
    (g_gdu_volume_mount plain_backend pending_plain_state (some 3) (some 4)).trace =
        pending_plain_state.trace ++ [Effect.simple_async_result_complete none (some
          { domain := .G_IO_ERROR, code := G_IO_ERROR_FAILED,
            message := "A mount operation is already pending" })] ∧
      (g_gdu_volume_mount plain_backend pending_plain_state (some 3) (some 4)).volume =
        pending_plain_state.volume ∧
      (g_gdu_volume_mount plain_backend pending_plain_state (some 3) (some 4)).heap =
        pending_plain_state.heap ∧
      (g_gdu_volume_mount plain_backend pending_plain_state (some 3) (some 4)).data_count =
        pending_plain_state.data_count ∧
      (g_gdu_volume_mount plain_backend pending_plain_state (some 3) (some 4)).handler_count =
        pending_plain_state.handler_count ∧
      (g_gdu_volume_mount plain_backend pending_plain_state (some 3) (some 4)).device_data =
        pending_plain_state.device_data :=
  ⟨by decide, mount_busy_rejected plain_backend pending_plain_state (some 3) (some 4) (by decide)⟩

/-- Claim C3, counterexample: the device of the plain volume is reported
mounted while request 0 is pending; `g_gdu_volume_mount` then completes the
caller's result with the error "A mount operation is already pending", not
with success. -/
theorem mount_on_mounted_device_while_busy :
    (mounted_backend.device
        (mounted_backend.presentable pending_plain_state.volume.gdu_volume).device).is_mounted
      = true ∧
    (g_gdu_volume_mount mounted_backend pending_plain_state none none).trace =
      pending_plain_state.trace ++ [Effect.simple_async_result_complete none (some
        { domain := .G_IO_ERROR, code := G_IO_ERROR_FAILED,
          message := "A mount operation is already pending" })] := by
  decide

/-- Claim C3 (idempotent mount, amended): when no request is pending and the
device is already mounted or is a blank optical disc, `g_gdu_volume_mount`
only completes a fresh result with success: the trace gains exactly that
completion (no secret lookup, prompt, unlock or filesystem-mount call), no
`MountOpData` is created and the volume with its `pending_mount_op` is
unchanged. -/
theorem mount_idempotent (b : Backend) (s : State)
    (mount_operation : Option MountOperationId) (cancellable : Option CancellableId)
    (h_idle : s.volume.pending_mount_op = none)
    (h : (b.device (b.presentable s.volume.gdu_volume).device).optical_disc_is_blank = true ∨
         (b.device (b.presentable s.volume.gdu_volume).device).is_mounted = true) :
    (g_gdu_volume_mount b s mount_operation cancellable).trace =
        s.trace ++ [Effect.simple_async_result_complete none none] ∧
      (g_gdu_volume_mount b s mount_operation cancellable).volume = s.volume ∧
      (g_gdu_volume_mount b s mount_operation cancellable).heap = s.heap ∧
      (g_gdu_volume_mount b s mount_operation cancellable).data_count = s.data_count ∧
      (g_gdu_volume_mount b s mount_operation cancellable).handler_count = s.handler_count ∧
      (g_gdu_volume_mount b s mount_operation cancellable).device_data = s.device_data := by
  have hb : ((b.device (b.presentable s.volume.gdu_volume).device).optical_disc_is_blank ||
      (b.device (b.presentable s.volume.gdu_volume).device).is_mounted) = true := by
    rcases h with h | h <;> simp [h]
  simp [g_gdu_volume_mount, h_idle, hb, State.emit]

/-- Claim C3, instance of `mount_idempotent`: `mount ()` on the idle plain volume once
its device is mounted. -/
theorem mount_idempotent_witness :
    fresh_plain_state.volume.pending_mount_op = none ∧
    (mounted_backend.device
        (mounted_backend.presentable fresh_plain_state.volume.gdu_volume).device).is_mounted
      = true ∧
    (g_gdu_volume_mount mounted_backend fresh_plain_state (some 3) none).trace =
        fresh_plain_state.trace ++ [Effect.simple_async_result_complete none none] ∧
      (g_gdu_volume_mount mounted_backend fresh_plain_state (some 3) none).volume =
        fresh_plain_state.volume ∧
      (g_gdu_volume_mount mounted_backend fresh_plain_state (some 3) none).heap =
        fresh_plain_state.heap ∧
      (g_gdu_volume_mount mounted_backend fresh_plain_state (some 3) none).data_count =
        fresh_plain_state.data_count ∧
      (g_gdu_volume_mount mounted_backend fresh_plain_state (some 3) none).handler_count =
        fresh_plain_state.handler_count ∧
      (g_gdu_volume_mount mounted_backend fresh_plain_state (some 3) none).device_data =
        fresh_plain_state.device_data :=
  ⟨by decide, by decide,
    mount_idempotent mounted_backend fresh_plain_state (some 3) none (by decide)
      (Or.inr (by decide))⟩

/-- Claim C5 (cancellation effects): when a request `p` is pending, both
`cancelled_cb` and `g_gdu_volume_removed` set `pending_mount_op` to `NULL`,
set the request's `is_cancelled`, emit "aborted" on the mount operation
exactly when one is bound, and complete the request's result once more with
`(G_IO_ERROR, G_IO_ERROR_FAILED_HANDLED)`; when no request is pending
`cancelled_cb` changes nothing and `g_gdu_volume_removed` touches no record
and completes nothing (it only detaches the mount and the drive). -/
theorem cancellation_effects (s : State) :
    match s.volume.pending_mount_op with
    | some p =>
      (cancelled_cb s).volume.pending_mount_op = none ∧
      ((cancelled_cb s).heap p).is_cancelled = true ∧
      ((cancelled_cb s).heap p).simple =
        { error := some { domain := .G_IO_ERROR, code := G_IO_ERROR_FAILED_HANDLED,
                          message := "Operation was cancelled" },
          completed := (s.heap p).simple.completed + 1 } ∧
      (cancelled_cb s).trace = s.trace ++ cancel_effects p (s.heap p).mount_operation ∧
      (g_gdu_volume_removed s).volume.pending_mount_op = none ∧
      ((g_gdu_volume_removed s).heap p).is_cancelled = true ∧
      ((g_gdu_volume_removed s).heap p).simple =
        { error := some { domain := .G_IO_ERROR, code := G_IO_ERROR_FAILED_HANDLED,
                          message := "Operation was cancelled" },
          completed := (s.heap p).simple.completed + 1 } ∧
      (g_gdu_volume_removed s).trace =
        s.trace ++ cancel_effects p (s.heap p).mount_operation ++ unset_effects s.volume
    | none =>
      (cancelled_cb s).trace = s.trace ∧ (cancelled_cb s).heap = s.heap ∧
      (cancelled_cb s).volume = s.volume ∧
      (g_gdu_volume_removed s).trace = s.trace ++ unset_effects s.volume ∧
      (g_gdu_volume_removed s).heap = s.heap ∧
      (g_gdu_volume_removed s).volume.pending_mount_op = none := by
  cases hp : s.volume.pending_mount_op with
  | none =>
    simp only [cancelled_cb, g_gdu_volume_removed, hp, unset_effects]
    cases hm : s.volume.mount <;> cases hd : s.volume.drive <;> simp [hp]
  | some p =>
    have hv := cancel_pending_mount_op_volume s p
    have hh := cancel_pending_mount_op_heap s p
    have ht := cancel_pending_mount_op_trace s p
    simp only [cancelled_cb, g_gdu_volume_removed, hp, unset_effects, cancel_effects]
    rw [hv]
    cases hm : s.volume.mount <;> cases hd : s.volume.drive <;>
      simp [hv, hh, ht, hm, hd]

/-- Claim C7 (cached-secret fall-through): for a non-cancelled request with
mount operation `m` bound, when `unlock_from_keyring_cb` receives an error,
the caller's result is untouched (the keyring error is not set on it and it
is not completed), `pending_mount_op` is unchanged, the record is not
released, a "reply" handler is connected (its id is stored and non-zero),
and the trace gains that connection followed by exactly one "ask-password"
on `m` with flags `NEED_PASSWORD | SAVING_SUPPORTED`. -/
theorem keyring_failure_prompts (b : Backend) (s : State) (data : DataId) (error : GError)
    (m : MountOperationId)
    (h_live : (s.heap data).is_cancelled = false)
    (h_op : (s.heap data).mount_operation = some m) :
    ((unlock_from_keyring_cb b s data (.error error)).heap data).simple = (s.heap data).simple ∧
    (unlock_from_keyring_cb b s data (.error error)).volume.pending_mount_op =
      s.volume.pending_mount_op ∧
    ((unlock_from_keyring_cb b s data (.error error)).heap data).released =
      (s.heap data).released ∧
    ((unlock_from_keyring_cb b s data (.error error)).heap data).mount_operation_reply_handler_id
      = s.handler_count + 1 ∧
    ((unlock_from_keyring_cb b s data (.error error)).heap data).mount_operation_reply_handler_id
      ≠ 0 ∧
    (unlock_from_keyring_cb b s data (.error error)).trace =
      s.trace ++
        [Effect.signal_connect (s.handler_count + 1) "reply" (some data),
         Effect.signal_emit_ask_password m (ask_password_message b s.volume)
           (G_ASK_PASSWORD_NEED_PASSWORD ||| G_ASK_PASSWORD_SAVING_SUPPORTED)] ∧
    (G_ASK_PASSWORD_NEED_PASSWORD ||| G_ASK_PASSWORD_SAVING_SUPPORTED) = 9 := by
  simp [unlock_from_keyring_cb, mount_with_mount_operation, g_signal_connect, h_live, h_op]
  decide

/-- Claim C7, instance of `keyring_failure_prompts`: the keyring unlock of request 0
of the LUKS volume fails. -/
theorem keyring_failure_prompts_witness :
    (keyring_unlock_state.heap 0).is_cancelled = false ∧
    (keyring_unlock_state.heap 0).mount_operation = some 5 ∧
    ((unlock_from_keyring_cb luks_backend keyring_unlock_state 0 (.error unlock_error)).heap 0).simple
      = (keyring_unlock_state.heap 0).simple ∧
    (unlock_from_keyring_cb luks_backend keyring_unlock_state 0
      (.error unlock_error)).volume.pending_mount_op = some 0 ∧
    (unlock_from_keyring_cb luks_backend keyring_unlock_state 0 (.error unlock_error)).trace =
      keyring_unlock_state.trace ++
        [Effect.signal_connect 2 "reply" (some 0),
         Effect.signal_emit_ask_password 5
           "Enter a password to unlock the volume\nThe device \"USB Stick\" contains encrypted data on partition 2."
           9] := by
  have h := keyring_failure_prompts luks_backend keyring_unlock_state 0 unlock_error 5
    (by decide) (by decide)
  exact ⟨by decide, by decide, h.1, by decide, by decide⟩

/-- Claim C8 (aborted prompt): for a non-cancelled request, when the prompt
reply is `G_MOUNT_OPERATION_ABORTED`, `mount_operation_reply` sets the silent
error `(G_IO_ERROR, G_IO_ERROR_FAILED_HANDLED)` on the result and completes
it once more, disconnects the reply handler (the id is reset to 0), sets
`pending_mount_op` to `NULL`, releases the record, leaves the data attached
to every device unchanged (no passphrase is attached) and issues no
`gdu_device_op_luks_unlock`: the trace gains only the disconnection of the
reply handler, the completion, and the disconnection of the "cancelled"
handler made by `mount_op_data_unref`. -/
theorem reply_aborted (b : Backend) (s : State) (data : DataId) (password : Option String)
    (password_save : GPasswordSave)
    (h_live : (s.heap data).is_cancelled = false) :
    ((mount_operation_reply b s data .G_MOUNT_OPERATION_ABORTED password password_save).heap
        data).simple =
      { error := some { domain := .G_IO_ERROR, code := G_IO_ERROR_FAILED_HANDLED,
                        message := "Password dialog aborted (user should never see this error since it is G_IO_ERROR_FAILED_HANDLED)" },
        completed := (s.heap data).simple.completed + 1 } ∧
    ((mount_operation_reply b s data .G_MOUNT_OPERATION_ABORTED password password_save).heap
        data).mount_operation_reply_handler_id = 0 ∧
    ((mount_operation_reply b s data .G_MOUNT_OPERATION_ABORTED password password_save).heap
        data).released = (s.heap data).released + 1 ∧
    (mount_operation_reply b s data .G_MOUNT_OPERATION_ABORTED password
        password_save).volume.pending_mount_op = none ∧
    (mount_operation_reply b s data .G_MOUNT_OPERATION_ABORTED password
        password_save).device_data = s.device_data ∧
    (mount_operation_reply b s data .G_MOUNT_OPERATION_ABORTED password password_save).trace =
      s.trace ++
        (if (s.heap data).mount_operation_reply_handler_id ≠ 0 then
          [Effect.signal_handler_disconnect (s.heap data).mount_operation_reply_handler_id]
         else []) ++
        [Effect.simple_async_result_complete (some data) (some
          { domain := .G_IO_ERROR, code := G_IO_ERROR_FAILED_HANDLED,
            message := "Password dialog aborted (user should never see this error since it is G_IO_ERROR_FAILED_HANDLED)" })] ++
        (if (s.heap data).cancelled_handler_id ≠ 0 then
          [Effect.signal_handler_disconnect (s.heap data).cancelled_handler_id]
         else []) := by
  by_cases hr : (s.heap data).mount_operation_reply_handler_id = 0 <;>
    by_cases hc : (s.heap data).cancelled_handler_id = 0 <;>
    simp [mount_operation_reply, mount_op_data_unref, g_simple_async_result_complete,
      g_simple_async_result_set_error, h_live, hr, hc]

/-- Claim C8, instance of `reply_aborted`: the user aborts the prompt of request 0 of
the LUKS volume. -/
theorem reply_aborted_witness :
    (prompting_state.heap 0).is_cancelled = false ∧
    ((mount_operation_reply luks_backend prompting_state 0 .G_MOUNT_OPERATION_ABORTED none
        .G_PASSWORD_SAVE_NEVER).heap 0).simple =
      { error := some { domain := .G_IO_ERROR, code := G_IO_ERROR_FAILED_HANDLED,
                        message := "Password dialog aborted (user should never see this error since it is G_IO_ERROR_FAILED_HANDLED)" },
        completed := 1 } ∧
    (mount_operation_reply luks_backend prompting_state 0 .G_MOUNT_OPERATION_ABORTED none
        .G_PASSWORD_SAVE_NEVER).volume.pending_mount_op = none ∧
    (mount_operation_reply luks_backend prompting_state 0 .G_MOUNT_OPERATION_ABORTED none
        .G_PASSWORD_SAVE_NEVER).trace =
      prompting_state.trace ++
        [Effect.signal_handler_disconnect 2,
         Effect.simple_async_result_complete (some 0) (some
          { domain := .G_IO_ERROR, code := G_IO_ERROR_FAILED_HANDLED,
            message := "Password dialog aborted (user should never see this error since it is G_IO_ERROR_FAILED_HANDLED)" }),
         Effect.signal_handler_disconnect 1] := by
  have h := reply_aborted luks_backend prompting_state 0 none .G_PASSWORD_SAVE_NEVER (by decide)
  exact ⟨by decide, by decide, h.2.2.2.1, by decide⟩

/-! ### `update_volume` run twice -/

theorem update_cleartext_binding_twice (b : Backend) (volume : GGduVolume) (device : DeviceId) :
    update_cleartext_binding b (update_cleartext_binding b volume device) device =
      update_cleartext_binding b volume device := by
  unfold update_cleartext_binding
  cases find_unlocked_mapping b device with
  | none => simp [disconnect_cleartext]
  | some c =>
    by_cases hc : c = volume.cleartext_gdu_volume
    · simp [hc]
    · simp [hc]

theorem update_cleartext_binding_frame (b : Backend) (volume : GGduVolume) (device : DeviceId) :
    (update_cleartext_binding b volume device).gdu_volume = volume.gdu_volume ∧
    (update_cleartext_binding b volume device).drive = volume.drive ∧
    (update_cleartext_binding b volume device).activation_root = volume.activation_root ∧
    (update_cleartext_binding b volume device).pending_mount_op = volume.pending_mount_op := by
  unfold update_cleartext_binding disconnect_cleartext
  cases find_unlocked_mapping b device with
  | none => cases volume.cleartext_gdu_volume <;> simp
  | some c =>
    by_cases hc : c = volume.cleartext_gdu_volume
    · simp [hc]
    · cases hv : volume.cleartext_gdu_volume <;> simp [hc, hv] <;> simp_all

theorem update_attributes_frame (b : Backend) (volume : GGduVolume) (device : DeviceId) :
    (update_attributes b volume device).gdu_volume = volume.gdu_volume ∧
    (update_attributes b volume device).drive = volume.drive ∧
    (update_attributes b volume device).activation_root = volume.activation_root ∧
    (update_attributes b volume device).cleartext_gdu_volume = volume.cleartext_gdu_volume ∧
    (update_attributes b volume device).cleartext_handlers = volume.cleartext_handlers ∧
    (update_attributes b volume device).pending_mount_op = volume.pending_mount_op := by
  unfold update_attributes
  cases volume.cleartext_gdu_volume <;> simp

theorem update_cleartext_binding_result (b : Backend) (volume : GGduVolume) (device : DeviceId) :
    (update_cleartext_binding b volume device).cleartext_gdu_volume =
      (find_unlocked_mapping b device).getD none := by
  unfold update_cleartext_binding disconnect_cleartext
  cases find_unlocked_mapping b device with
  | none => cases volume.cleartext_gdu_volume <;> simp
  | some c =>
    by_cases hc : c = volume.cleartext_gdu_volume
    · simp [hc]
    · cases hv : volume.cleartext_gdu_volume <;> simp [hc, hv] <;> simp_all

theorem update_cleartext_binding_fixed (b : Backend) (volume : GGduVolume) (device : DeviceId)
    (h : volume.cleartext_gdu_volume = (find_unlocked_mapping b device).getD none) :
    update_cleartext_binding b volume device = volume := by
  unfold update_cleartext_binding disconnect_cleartext
  cases hf : find_unlocked_mapping b device with
  | none =>
    rw [hf] at h
    simp at h
    simp [h]
    rw [← h]
  | some c =>
    rw [hf] at h
    simp at h
    simp [h]

theorem update_attributes_twice (b : Backend) (volume : GGduVolume) (device : DeviceId) :
    update_attributes b (update_attributes b volume device) device =
      update_attributes b volume device := by
  unfold update_attributes
  cases volume.cleartext_gdu_volume <;> simp

/-- Claim C10 (recomputation is idempotent): for every volume and every
backend snapshot (device, pool, presentables, drive insertion time, clock),
running `update_volume` a second time against the same snapshot returns
FALSE and leaves the volume exactly as the first run left it, in particular
`can_mount`, `should_automount`, `name`, `device_file`, `icon` and
`cleartext_gdu_volume`. -/
theorem update_volume_idempotent (b : Backend) (volume : GGduVolume) :
    (update_volume b (update_volume b volume).2).1 = false ∧
    (update_volume b (update_volume b volume).2).2 = (update_volume b volume).2 ∧
    (update_volume b (update_volume b volume).2).2.can_mount =
      (update_volume b volume).2.can_mount ∧
    (update_volume b (update_volume b volume).2).2.should_automount =
      (update_volume b volume).2.should_automount ∧
    (update_volume b (update_volume b volume).2).2.name = (update_volume b volume).2.name ∧
    (update_volume b (update_volume b volume).2).2.device_file =
      (update_volume b volume).2.device_file ∧
    (update_volume b (update_volume b volume).2).2.icon = (update_volume b volume).2.icon ∧
    (update_volume b (update_volume b volume).2).2.cleartext_gdu_volume =
      (update_volume b volume).2.cleartext_gdu_volume := by
  have hg : (update_volume b volume).2.gdu_volume = volume.gdu_volume := by
    simp [update_volume, (update_attributes_frame b _ _).1,
      (update_cleartext_binding_frame b _ _).1]
  have hfix : update_cleartext_binding b (update_volume b volume).2
      (b.presentable volume.gdu_volume).device = (update_volume b volume).2 := by
    apply update_cleartext_binding_fixed
    simp [update_volume, (update_attributes_frame b _ _).2.2.2.1,
      update_cleartext_binding_result]
  have hsnd : (update_volume b (update_volume b volume).2).2 = (update_volume b volume).2 := by
    show update_attributes b (update_cleartext_binding b (update_volume b volume).2
        (b.presentable (update_volume b volume).2.gdu_volume).device)
        (b.presentable (update_volume b volume).2.gdu_volume).device = (update_volume b volume).2
    rw [hg, hfix]
    show update_attributes b (update_attributes b _ _) _ = update_attributes b _ _
    exact update_attributes_twice b _ _
  have hfst : (update_volume b (update_volume b volume).2).1 = false := by
    have : (update_volume b (update_volume b volume).2).1 =
        !(((update_volume b volume).2.can_mount ==
              (update_volume b (update_volume b volume).2).2.can_mount) &&
          ((update_volume b volume).2.should_automount ==
              (update_volume b (update_volume b volume).2).2.should_automount) &&
          g_strcmp0_eq (update_volume b volume).2.name
              (update_volume b (update_volume b volume).2).2.name &&
          g_strcmp0_eq (update_volume b volume).2.device_file
              (update_volume b (update_volume b volume).2).2.device_file &&
          g_icon_equal (update_volume b volume).2.icon
              (update_volume b (update_volume b volume).2).2.icon) := rfl
    rw [this, hsnd]
    simp [g_strcmp0_eq, g_icon_equal]
  refine ⟨hfst, hsnd, ?_, ?_, ?_, ?_, ?_, ?_⟩ <;> rw [hsnd]

/-! ### Runs stay within the reachable states -/

theorem reachable_of_run (events : List (Backend × Event)) :
    ∀ (s s1 : State), Reachable s → run s events = some s1 → Reachable s1 := by
  induction events with
  | nil =>
    intro s s1 hs h
    simp [run] at h
    exact h ▸ hs
  | cons be rest ih =>
    intro s s1 hs h
    obtain ⟨b, e⟩ := be
    simp only [run] at h
    cases hstep : step b s e with
    | none => simp [hstep] at h
    | some s2 =>
      rw [hstep] at h
      exact ih s2 s1 (Reachable.step b e hs hstep) h

/-- Claim C1, failing run: from the freshly constructed plain volume the
events `overlapping_requests` (start request 0, cancel it, start request 1,
deliver the mount callback of the cancelled request 0, start request 2)
lead to a reachable state in which requests 1 and 2 are both active:
created by `g_gdu_volume_mount`, not cancelled, result not completed.  The
callback of the cancelled request cleared `pending_mount_op` while request 1
was pending, so the third `mount ()` was not rejected. -/
theorem two_requests_active :
    run fresh_plain_state overlapping_requests = some overlapping_state ∧
    Reachable overlapping_state ∧
    overlapping_state.active 1 = true ∧
    overlapping_state.active 2 = true ∧
    overlapping_state.volume.pending_mount_op = some 2 ∧
    overlapping_state.trace =
      [Effect.signal_connect 1 "cancelled" none,
       Effect.device_op_filesystem_mount 0 0,
       Effect.simple_async_result_complete (some 0) (some
         { domain := .G_IO_ERROR, code := G_IO_ERROR_FAILED_HANDLED,
           message := "Operation was cancelled" }),
       Effect.device_op_filesystem_mount 0 1,
       Effect.signal_handler_disconnect 1,
       Effect.device_op_filesystem_mount 0 2] :=
  ⟨rfl, reachable_of_run overlapping_requests fresh_plain_state overlapping_state
      (Reachable.init plain_backend 0 none none) rfl,
    by decide, by decide, by decide, by decide⟩

/-- Claim C6, counterexample: request 0 of the LUKS volume (mount operation
5, cancellable 7) is cancelled while it waits for the prompt reply.  Once
`cancelled_cb` has run the result is completed once with the cancelled
classification, but the record is not released: its "reply" handler and its
"cancelled" handler are still connected and the mount operation is still
referenced; the trace holds no `g_signal_handler_disconnect`. -/
theorem residue_after_cancel :
    run fresh_luks_state [(luks_backend, .mount (some 5) (some 7)), (luks_backend, .cancelled 0)]
      = some cancelled_prompt_state ∧
    (cancelled_prompt_state.heap 0).simple =
      { error := some { domain := .G_IO_ERROR, code := G_IO_ERROR_FAILED_HANDLED,
                        message := "Operation was cancelled" },
        completed := 1 } ∧
    (cancelled_prompt_state.heap 0).reply_handler_connected = true ∧
    (cancelled_prompt_state.heap 0).cancelled_handler_connected = true ∧
    (cancelled_prompt_state.heap 0).released = 0 ∧
    (cancelled_prompt_state.heap 0).mount_operation = some 5 ∧
    cancelled_prompt_state.trace =
      [Effect.signal_connect 1 "cancelled" none,
       Effect.util_get_secret 0,
       Effect.signal_connect 2 "reply" (some 0),
       Effect.signal_emit_ask_password 5
         "Enter a password to unlock the volume\nThe device \"USB Stick\" contains encrypted data on partition 2."
         9,
       Effect.signal_emit_aborted 5,
       Effect.simple_async_result_complete (some 0) (some
         { domain := .G_IO_ERROR, code := G_IO_ERROR_FAILED_HANDLED,
           message := "Operation was cancelled" })] :=
  ⟨rfl, by decide, by decide, by decide, by decide, by decide, by decide⟩

/-- Claim C6 (cancel while waiting for the prompt, amended): let `data` be the
pending request, with its "reply" handler connected and its result not yet
completed.  After `cancelled_cb` the result is completed exactly once with
`(G_IO_ERROR, G_IO_ERROR_FAILED_HANDLED)`, while the record is not released:
the "reply" handler is still connected, the "cancelled" handler is connected
as before and the mount operation is still referenced.  When the reply
handler then runs (whatever the reply), `mount_operation_reply` releases the
record: both handlers are disconnected, the result is not completed again
and the volume is unchanged. -/
theorem cancel_during_prompt (b : Backend) (s : State) (data : DataId)
    (result : GMountOperationResult) (password : Option String) (password_save : GPasswordSave)
    (h_pending : s.volume.pending_mount_op = some data)
    (h_reply : (s.heap data).reply_handler_connected = true)
    (h_completed : (s.heap data).simple.completed = 0) :
    ∃ s1 s2 : State,
      cancelled_cb s = s1 ∧
      step b s1 (.reply data result password password_save) = some s2 ∧
      (s1.heap data).simple =
        { error := some { domain := .G_IO_ERROR, code := G_IO_ERROR_FAILED_HANDLED,
                          message := "Operation was cancelled" },
          completed := 1 } ∧
      (s1.heap data).reply_handler_connected = true ∧
      (s1.heap data).cancelled_handler_connected = (s.heap data).cancelled_handler_connected ∧
      (s1.heap data).released = 0 ∧
      (s1.heap data).mount_operation = (s.heap data).mount_operation ∧
      (s2.heap data).released = 1 ∧
      (s2.heap data).reply_handler_connected = false ∧
      (s2.heap data).cancelled_handler_connected = false ∧
      (s2.heap data).simple = (s1.heap data).simple ∧
      s2.volume = s1.volume ∧
      s2.trace = s1.trace ++
        (if (s.heap data).cancelled_handler_id ≠ 0 then
          [Effect.signal_handler_disconnect (s.heap data).cancelled_handler_id]
         else []) ++
        [Effect.signal_handler_disconnect (s.heap data).mount_operation_reply_handler_id] := by
  have hh := cancel_pending_mount_op_heap s data
  have hrel : (s.heap data).released = 0 := by
    simp [MountOpData.reply_handler_connected] at h_reply
    exact h_reply.1
  have hid : (s.heap data).mount_operation_reply_handler_id ≠ 0 := by
    simp [MountOpData.reply_handler_connected] at h_reply
    exact h_reply.2
  have hs1 : cancelled_cb s = cancel_pending_mount_op s data := by
    simp [cancelled_cb, h_pending]
  refine ⟨cancel_pending_mount_op s data,
    mount_operation_reply b (cancel_pending_mount_op s data) data result password password_save,
    hs1, ?_, ?_⟩
  · simp [step, hh, MountOpData.reply_handler_connected, hrel, hid]
  · by_cases hc : (s.heap data).cancelled_handler_id = 0 <;>
      simp [mount_operation_reply, mount_op_data_unref, hh, MountOpData.reply_handler_connected,
        MountOpData.cancelled_handler_connected, hrel, hid, hc, h_completed]

/-- Claim C6, instance of `cancel_during_prompt`: request 0 of the LUKS volume is
cancelled during the prompt and the reply handler then runs with an aborted
reply. -/
theorem cancel_during_prompt_witness :
    prompting_state.volume.pending_mount_op = some 0 ∧
    (prompting_state.heap 0).reply_handler_connected = true ∧
    (prompting_state.heap 0).simple.completed = 0 ∧
    ∃ s1 s2 : State,
      cancelled_cb prompting_state = s1 ∧
      step luks_backend s1 (.reply 0 .G_MOUNT_OPERATION_ABORTED none .G_PASSWORD_SAVE_NEVER)
        = some s2 ∧
      (s1.heap 0).simple =
        { error := some { domain := .G_IO_ERROR, code := G_IO_ERROR_FAILED_HANDLED,
                          message := "Operation was cancelled" },
          completed := 1 } ∧
      (s1.heap 0).reply_handler_connected = true ∧
      (s1.heap 0).cancelled_handler_connected =
        (prompting_state.heap 0).cancelled_handler_connected ∧
      (s1.heap 0).released = 0 ∧
      (s1.heap 0).mount_operation = (prompting_state.heap 0).mount_operation ∧
      (s2.heap 0).released = 1 ∧
      (s2.heap 0).reply_handler_connected = false ∧
      (s2.heap 0).cancelled_handler_connected = false ∧
      (s2.heap 0).simple = (s1.heap 0).simple ∧
      s2.volume = s1.volume ∧
      s2.trace = s1.trace ++
        (if (prompting_state.heap 0).cancelled_handler_id ≠ 0 then
          [Effect.signal_handler_disconnect (prompting_state.heap 0).cancelled_handler_id]
         else []) ++
        [Effect.signal_handler_disconnect
          (prompting_state.heap 0).mount_operation_reply_handler_id] :=
  ⟨by decide, by decide, by decide,
    cancel_during_prompt luks_backend prompting_state 0 .G_MOUNT_OPERATION_ABORTED none
      .G_PASSWORD_SAVE_NEVER (by decide) (by decide) (by decide)⟩

/-! ### `update_volume` with an unlocked mapping -/

theorem update_volume_unlocked (b : Backend) (volume : GGduVolume) (cleartext : GduVolumeId)
    (h : find_unlocked_mapping b (b.presentable volume.gdu_volume).device = some (some cleartext)) :
    (update_volume b volume).2.cleartext_gdu_volume = some cleartext ∧
    (update_volume b volume).2.can_mount = true ∧
    (update_volume b volume).2.should_automount = false ∧
    (update_volume b volume).2.name = (b.presentable cleartext).name ∧
    (update_volume b volume).2.icon = (b.presentable cleartext).icon ∧
    (update_volume b volume).2.device_file =
      (b.device (b.presentable cleartext).device).device_file := by
  have hc := update_cleartext_binding_result b volume (b.presentable volume.gdu_volume).device
  rw [h] at hc
  simp at hc
  simp [update_volume, update_attributes, hc]

theorem update_volume_frame (b : Backend) (volume : GGduVolume) :
    (update_volume b volume).2.gdu_volume = volume.gdu_volume ∧
    (update_volume b volume).2.pending_mount_op = volume.pending_mount_op ∧
    (update_volume b volume).2.drive = volume.drive ∧
    (update_volume b volume).2.activation_root = volume.activation_root := by
  have h1 := update_cleartext_binding_frame b volume (b.presentable volume.gdu_volume).device
  have h2 := update_attributes_frame b
    (update_cleartext_binding b volume (b.presentable volume.gdu_volume).device)
    (b.presentable volume.gdu_volume).device
  simp only [update_volume]
  exact ⟨h2.1.trans h1.1, h2.2.2.2.2.2.trans h1.2.2.2, h2.2.1.trans h1.2.1,
    h2.2.2.1.trans h1.2.2.1⟩

theorem ask_password_message_congr (b : Backend) (v w : GGduVolume)
    (h : v.gdu_volume = w.gdu_volume) : ask_password_message b v = ask_password_message b w := by
  simp [ask_password_message, h]

/-! ### Summaries of the steps of a successful unlock-and-mount -/

theorem mount_starts_prompt (b : Backend) (s : State) (m : MountOperationId)
    (c : Option CancellableId)
    (h_idle : s.volume.pending_mount_op = none)
    (h_locked : s.volume.cleartext_gdu_volume = none)
    (h_blank : (b.device (b.presentable s.volume.gdu_volume).device).optical_disc_is_blank = false)
    (h_mounted : (b.device (b.presentable s.volume.gdu_volume).device).is_mounted = false)
    (h_usage : (b.device (b.presentable s.volume.gdu_volume).device).id_usage = some "crypto")
    (h_type : (b.device (b.presentable s.volume.gdu_volume).device).id_type = some "crypto_LUKS")
    (h_secret : b.util_get_secret (b.presentable s.volume.gdu_volume).device = none)
    (h_inhibited : b.pool_is_daemon_inhibited = false) :
    (g_gdu_volume_mount b s (some m) c).volume =
      { s.volume with pending_mount_op := some s.data_count } ∧
    (g_gdu_volume_mount b s (some m) c).heap = Function.update s.heap s.data_count
      { MountOpData.zero with
        cancellable := c
        mount_operation := some m
        cancelled_handler_id := if c = none then 0 else s.handler_count + 1
        mount_operation_reply_handler_id :=
          if c = none then s.handler_count + 1 else s.handler_count + 2 } ∧
    (g_gdu_volume_mount b s (some m) c).trace =
      s.trace ++
        (if c = none then [] else [Effect.signal_connect (s.handler_count + 1) "cancelled" none]) ++
        [Effect.util_get_secret (b.presentable s.volume.gdu_volume).device,
         Effect.signal_connect (if c = none then s.handler_count + 1 else s.handler_count + 2)
           "reply" (some s.data_count),
         Effect.signal_emit_ask_password m (ask_password_message b s.volume) 9] ∧
    (g_gdu_volume_mount b s (some m) c).device_data = s.device_data ∧
    (g_gdu_volume_mount b s (some m) c).data_count = s.data_count + 1 := by
  have hflags : (G_ASK_PASSWORD_NEED_PASSWORD ||| G_ASK_PASSWORD_SAVING_SUPPORTED) = 9 := by decide
  cases c with
  | none =>
    simp [g_gdu_volume_mount, new_mount_op_data, start_mount_op, h_idle, h_locked, h_blank,
      h_mounted, h_usage, h_type, h_secret,
      h_inhibited, g_strcmp0_eq, mount_with_mount_operation, MountOpData.zero, g_signal_connect,
      hflags]
    exact ask_password_message_congr b _ _ rfl
  | some c =>
    simp [g_gdu_volume_mount, new_mount_op_data, start_mount_op, h_idle, h_locked, h_blank,
      h_mounted, h_usage, h_type, h_secret,
      h_inhibited, g_strcmp0_eq, mount_with_mount_operation, MountOpData.zero, g_signal_connect,
      hflags]
    exact ask_password_message_congr b _ _ rfl

theorem reply_handled_unlocks (b : Backend) (s : State) (data : DataId)
    (password : Option String) (password_save : GPasswordSave)
    (h_live : (s.heap data).is_cancelled = false) :
    (mount_operation_reply b s data .G_MOUNT_OPERATION_HANDLED password password_save).volume
      = s.volume ∧
    (mount_operation_reply b s data .G_MOUNT_OPERATION_HANDLED password password_save).heap =
      Function.update s.heap data
        { s.heap data with
          mount_operation_reply_handler_id := 0
          outstanding := (s.heap data).outstanding ++ [Callback.unlock_cb] } ∧
    (mount_operation_reply b s data .G_MOUNT_OPERATION_HANDLED password password_save).trace =
      s.trace ++
        (if (s.heap data).mount_operation_reply_handler_id ≠ 0 then
          [Effect.signal_handler_disconnect (s.heap data).mount_operation_reply_handler_id]
         else []) ++
        (match (s.device_data (b.presentable s.volume.gdu_volume).device).password with
          | some old => [Effect.scrub_n_free_string old]
          | none => []) ++
        [Effect.device_op_luks_unlock (b.presentable s.volume.gdu_volume).device password
          .unlock_cb data] ∧
    (mount_operation_reply b s data .G_MOUNT_OPERATION_HANDLED password password_save).device_data
      = Function.update s.device_data (b.presentable s.volume.gdu_volume).device
          { password := password, password_save := password_save } ∧
    (mount_operation_reply b s data .G_MOUNT_OPERATION_HANDLED password password_save).data_count
      = s.data_count := by
  by_cases hr : (s.heap data).mount_operation_reply_handler_id = 0 <;>
    cases hp : (s.device_data (b.presentable s.volume.gdu_volume).device).password <;>
    simp [mount_operation_reply, h_live, hr, hp, set_device_password, set_device_password_save,
      gdu_device_op_luks_unlock, scrub_n_free_string]

theorem mount_cleartext_device_resolved (b : Backend) (s : State) (data : DataId)
    (path : String) (device_to_mount : DeviceId)
    (h_live : (s.heap data).is_cancelled = false)
    (h_pool : b.pool_get_by_object_path path = some device_to_mount) :
    (mount_cleartext_device b s data path).volume = s.volume ∧
    (mount_cleartext_device b s data path).heap = Function.update s.heap data
      { s.heap data with
        device_to_mount := some device_to_mount
        outstanding := (s.heap data).outstanding ++ [Callback.mount_cb] } ∧
    (mount_cleartext_device b s data path).trace =
      s.trace ++ [Effect.device_op_filesystem_mount device_to_mount data] ∧
    (mount_cleartext_device b s data path).device_data = s.device_data ∧
    (mount_cleartext_device b s data path).data_count = s.data_count := by
  simp [mount_cleartext_device, h_live, h_pool, gdu_device_op_filesystem_mount]

theorem unlock_cb_success (b : Backend) (s : State) (data : DataId) (device : DeviceId)
    (path : String) (device_to_mount : DeviceId)
    (h_live : (s.heap data).is_cancelled = false)
    (h_pool : b.pool_get_by_object_path path = some device_to_mount) :
    (unlock_cb b s data device (.ok path)).volume = (update_volume b s.volume).2 ∧
    (unlock_cb b s data device (.ok path)).heap = Function.update s.heap data
      { s.heap data with
        device_to_mount := some device_to_mount
        outstanding := (s.heap data).outstanding ++ [Callback.mount_cb] } ∧
    (unlock_cb b s data device (.ok path)).trace =
      s.trace ++ unlock_success_effects b s device ++
        [Effect.device_op_filesystem_mount device_to_mount data] ++
        (match (s.device_data device).password with
          | some old => [Effect.scrub_n_free_string old]
          | none => []) ∧
    (unlock_cb b s data device (.ok path)).device_data =
      Function.update s.device_data device
        { password := none, password_save := .G_PASSWORD_SAVE_NEVER } ∧
    (unlock_cb b s data device (.ok path)).data_count = s.data_count := by
  cases hp : (s.device_data device).password <;>
    cases hs : (s.device_data device).password_save <;>
    cases hch : (update_volume b s.volume).1 <;>
    simp [unlock_cb, h_live, hp, hs, hch, unlock_success_effects, emit_changed,
      mount_cleartext_device, h_pool, gdu_device_op_filesystem_mount,
      set_device_password, set_device_password_save, scrub_n_free_string]

theorem mount_cb_success (b : Backend) (s : State) (data : DataId)
    (h_live : (s.heap data).is_cancelled = false) :
    (mount_cb b s data none).volume = { s.volume with pending_mount_op := none } ∧
    (mount_cb b s data none).heap = Function.update s.heap data
      { s.heap data with
        simple := { (s.heap data).simple with completed := (s.heap data).simple.completed + 1 }
        released := (s.heap data).released + 1 } ∧
    (mount_cb b s data none).trace =
      s.trace ++ [Effect.simple_async_result_complete (some data) (s.heap data).simple.error] ++
        (if (s.heap data).cancelled_handler_id ≠ 0 then
          [Effect.signal_handler_disconnect (s.heap data).cancelled_handler_id]
         else []) ++
        (if (s.heap data).mount_operation_reply_handler_id ≠ 0 then
          [Effect.signal_handler_disconnect (s.heap data).mount_operation_reply_handler_id]
         else []) ∧
    (mount_cb b s data none).device_data = s.device_data ∧
    (mount_cb b s data none).data_count = s.data_count := by
  by_cases hc : (s.heap data).cancelled_handler_id = 0 <;>
    by_cases hr : (s.heap data).mount_operation_reply_handler_id = 0 <;>
    simp [mount_cb, h_live, hc, hr, mount_op_data_unref, g_simple_async_result_complete]
/-- Claim C9 (happy path): start from any state with no pending request and
no unlocked mapping; at the `mount ()` call the device is a locked LUKS
device (usage "crypto", type "crypto_LUKS"), not mounted, not blank, with no
keyring secret and the daemon not inhibited, and mount operation `m` is
bound.  The prompt is answered HANDLED with passphrase `p` and save policy
PERMANENTLY, the unlock succeeds with object path `holder` while the backend
reports `holder` as the LUKS holder and the pool resolves it to
`cleartext_device` with presentable `cleartext_volume`, and the mount
succeeds.  Then the four events run, and the calls made for the request are,
in this order, exactly: the secret lookup, one "ask-password" (flags 9), one
luks unlock with `p`, one `gdu_util_save_secret (p, session = FALSE)`, one
filesystem mount on the cleartext device and one completion of the result
with success; the record is released once, `pending_mount_op` ends `NULL`,
and the volume ends bound to the cleartext volume with `can_mount = TRUE` and
`should_automount = FALSE`. -/
theorem happy_path (s : State) (b1 b2 b3 b4 : Backend) (m : MountOperationId)
    (c : Option CancellableId) (p holder : String) (cleartext_device : DeviceId)
    (cleartext_volume : GduVolumeId)
    (h_idle : s.volume.pending_mount_op = none)
    (h_locked : s.volume.cleartext_gdu_volume = none)
    (h_blank : (b1.device (b1.presentable s.volume.gdu_volume).device).optical_disc_is_blank = false)
    (h_mounted : (b1.device (b1.presentable s.volume.gdu_volume).device).is_mounted = false)
    (h_usage : (b1.device (b1.presentable s.volume.gdu_volume).device).id_usage = some "crypto")
    (h_type : (b1.device (b1.presentable s.volume.gdu_volume).device).id_type = some "crypto_LUKS")
    (h_secret : b1.util_get_secret (b1.presentable s.volume.gdu_volume).device = none)
    (h_inhibited : b1.pool_is_daemon_inhibited = false)
    (h_luks : (b3.device (b3.presentable s.volume.gdu_volume).device).is_luks = true)
    (h_holder : (b3.device (b3.presentable s.volume.gdu_volume).device).luks_holder = some holder)
    (h_slash : holder ≠ "/")
    (h_pool : b3.pool_get_by_object_path holder = some cleartext_device)
    (h_volume : b3.pool_get_volume_by_device cleartext_device = some cleartext_volume) :
    ∃ (s4 : State) (new : List Effect),
      run s [(b1, .mount (some m) c),
             (b2, .reply s.data_count .G_MOUNT_OPERATION_HANDLED (some p)
                    .G_PASSWORD_SAVE_PERMANENTLY),
             (b3, .unlock_cb s.data_count (b2.presentable s.volume.gdu_volume).device
                    (.ok holder)),
             (b4, .mount_cb s.data_count none)] = some s4 ∧
      s4.trace = s.trace ++ new ∧
      new.filter Effect.is_request_call =
        [Effect.util_get_secret (b1.presentable s.volume.gdu_volume).device,
         Effect.signal_emit_ask_password m (ask_password_message b1 s.volume) 9,
         Effect.device_op_luks_unlock (b2.presentable s.volume.gdu_volume).device (some p)
           .unlock_cb s.data_count,
         Effect.util_save_secret (b2.presentable s.volume.gdu_volume).device p false,
         Effect.device_op_filesystem_mount cleartext_device s.data_count,
         Effect.simple_async_result_complete (some s.data_count) none] ∧
      (s4.heap s.data_count).simple = { error := none, completed := 1 } ∧
      (s4.heap s.data_count).released = 1 ∧
      s4.volume.pending_mount_op = none ∧
      s4.volume.cleartext_gdu_volume = some cleartext_volume ∧
      s4.volume.can_mount = true ∧
      s4.volume.should_automount = false := by
  -- 1. `mount ()` reaches the prompt
  obtain ⟨hv1, hh1, ht1, hd1, -⟩ := mount_starts_prompt b1 s m c h_idle h_locked h_blank
    h_mounted h_usage h_type h_secret h_inhibited
  generalize hs1 : g_gdu_volume_mount b1 s (some m) c = s1 at hv1 hh1 ht1 hd1
  have hg1 : s1.volume.gdu_volume = s.volume.gdu_volume := by rw [hv1]
  have hx1 : s1.heap s.data_count =
      { MountOpData.zero with
        cancellable := c
        mount_operation := some m
        cancelled_handler_id := if c = none then 0 else s.handler_count + 1
        mount_operation_reply_handler_id :=
          if c = none then s.handler_count + 1 else s.handler_count + 2 } := by
    rw [hh1]; simp
  have hstep2 : step b2 s1 (.reply s.data_count .G_MOUNT_OPERATION_HANDLED (some p)
      .G_PASSWORD_SAVE_PERMANENTLY) = some (mount_operation_reply b2 s1 s.data_count
        .G_MOUNT_OPERATION_HANDLED (some p) .G_PASSWORD_SAVE_PERMANENTLY) := by
    cases c <;> simp [step, hx1, MountOpData.reply_handler_connected, MountOpData.zero]
  -- 2. the reply carries the passphrase: unlock is issued
  obtain ⟨hv2, hh2, ht2, hd2, -⟩ := reply_handled_unlocks b2 s1 s.data_count (some p)
    .G_PASSWORD_SAVE_PERMANENTLY (by rw [hx1]; rfl)
  generalize mount_operation_reply b2 s1 s.data_count .G_MOUNT_OPERATION_HANDLED (some p)
    .G_PASSWORD_SAVE_PERMANENTLY = s2 at hv2 hh2 ht2 hd2 hstep2
  rw [hg1] at hd2 ht2
  have hx2 : s2.heap s.data_count =
      { s1.heap s.data_count with
        mount_operation_reply_handler_id := 0
        outstanding := [Callback.unlock_cb] } := by
    rw [hh2, hx1]; simp [MountOpData.zero]
  -- 3. the unlock succeeds: secret stored, volume recomputed, mount issued
  have hstep3 : step b3 s2 (.unlock_cb s.data_count (b2.presentable s.volume.gdu_volume).device
      (.ok holder)) = some (unlock_cb b3 (s2.take s.data_count .unlock_cb) s.data_count
        (b2.presentable s.volume.gdu_volume).device (.ok holder)) := by
    simp [step, hx2]
  have hx2t : (s2.take s.data_count .unlock_cb).heap s.data_count =
      { s1.heap s.data_count with
        mount_operation_reply_handler_id := 0
        outstanding := [] } := by
    simp [State.take, hx2]
  have hv2t : (s2.take s.data_count .unlock_cb).volume = s1.volume := by
    simp [State.take, hv2]
  have hd2t : (s2.take s.data_count .unlock_cb).device_data = s2.device_data := by
    simp [State.take]
  have ht2t : (s2.take s.data_count .unlock_cb).trace = s2.trace := by
    simp [State.take]
  obtain ⟨hv3, hh3, ht3, -, -⟩ := unlock_cb_success b3 (s2.take s.data_count .unlock_cb)
    s.data_count (b2.presentable s.volume.gdu_volume).device holder cleartext_device
    (by rw [hx2t, hx1]; rfl) h_pool
  have heff : unlock_success_effects b3 (s2.take s.data_count .unlock_cb)
      (b2.presentable s.volume.gdu_volume).device =
      [Effect.util_save_secret (b2.presentable s.volume.gdu_volume).device p false] ++
      (if (update_volume b3 s1.volume).1 then
        [Effect.signal_emit_changed, Effect.signal_emit_volume_changed] else []) := by
    simp [unlock_success_effects, hd2t, hd2, hv2t]
  have hpw : (match ((s2.take s.data_count .unlock_cb).device_data
        (b2.presentable s.volume.gdu_volume).device).password with
      | some old => [Effect.scrub_n_free_string old]
      | none => []) = [Effect.scrub_n_free_string p] := by
    simp [hd2t, hd2]
  rw [heff, hpw, ht2t] at ht3
  rw [hv2t] at hv3
  generalize unlock_cb b3 (s2.take s.data_count .unlock_cb) s.data_count
    (b2.presentable s.volume.gdu_volume).device (.ok holder) = s3 at hv3 hh3 ht3 hstep3
  have hfind : find_unlocked_mapping b3 (b3.presentable s1.volume.gdu_volume).device =
      some (some cleartext_volume) := by
    simp [find_unlocked_mapping, hg1, h_luks, h_holder, h_slash, h_pool, h_volume]
  obtain ⟨hu1, hu2, hu3, -⟩ := update_volume_unlocked b3 s1.volume cleartext_volume hfind
  have hx3 : s3.heap s.data_count =
      { s1.heap s.data_count with
        mount_operation_reply_handler_id := 0
        device_to_mount := some cleartext_device
        outstanding := [Callback.mount_cb] } := by
    rw [hh3]; simp [hx2t]
  -- 4. the mount succeeds
  have hstep4 : step b4 s3 (.mount_cb s.data_count none) =
      some (mount_cb b4 (s3.take s.data_count .mount_cb) s.data_count none) := by
    simp [step, hx3]
  have hx3t : (s3.take s.data_count .mount_cb).heap s.data_count =
      { s1.heap s.data_count with
        mount_operation_reply_handler_id := 0
        device_to_mount := some cleartext_device
        outstanding := [] } := by
    simp [State.take, hx3]
  obtain ⟨hv4, hh4, ht4, -, -⟩ := mount_cb_success b4 (s3.take s.data_count .mount_cb)
    s.data_count (by rw [hx3t, hx1]; rfl)
  rw [hx3t] at ht4
  have hv3t : (s3.take s.data_count .mount_cb).volume = s3.volume := by simp [State.take]
  have ht3t : (s3.take s.data_count .mount_cb).trace = s3.trace := by simp [State.take]
  rw [hv3t] at hv4
  rw [ht3t] at ht4
  generalize mount_cb b4 (s3.take s.data_count .mount_cb) s.data_count none = s4
    at hv4 hh4 ht4 hstep4
  have hrun : run s [(b1, .mount (some m) c),
      (b2, .reply s.data_count .G_MOUNT_OPERATION_HANDLED (some p) .G_PASSWORD_SAVE_PERMANENTLY),
      (b3, .unlock_cb s.data_count (b2.presentable s.volume.gdu_volume).device (.ok holder)),
      (b4, .mount_cb s.data_count none)] = some s4 := by
    have hstep1 : step b1 s (.mount (some m) c) = some s1 := by
      simp [step, hs1]
    simp [run, hstep1, hstep2, hstep3, hstep4]
  have hx4 : s4.heap s.data_count =
      { s1.heap s.data_count with
        mount_operation_reply_handler_id := 0
        device_to_mount := some cleartext_device
        outstanding := []
        simple := { error := none, completed := 1 }
        released := 1 } := by
    rw [hh4]; simp [hx3t, hx1, MountOpData.zero]
  refine ⟨s4,
    (if c = none then [] else [Effect.signal_connect (s.handler_count + 1) "cancelled" none]) ++
    [Effect.util_get_secret (b1.presentable s.volume.gdu_volume).device,
     Effect.signal_connect (if c = none then s.handler_count + 1 else s.handler_count + 2)
       "reply" (some s.data_count),
     Effect.signal_emit_ask_password m (ask_password_message b1 s.volume) 9] ++
    (if (s1.heap s.data_count).mount_operation_reply_handler_id ≠ 0 then
      [Effect.signal_handler_disconnect (s1.heap s.data_count).mount_operation_reply_handler_id]
     else []) ++
    (match (s1.device_data (b2.presentable s.volume.gdu_volume).device).password with
      | some old => [Effect.scrub_n_free_string old]
      | none => []) ++
    [Effect.device_op_luks_unlock (b2.presentable s.volume.gdu_volume).device (some p)
      .unlock_cb s.data_count] ++
    ([Effect.util_save_secret (b2.presentable s.volume.gdu_volume).device p false] ++
      (if (update_volume b3 s1.volume).1 then
        [Effect.signal_emit_changed, Effect.signal_emit_volume_changed] else [])) ++
    [Effect.device_op_filesystem_mount cleartext_device s.data_count] ++
    [Effect.scrub_n_free_string p] ++
    [Effect.simple_async_result_complete (some s.data_count) none] ++
    (if (s1.heap s.data_count).cancelled_handler_id ≠ 0 then
      [Effect.signal_handler_disconnect (s1.heap s.data_count).cancelled_handler_id]
     else []) ++
    (if (0 : Nat) ≠ 0 then [Effect.signal_handler_disconnect 0] else []),
    hrun, ?_, ?_, ?_, ?_, ?_, ?_, ?_, ?_⟩
  · rw [ht4, ht3, ht2, ht1]
    simp [List.append_assoc, hx1, MountOpData.zero]
  · cases hold : (s1.device_data (b2.presentable s.volume.gdu_volume).device).password <;>
      cases hch : (update_volume b3 s1.volume).1 <;>
      cases c <;>
      simp [List.filter_append, List.filter_cons, Effect.is_request_call, hx1, MountOpData.zero]
  · rw [hx4]
  · rw [hx4]
  · rw [hv4]
  · rw [hv4, hv3]; exact hu1
  · rw [hv4, hv3]; exact hu2
  · rw [hv4, hv3]; exact hu3

/-- Claim C9, instance of `happy_path`: the fresh LUKS volume, mount operation 5,
cancellable 7 and the passphrase "correct horse". -/
theorem happy_path_witness :
    ∃ (s4 : State) (new : List Effect),
      run fresh_luks_state
        [(luks_backend, .mount (some 5) (some 7)),
         (luks_backend, .reply fresh_luks_state.data_count .G_MOUNT_OPERATION_HANDLED
            (some "correct horse") .G_PASSWORD_SAVE_PERMANENTLY),
         (luks_unlocked_backend, .unlock_cb fresh_luks_state.data_count
            (luks_backend.presentable fresh_luks_state.volume.gdu_volume).device
            (.ok "/org/freedesktop/DeviceKit/Disks/devices/dm_2d0")),
         (luks_unlocked_backend, .mount_cb fresh_luks_state.data_count none)] = some s4 ∧
      s4.trace = fresh_luks_state.trace ++ new ∧
      new.filter Effect.is_request_call =
        [Effect.util_get_secret (luks_backend.presentable fresh_luks_state.volume.gdu_volume).device,
         Effect.signal_emit_ask_password 5
           (ask_password_message luks_backend fresh_luks_state.volume) 9,
         Effect.device_op_luks_unlock
           (luks_backend.presentable fresh_luks_state.volume.gdu_volume).device
           (some "correct horse") .unlock_cb fresh_luks_state.data_count,
         Effect.util_save_secret
           (luks_backend.presentable fresh_luks_state.volume.gdu_volume).device
           "correct horse" false,
         Effect.device_op_filesystem_mount 1 fresh_luks_state.data_count,
         Effect.simple_async_result_complete (some fresh_luks_state.data_count) none] ∧
      (s4.heap fresh_luks_state.data_count).simple = { error := none, completed := 1 } ∧
      (s4.heap fresh_luks_state.data_count).released = 1 ∧
      s4.volume.pending_mount_op = none ∧
      s4.volume.cleartext_gdu_volume = some 1 ∧
      s4.volume.can_mount = true ∧
      s4.volume.should_automount = false :=
  happy_path fresh_luks_state luks_backend luks_backend luks_unlocked_backend
    luks_unlocked_backend 5 (some 7) "correct horse"
    "/org/freedesktop/DeviceKit/Disks/devices/dm_2d0" 1 1
    (by decide) (by decide) (by decide) (by decide) (by decide) (by decide) (by decide)
    (by decide) (by decide) (by decide) (by decide) (by decide) (by decide)

/-! ### Heap and volume after the compound updates -/

@[simp] theorem mount_op_data_unref_heap (s : State) (data : DataId) :
    (mount_op_data_unref s data).heap = Function.update s.heap data
      { s.heap data with released := (s.heap data).released + 1 } := by
  unfold mount_op_data_unref
  by_cases hc : (s.heap data).cancelled_handler_id = 0 <;>
    by_cases hr : (s.heap data).mount_operation_reply_handler_id = 0 <;> simp [hc, hr]

@[simp] theorem mount_op_data_unref_volume (s : State) (data : DataId) :
    (mount_op_data_unref s data).volume = s.volume := by
  unfold mount_op_data_unref
  by_cases hc : (s.heap data).cancelled_handler_id = 0 <;>
    by_cases hr : (s.heap data).mount_operation_reply_handler_id = 0 <;> simp [hc, hr]

@[simp] theorem complete_heap (s : State) (data : DataId) :
    (g_simple_async_result_complete s data).heap = Function.update s.heap data
      { s.heap data with
        simple := { (s.heap data).simple with completed := (s.heap data).simple.completed + 1 } } := by
  simp [g_simple_async_result_complete]

@[simp] theorem complete_volume (s : State) (data : DataId) :
    (g_simple_async_result_complete s data).volume = s.volume := by
  simp [g_simple_async_result_complete]

@[simp] theorem set_error_heap (s : State) (data : DataId) (domain : GQuark) (code : Int)
    (message : String) :
    (g_simple_async_result_set_error s data domain code message).heap =
      Function.update s.heap data
        { s.heap data with
          simple := { (s.heap data).simple with
            error := some { domain := domain, code := code, message := message } } } := by
  simp [g_simple_async_result_set_error]

@[simp] theorem set_error_volume (s : State) (data : DataId) (domain : GQuark) (code : Int)
    (message : String) :
    (g_simple_async_result_set_error s data domain code message).volume = s.volume := by
  simp [g_simple_async_result_set_error]

@[simp] theorem set_from_error_heap (s : State) (data : DataId) (error : GError) :
    (g_simple_async_result_set_from_error s data error).heap =
      Function.update s.heap data
        { s.heap data with simple := { (s.heap data).simple with error := some error } } := by
  simp [g_simple_async_result_set_from_error]

@[simp] theorem set_from_error_volume (s : State) (data : DataId) (error : GError) :
    (g_simple_async_result_set_from_error s data error).volume = s.volume := by
  simp [g_simple_async_result_set_from_error]

@[simp] theorem luks_unlock_heap (s : State) (device : DeviceId) (secret : Option String)
    (callback : Callback) (data : DataId) :
    (gdu_device_op_luks_unlock s device secret callback data).heap =
      Function.update s.heap data
        { s.heap data with outstanding := (s.heap data).outstanding ++ [callback] } := by
  simp [gdu_device_op_luks_unlock]

@[simp] theorem luks_unlock_volume (s : State) (device : DeviceId) (secret : Option String)
    (callback : Callback) (data : DataId) :
    (gdu_device_op_luks_unlock s device secret callback data).volume = s.volume := by
  simp [gdu_device_op_luks_unlock]

@[simp] theorem filesystem_mount_heap (s : State) (device : DeviceId) (data : DataId) :
    (gdu_device_op_filesystem_mount s device data).heap =
      Function.update s.heap data
        { s.heap data with outstanding := (s.heap data).outstanding ++ [Callback.mount_cb] } := by
  simp [gdu_device_op_filesystem_mount]

@[simp] theorem filesystem_mount_volume (s : State) (device : DeviceId) (data : DataId) :
    (gdu_device_op_filesystem_mount s device data).volume = s.volume := by
  simp [gdu_device_op_filesystem_mount]

@[simp] theorem obtain_authz_heap (s : State) (action_id : String)
    (cancellable : Option CancellableId) (data : DataId) :
    (obtain_authz s action_id cancellable data).heap =
      Function.update s.heap data
        { s.heap data with
          outstanding := (s.heap data).outstanding ++ [Callback.mount_obtain_authz_cb] } := by
  simp [obtain_authz]

@[simp] theorem obtain_authz_volume (s : State) (action_id : String)
    (cancellable : Option CancellableId) (data : DataId) :
    (obtain_authz s action_id cancellable data).volume = s.volume := by
  simp [obtain_authz]

@[simp] theorem scrub_heap (s : State) (password : String) :
    (scrub_n_free_string s password).heap = s.heap := rfl

@[simp] theorem scrub_volume (s : State) (password : String) :
    (scrub_n_free_string s password).volume = s.volume := rfl

@[simp] theorem set_device_password_heap (s : State) (device : DeviceId)
    (value : Option String) : (set_device_password s device value).heap = s.heap := by
  unfold set_device_password
  cases (s.device_data device).password <;> rfl

@[simp] theorem set_device_password_volume (s : State) (device : DeviceId)
    (value : Option String) : (set_device_password s device value).volume = s.volume := by
  unfold set_device_password
  cases (s.device_data device).password <;> rfl

@[simp] theorem set_device_password_save_heap (s : State) (device : DeviceId)
    (value : GPasswordSave) : (set_device_password_save s device value).heap = s.heap := rfl

@[simp] theorem set_device_password_save_volume (s : State) (device : DeviceId)
    (value : GPasswordSave) : (set_device_password_save s device value).volume = s.volume := rfl

@[simp] theorem emit_changed_heap (s : State) : (emit_changed s).heap = s.heap := rfl

@[simp] theorem emit_changed_volume (s : State) : (emit_changed s).volume = s.volume := rfl

@[simp] theorem take_heap (s : State) (data : DataId) (callback : Callback) :
    (s.take data callback).heap = Function.update s.heap data
      { s.heap data with outstanding := (s.heap data).outstanding.erase callback } := rfl

@[simp] theorem take_volume (s : State) (data : DataId) (callback : Callback) :
    (s.take data callback).volume = s.volume := rfl

/-! ### The invariant is preserved by every function of the mount flow -/

theorem inv_of_frame (s s1 : State) (data : DataId) (h : Inv s)
    (hframe : ∀ d : DataId, d ≠ data → s1.heap d = s.heap d)
    (hrec : record_ok (s1.heap data))
    (hpend : ∀ p : DataId, s1.volume.pending_mount_op = some p →
      (s.volume.pending_mount_op = some p ∧ p ≠ data) ∨
      (p = data ∧ (s1.heap data).is_cancelled = false ∧ (s1.heap data).released = 0)) :
    Inv s1 := by
  constructor
  · intro d
    by_cases hd : d = data
    · subst hd; exact hrec
    · rw [hframe d hd]; exact h.1 d
  · intro p hpp
    rcases hpend p hpp with ⟨hs, hne⟩ | ⟨rfl, h1, h2⟩
    · rw [hframe p hne]; exact h.2 p hs
    · exact ⟨h1, h2⟩

theorem inv_congr (s s1 : State) (h : Inv s) (hheap : s1.heap = s.heap)
    (hpend : s1.volume.pending_mount_op = s.volume.pending_mount_op) : Inv s1 := by
  constructor
  · intro d; rw [hheap]; exact h.1 d
  · intro p hp; rw [hheap]; rw [hpend] at hp; exact h.2 p hp

theorem taken_facts (x : MountOpData) (cb : Callback) (hx : record_ok x)
    (hcb : cb ∈ x.outstanding) :
    x.outstanding = [cb] ∧ x.mount_operation_reply_handler_id = 0 ∧ x.released = 0 := by
  obtain ⟨h1, h2, h3, -, -⟩ := hx
  have hlen : x.outstanding.length = 1 ∧ x.mount_operation_reply_handler_id = 0 := by
    have hpos : 0 < x.outstanding.length := List.length_pos_of_mem hcb
    split_ifs at h3 with h0
    · exact ⟨by omega, h0⟩
    · omega
  have hrel : x.released = 0 := by
    by_contra hne
    have : x.released = 1 := by omega
    have := (h2 this).1
    rw [this] at hcb
    simp at hcb
  refine ⟨?_, hlen.2, hrel⟩
  match hm : x.outstanding, hlen.1, hcb with
  | [a], _, hmem => simp at hmem; rw [hmem]

theorem take_inv (s : State) (data : DataId) (cb : Callback) (h : Inv s)
    (hcb : cb ∈ (s.heap data).outstanding) :
    Inv (s.take data cb) ∧ Quiet (s.take data cb) data := by
  obtain ⟨ho, hr, hrel⟩ := taken_facts _ _ (h.1 data) hcb
  obtain ⟨hk1, hk2, hk3, hk4, hk5⟩ := h.1 data
  refine ⟨inv_of_frame s _ data h ?_ ?_ ?_, ?_⟩
  · intro d hd; simp [Function.update_noteq hd]
  · simp [record_ok, ho, hr, hrel]
    exact ⟨hk4, fun hc => hk5 hc hrel⟩
  · intro p hp
    simp at hp
    by_cases hpd : p = data
    · right
      subst hpd
      simpa using h.2 p hp
    · left; exact ⟨hp, hpd⟩
  · simp [Quiet, ho, hr, hrel]

theorem live_not_completed (s : State) (data : DataId) (h : Inv s) (hq : Quiet s data)
    (hc : (s.heap data).is_cancelled = false) : (s.heap data).simple.completed = 0 :=
  (h.1 data).2.2.2.2 hc hq.2.2

theorem cancelled_completed (s : State) (data : DataId) (h : Inv s)
    (hc : (s.heap data).is_cancelled = true) : (s.heap data).simple.completed = 1 :=
  (h.1 data).2.2.2.1 hc

theorem cancelled_not_pending (s : State) (data p : DataId) (h : Inv s)
    (hc : (s.heap data).is_cancelled = true) (hp : s.volume.pending_mount_op = some p) :
    p ≠ data := by
  intro hpd
  subst hpd
  have := (h.2 p hp).1
  rw [hc] at this
  exact Bool.noConfusion this

/-- Releasing a cancelled record whose callback is running. -/
theorem unref_cancelled_inv (s : State) (data : DataId) (h : Inv s) (hq : Quiet s data)
    (hc : (s.heap data).is_cancelled = true) : Inv (mount_op_data_unref s data) := by
  obtain ⟨ho, hr, hrel⟩ := hq
  have h1 := cancelled_completed s data h hc
  refine inv_of_frame s _ data h ?_ ?_ ?_
  · intro d hd; simp [Function.update_noteq hd]
  · simp [record_ok, ho, hr, hrel, h1]
  · intro p hp
    simp at hp
    left; exact ⟨hp, cancelled_not_pending s data p h hc hp⟩

/-- Completing a live record, clearing the slot and releasing the record:
the common tail of every failure and success path. -/
theorem finish_inv (s : State) (data : DataId) (h : Inv s) (hq : Quiet s data)
    (hc : (s.heap data).is_cancelled = false) :
    Inv (mount_op_data_unref ((g_simple_async_result_complete s data).set_pending none) data) := by
  obtain ⟨ho, hr, hrel⟩ := hq
  have h0 := live_not_completed s data h ⟨ho, hr, hrel⟩ hc
  refine inv_of_frame s _ data h ?_ ?_ ?_
  · intro d hd; simp [Function.update_noteq hd]
  · simp [record_ok, ho, hr, hrel, h0, hc]
  · intro p hp
    simp at hp

/-- Setting an error on the result of a record keeps the invariant and the
shape of the record. -/
theorem set_error_inv (s : State) (data : DataId) (error : GError) (h : Inv s)
    (hq : Quiet s data) (hc : (s.heap data).is_cancelled = false) :
    Inv (g_simple_async_result_set_from_error s data error) ∧
    Quiet (g_simple_async_result_set_from_error s data error) data ∧
    ((g_simple_async_result_set_from_error s data error).heap data).is_cancelled = false := by
  obtain ⟨ho, hr, hrel⟩ := hq
  have h0 := live_not_completed s data h ⟨ho, hr, hrel⟩ hc
  refine ⟨inv_of_frame s _ data h ?_ ?_ ?_, ?_, ?_⟩
  · intro d hd; simp [Function.update_noteq hd]
  · simp [record_ok, ho, hr, hrel, h0, hc]
  · intro p hp
    simp at hp
    by_cases hpd : p = data
    · right; subst hpd; simp [hc, hrel]
    · left; exact ⟨hp, hpd⟩
  · simp [Quiet, ho, hr, hrel]
  · simp [hc]

theorem set_error_eq (s : State) (data : DataId) (domain : GQuark) (code : Int)
    (message : String) :
    g_simple_async_result_set_error s data domain code message =
      g_simple_async_result_set_from_error s data
        { domain := domain, code := code, message := message } := rfl

/-- Failing a live record: set the error, complete, clear the slot, release. -/
theorem fail_inv (s : State) (data : DataId) (error : GError) (h : Inv s)
    (hq : Quiet s data) (hc : (s.heap data).is_cancelled = false) :
    Inv (mount_op_data_unref ((g_simple_async_result_complete
      (g_simple_async_result_set_from_error s data error) data).set_pending none) data) := by
  obtain ⟨h1, h2, h3⟩ := set_error_inv s data error h hq hc
  exact finish_inv _ data h1 h2 h3

/-- Issuing one backend operation for a live or cancelled quiet record. -/
theorem issue_inv (s s1 : State) (data : DataId) (cb : Callback) (h : Inv s)
    (hq : Quiet s data)
    (hheap : s1.heap = Function.update s.heap data
      { s.heap data with outstanding := (s.heap data).outstanding ++ [cb] })
    (hvol : s1.volume.pending_mount_op = s.volume.pending_mount_op) : Inv s1 := by
  obtain ⟨ho, hr, hrel⟩ := hq
  obtain ⟨hk1, hk2, hk3, hk4, hk5⟩ := h.1 data
  refine inv_of_frame s _ data h ?_ ?_ ?_
  · intro d hd; simp [hheap, Function.update_noteq hd]
  · simp [hheap, record_ok, ho, hr, hrel]
    exact ⟨hk4, fun hc => hk5 hc hrel⟩
  · intro p hp
    rw [hvol] at hp
    by_cases hpd : p = data
    · right; subst hpd; simpa [hheap] using h.2 p hp
    · left; exact ⟨hp, hpd⟩

theorem mount_cleartext_device_inv (b : Backend) (s : State) (data : DataId) (path : String)
    (h : Inv s) (hq : Quiet s data) : Inv (mount_cleartext_device b s data path) := by
  unfold mount_cleartext_device
  cases hc : (s.heap data).is_cancelled
  · -- the record with `device_to_mount` assigned
    have hm : Inv (s.modify data fun d =>
          { d with device_to_mount := b.pool_get_by_object_path path }) ∧
        Quiet (s.modify data fun d =>
          { d with device_to_mount := b.pool_get_by_object_path path }) data ∧
        ((s.modify data fun d =>
          { d with device_to_mount := b.pool_get_by_object_path path }).heap data).is_cancelled
          = false := by
      obtain ⟨ho, hr, hrel⟩ := hq
      have h0 := live_not_completed s data h ⟨ho, hr, hrel⟩ hc
      refine ⟨inv_of_frame s _ data h ?_ ?_ ?_, ?_, ?_⟩
      · intro d hd; simp [Function.update_noteq hd]
      · simp [record_ok, ho, hr, hrel, h0, hc]
      · intro p hp
        simp at hp
        by_cases hpd : p = data
        · right; subst hpd; simp [hc, hrel]
        · left; exact ⟨hp, hpd⟩
      · simp [Quiet, ho, hr, hrel]
      · simp [hc]
    obtain ⟨hm1, hm2, hm3⟩ := hm
    cases hpool : b.pool_get_by_object_path path with
    | none =>
      simp only [hpool] at hm1 hm2 hm3 ⊢
      simp only [Bool.false_eq_true, if_false, set_error_eq]
      exact fail_inv _ data _ hm1 hm2 hm3
    | some dev =>
      simp only [hpool] at hm1 hm2 hm3 ⊢
      simp only [Bool.false_eq_true, if_false]
      exact issue_inv _ _ data .mount_cb hm1 hm2 (by simp) (by simp)
  · simp only [if_true]
    exact unref_cancelled_inv s data h hq hc

theorem mount_with_mount_operation_inv (b : Backend) (s : State) (data : DataId)
    (h : Inv s) (hq : Quiet s data) : Inv (mount_with_mount_operation b s data) := by
  unfold mount_with_mount_operation
  cases hc : (s.heap data).is_cancelled
  · simp only [Bool.false_eq_true, if_false]
    cases hop : (s.heap data).mount_operation with
    | none =>
      simp only [set_error_eq]
      exact fail_inv s data _ h hq hc
    | some m =>
      obtain ⟨ho, hr, hrel⟩ := hq
      have h0 := live_not_completed s data h ⟨ho, hr, hrel⟩ hc
      refine inv_of_frame s _ data h ?_ ?_ ?_
      · intro d hd; simp [g_signal_connect, Function.update_noteq hd]
      · simp [g_signal_connect, record_ok, ho, hrel, h0, hc]
      · intro p hp
        simp [g_signal_connect] at hp
        by_cases hpd : p = data
        · right; subst hpd; simp [g_signal_connect, hc, hrel]
        · left; exact ⟨hp, hpd⟩
  · simp only [if_true]
    exact unref_cancelled_inv s data h hq hc

theorem unlock_from_keyring_cb_inv (b : Backend) (s : State) (data : DataId)
    (result : Except GError String) (h : Inv s) (hq : Quiet s data) :
    Inv (unlock_from_keyring_cb b s data result) := by
  unfold unlock_from_keyring_cb
  cases hc : (s.heap data).is_cancelled
  · simp only [Bool.false_eq_true, if_false]
    cases result with
    | error e => exact mount_with_mount_operation_inv b s data h hq
    | ok path => exact mount_cleartext_device_inv b s data path h hq
  · simp only [if_true]
    exact unref_cancelled_inv s data h hq hc

theorem quiet_congr (s s1 : State) (data : DataId) (hq : Quiet s data)
    (hheap : s1.heap = s.heap) : Quiet s1 data := by
  unfold Quiet at *
  rw [hheap]; exact hq

theorem inv_set_device (s : State) (device : DeviceId) (v : GPasswordSave)
    (w : Option String) (h : Inv s) :
    Inv (set_device_password (set_device_password_save s device v) device w) :=
  inv_congr s _ h (by simp) (by simp)

theorem unlock_cb_inv (b : Backend) (s : State) (data : DataId) (device : DeviceId)
    (result : Except GError String) (h : Inv s) (hq : Quiet s data) :
    Inv (unlock_cb b s data device result) := by
  unfold unlock_cb
  apply inv_set_device
  cases hc : (s.heap data).is_cancelled
  · simp only [Bool.false_eq_true, if_false]
    cases result with
    | error e => exact fail_inv s data _ h hq hc
    | ok path =>
      simp only
      apply mount_cleartext_device_inv
      · refine inv_congr s _ h ?_ ?_
        · cases (s.device_data device).password <;>
            cases (s.device_data device).password_save <;>
            by_cases hu : (update_volume b s.volume).1 = true <;> simp [hu]
        · cases (s.device_data device).password <;>
            cases (s.device_data device).password_save <;>
            by_cases hu : (update_volume b s.volume).1 = true <;>
            simp [hu, (update_volume_frame b _).2.1]
      · refine quiet_congr s _ data hq ?_
        cases (s.device_data device).password <;>
          cases (s.device_data device).password_save <;>
          by_cases hu : (update_volume b s.volume).1 = true <;> simp [hu]
  · simp only [if_true]
    exact unref_cancelled_inv s data h hq hc

theorem set_pending_none_inv (s : State) (h : Inv s) : Inv (s.set_pending none) := by
  constructor
  · intro d; simpa using h.1 d
  · intro p hp; simp at hp

theorem mount_cb_inv (b : Backend) (s : State) (data : DataId) (error : Option GError)
    (h : Inv s) (hq : Quiet s data) : Inv (mount_cb b s data error) := by
  unfold mount_cb
  cases hc : (s.heap data).is_cancelled
  · simp only [Bool.false_eq_true, if_false]
    cases error with
    | none => exact finish_inv s data h hq hc
    | some e =>
      simp only
      split
      · split_ifs
        · exact issue_inv s _ data .mount_obtain_authz_cb h hq (by simp) (by simp)
        · exact fail_inv s data _ h hq hc
      · exact fail_inv s data _ h hq hc
  · simp only [if_true]
    exact unref_cancelled_inv _ data (set_pending_none_inv s h)
      (quiet_congr s _ data hq (by simp)) (by simpa using hc)

theorem mount_obtain_authz_cb_inv (s : State) (data : DataId) (res : Option GError)
    (h : Inv s) (hq : Quiet s data) : Inv (mount_obtain_authz_cb s data res) := by
  unfold mount_obtain_authz_cb
  cases hc : (s.heap data).is_cancelled
  · simp only [Bool.false_eq_true, if_false]
    cases res with
    | some e => exact fail_inv s data _ h hq hc
    | none =>
      simp only
      split
      · exact issue_inv s _ data .mount_cb h hq (by simp) (by simp)
      · exact h
  · simp only [if_true]
    exact unref_cancelled_inv _ data (set_pending_none_inv s h)
      (quiet_congr s _ data hq (by simp)) (by simpa using hc)

theorem mount_operation_reply_inv (b : Backend) (s : State) (data : DataId)
    (result : GMountOperationResult) (password : Option String) (password_save : GPasswordSave)
    (h : Inv s) (hconn : (s.heap data).reply_handler_connected = true) :
    Inv (mount_operation_reply b s data result password password_save) := by
  have hrel : (s.heap data).released = 0 := by
    simp [MountOpData.reply_handler_connected] at hconn; exact hconn.1
  have hid : (s.heap data).mount_operation_reply_handler_id ≠ 0 := by
    simp [MountOpData.reply_handler_connected] at hconn; exact hconn.2
  obtain ⟨hk1, hk2, hk3, hk4, hk5⟩ := h.1 data
  have ho : (s.heap data).outstanding = [] := by
    rw [if_neg hid] at hk3
    exact List.length_eq_zero.mp (by omega)
  unfold mount_operation_reply
  cases hc : (s.heap data).is_cancelled
  · simp only [Bool.false_eq_true, if_false]
    have h0 := hk5 hc hrel
    -- the state once the reply handler is disconnected
    have hm : Inv ((s.emit (.signal_handler_disconnect
          (s.heap data).mount_operation_reply_handler_id)).modify data fun d =>
            { d with mount_operation_reply_handler_id := 0 }) ∧
        Quiet ((s.emit (.signal_handler_disconnect
          (s.heap data).mount_operation_reply_handler_id)).modify data fun d =>
            { d with mount_operation_reply_handler_id := 0 }) data ∧
        (((s.emit (.signal_handler_disconnect
          (s.heap data).mount_operation_reply_handler_id)).modify data fun d =>
            { d with mount_operation_reply_handler_id := 0 }).heap data).is_cancelled = false := by
      refine ⟨inv_of_frame s _ data h ?_ ?_ ?_, ?_, ?_⟩
      · intro d hd; simp [Function.update_noteq hd]
      · simp [record_ok, ho, hrel, h0, hc]
      · intro p hp
        simp at hp
        by_cases hpd : p = data
        · right; subst hpd; simp [hc, hrel]
        · left; exact ⟨hp, hpd⟩
      · simp [Quiet, ho, hrel]
      · simp [hc]
    obtain ⟨hm1, hm2, hm3⟩ := hm
    rw [if_pos hid]
    generalize ((s.emit (.signal_handler_disconnect
          (s.heap data).mount_operation_reply_handler_id)).modify data fun d =>
            { d with mount_operation_reply_handler_id := 0 }) = s1 at hm1 hm2 hm3 ⊢
    by_cases hres : result = .G_MOUNT_OPERATION_HANDLED
    · simp only [hres, ne_eq, not_true_eq_false, if_false]
      refine issue_inv s1 _ data .unlock_cb hm1 hm2 (by simp) (by simp)
    · simp only [ne_eq, hres, not_false_eq_true, if_true, set_error_eq]
      split_ifs
      · exact fail_inv s1 data _ hm1 hm2 hm3
      · exact fail_inv s1 data _ hm1 hm2 hm3
  · simp only [if_true]
    have h1 := hk4 hc
    refine inv_of_frame s _ data h ?_ ?_ ?_
    · intro d hd; simp [Function.update_noteq hd]
    · simp [record_ok, ho, hrel, h1]
      split_ifs <;> simp
    · intro p hp
      simp at hp
      left; exact ⟨hp, cancelled_not_pending s data p h hc hp⟩

theorem cancel_pending_mount_op_inv (s : State) (p : DataId) (h : Inv s)
    (hp : s.volume.pending_mount_op = some p) : Inv (cancel_pending_mount_op s p) := by
  obtain ⟨hc, hrel⟩ := h.2 p hp
  obtain ⟨hk1, hk2, hk3, hk4, hk5⟩ := h.1 p
  have h0 := hk5 hc hrel
  refine inv_of_frame s _ p h ?_ ?_ ?_
  · intro d hd; simp [cancel_pending_mount_op_heap, Function.update_noteq hd]
  · simp [cancel_pending_mount_op_heap, record_ok, hrel, h0]
    exact hk3
  · intro q hq
    simp [cancel_pending_mount_op_volume] at hq

theorem cancelled_cb_inv (s : State) (h : Inv s) : Inv (cancelled_cb s) := by
  unfold cancelled_cb
  cases hp : s.volume.pending_mount_op with
  | none => exact h
  | some p => exact cancel_pending_mount_op_inv s p h hp

theorem g_gdu_volume_removed_inv (s : State) (h : Inv s) : Inv (g_gdu_volume_removed s) := by
  have hc := cancelled_cb_inv s h
  unfold cancelled_cb at hc
  unfold g_gdu_volume_removed
  generalize (match s.volume.pending_mount_op with
    | some pending_mount_op => cancel_pending_mount_op s pending_mount_op
    | none => s) = s1 at hc ⊢
  refine inv_congr s1 _ hc ?_ ?_
  · cases hm : s1.volume.mount <;> cases hd : s1.volume.drive <;> simp [hm, hd]
  · cases hm : s1.volume.mount <;> cases hd : s1.volume.drive <;> simp [hm, hd]

theorem gdu_volume_changed_inv (b : Backend) (s : State) (h : Inv s) :
    Inv (gdu_volume_changed b s) := by
  unfold gdu_volume_changed
  refine inv_congr s _ h ?_ ?_
  · by_cases hu : (update_volume b s.volume).1 = true <;> simp [hu]
  · by_cases hu : (update_volume b s.volume).1 = true <;>
      simp [hu, (update_volume_frame b _).2.1]

theorem g_gdu_volume_new_inv (b : Backend) (gdu_volume : GduVolumeId) (drive : Option DriveId)
    (activation_root : Option String) :
    Inv (g_gdu_volume_new b gdu_volume drive activation_root) := by
  constructor
  · intro d
    simp [g_gdu_volume_new, record_ok, MountOpData.zero]
  · intro p hp
    simp [g_gdu_volume_new, (update_volume_frame b _).2.1] at hp

theorem new_mount_op_data_inv (s : State) (mount_operation : Option MountOperationId)
    (cancellable : Option CancellableId) (h : Inv s) :
    Inv (new_mount_op_data s mount_operation cancellable) ∧
    Quiet (new_mount_op_data s mount_operation cancellable) s.data_count ∧
    ((new_mount_op_data s mount_operation cancellable).heap s.data_count).is_cancelled = false ∧
    (new_mount_op_data s mount_operation cancellable).volume.cleartext_gdu_volume =
      s.volume.cleartext_gdu_volume := by
  have hheap : ∃ x : MountOpData,
      (new_mount_op_data s mount_operation cancellable).heap =
        Function.update s.heap s.data_count x ∧
      x.outstanding = [] ∧ x.mount_operation_reply_handler_id = 0 ∧ x.released = 0 ∧
      x.is_cancelled = false ∧ x.simple.completed = 0 := by
    cases cancellable with
    | none =>
      exact ⟨{ MountOpData.zero with cancellable := none, mount_operation := mount_operation },
        by simp [new_mount_op_data], by simp [MountOpData.zero]⟩
    | some c =>
      exact ⟨{ MountOpData.zero with
                cancellable := some c, mount_operation := mount_operation,
                cancelled_handler_id := s.handler_count + 1 },
        by simp [new_mount_op_data, g_signal_connect], by simp [MountOpData.zero]⟩
  have hvol : (new_mount_op_data s mount_operation cancellable).volume =
      { s.volume with pending_mount_op := some s.data_count } := by
    cases cancellable <;> simp [new_mount_op_data, g_signal_connect]
  obtain ⟨x, hx, ho, hr, hrel, hc, h0⟩ := hheap
  refine ⟨inv_of_frame s _ s.data_count h ?_ ?_ ?_, ?_, ?_, ?_⟩
  · intro d hd; simp [hx, Function.update_noteq hd]
  · simp [hx, record_ok, ho, hr, hrel, hc, h0]
  · intro p hp
    rw [hvol] at hp
    simp at hp
    right
    subst hp
    simp [hx, hc, hrel]
  · simp [Quiet, hx, ho, hr, hrel]
  · simp [hx, hc]
  · rw [hvol]

theorem start_mount_op_inv (b : Backend) (s : State) (device : DeviceId) (data : DataId)
    (h : Inv s) (hq : Quiet s data) (hc : (s.heap data).is_cancelled = false) :
    Inv (start_mount_op b s device data) := by
  unfold start_mount_op
  cases hclear : s.volume.cleartext_gdu_volume with
  | some cleartext => exact mount_cleartext_device_inv b s data _ h hq
  | none =>
    simp only
    have he : Inv (s.emit (.util_get_secret device)) := inv_congr s _ h (by simp) (by simp)
    have hqe : Quiet (s.emit (.util_get_secret device)) data :=
      quiet_congr s _ data hq (by simp)
    by_cases hluks : (g_strcmp0_eq (b.device device).id_usage (some "crypto") &&
        g_strcmp0_eq (b.device device).id_type (some "crypto_LUKS")) = true
    · rw [if_pos hluks]
      cases hsecret : b.util_get_secret device with
      | some password =>
        simp only
        refine inv_congr (gdu_device_op_luks_unlock (s.emit (.util_get_secret device)) device
          (some password) .unlock_from_keyring_cb data) _ ?_ (by simp) (by simp)
        exact issue_inv _ _ data .unlock_from_keyring_cb he hqe (by simp) (by simp)
      | none =>
        simp only
        by_cases hinh : b.pool_is_daemon_inhibited = true
        · rw [if_pos hinh, set_error_eq]
          exact fail_inv _ data _ he hqe (by simpa using hc)
        · rw [if_neg hinh]
          exact mount_with_mount_operation_inv b _ data he hqe
    · rw [if_neg hluks]
      have hm : Inv (s.modify data fun d => { d with device_to_mount := some device }) ∧
          Quiet (s.modify data fun d => { d with device_to_mount := some device }) data := by
        obtain ⟨ho, hr, hrel⟩ := hq
        have h0 := live_not_completed s data h ⟨ho, hr, hrel⟩ hc
        refine ⟨inv_of_frame s _ data h ?_ ?_ ?_, ?_⟩
        · intro d hd; simp [Function.update_noteq hd]
        · simp [record_ok, ho, hr, hrel, h0, hc]
        · intro p hp
          simp at hp
          by_cases hpd : p = data
          · right; subst hpd; simp [hc, hrel]
          · left; exact ⟨hp, hpd⟩
        · simp [Quiet, ho, hr, hrel]
      exact issue_inv _ _ data .mount_cb hm.1 hm.2 (by simp) (by simp)

theorem g_gdu_volume_mount_inv (b : Backend) (s : State)
    (mount_operation : Option MountOperationId) (cancellable : Option CancellableId)
    (h : Inv s) : Inv (g_gdu_volume_mount b s mount_operation cancellable) := by
  unfold g_gdu_volume_mount
  by_cases hbusy : s.volume.pending_mount_op = none
  swap
  · rw [if_pos hbusy]
    exact inv_congr s _ h (by simp) (by simp)
  rw [if_neg (by simpa using hbusy)]
  simp only
  by_cases hskip : ((b.device (b.presentable s.volume.gdu_volume).device).optical_disc_is_blank ||
      (b.device (b.presentable s.volume.gdu_volume).device).is_mounted) = true
  · rw [if_pos hskip]
    exact inv_congr s _ h (by simp) (by simp)
  · rw [if_neg hskip]
    obtain ⟨h1, h2, h3, -⟩ := new_mount_op_data_inv s mount_operation cancellable h
    exact start_mount_op_inv b _ _ _ h1 h2 h3

theorem step_inv (b : Backend) (s s1 : State) (e : Event) (h : Inv s)
    (hstep : step b s e = some s1) : Inv s1 := by
  cases e with
  | mount mount_operation cancellable =>
    simp only [step, Option.some.injEq] at hstep
    subst hstep
    exact g_gdu_volume_mount_inv b s _ _ h
  | cancelled data =>
    simp only [step] at hstep
    split_ifs at hstep
    simp only [Option.some.injEq] at hstep
    subst hstep
    exact cancelled_cb_inv s h
  | removed =>
    simp only [step, Option.some.injEq] at hstep
    subst hstep
    exact g_gdu_volume_removed_inv s h
  | reply data result password password_save =>
    simp only [step] at hstep
    split_ifs at hstep with hconn
    simp only [Option.some.injEq] at hstep
    subst hstep
    exact mount_operation_reply_inv b s data _ _ _ h hconn
  | unlock_from_keyring_cb data result =>
    simp only [step] at hstep
    split_ifs at hstep with hcb
    simp only [Option.some.injEq] at hstep
    subst hstep
    obtain ⟨h1, h2⟩ := take_inv s data _ h hcb
    exact unlock_from_keyring_cb_inv b _ data _ h1 h2
  | unlock_cb data device result =>
    simp only [step] at hstep
    split_ifs at hstep with hcb
    simp only [Option.some.injEq] at hstep
    subst hstep
    obtain ⟨h1, h2⟩ := take_inv s data _ h hcb
    exact unlock_cb_inv b _ data _ _ h1 h2
  | mount_cb data error =>
    simp only [step] at hstep
    split_ifs at hstep with hcb
    simp only [Option.some.injEq] at hstep
    subst hstep
    obtain ⟨h1, h2⟩ := take_inv s data _ h hcb
    exact mount_cb_inv b _ data _ h1 h2
  | mount_obtain_authz_cb data res =>
    simp only [step] at hstep
    split_ifs at hstep with hcb
    simp only [Option.some.injEq] at hstep
    subst hstep
    obtain ⟨h1, h2⟩ := take_inv s data _ h hcb
    exact mount_obtain_authz_cb_inv _ data _ h1 h2
  | presentable_changed =>
    simp only [step, Option.some.injEq] at hstep
    subst hstep
    exact gdu_volume_changed_inv b s h

theorem reachable_inv (s : State) (h : Reachable s) : Inv s := by
  induction h with
  | init b gdu_volume drive activation_root => exact g_gdu_volume_new_inv b _ _ _
  | step b e _ hstep ih => exact step_inv b _ _ e ih hstep

/-- Completion when no caller's callback calls back while it runs (the
events of `step`): in every state reachable from a
freshly constructed volume by any sequence of `mount ()` calls, cancellation
signals, volume removal, prompt replies, backend callbacks and change
notifications, for every `MountOpData` record
`g_simple_async_result_complete` has been invoked on its result at most
once; the record has been released by `mount_op_data_unref` at most once,
and if it has been released the result has been completed exactly once.
Moreover a cancelled record has its result completed exactly once, and a
record neither cancelled nor released has its result still pending. -/
theorem result_completed_once (s : State) (h : Reachable s) (data : DataId) :
    (s.heap data).simple.completed ≤ 1 ∧
    (s.heap data).released ≤ 1 ∧
    ((s.heap data).released = 1 → (s.heap data).simple.completed = 1) ∧
    ((s.heap data).is_cancelled = true → (s.heap data).simple.completed = 1) ∧
    ((s.heap data).is_cancelled = false → (s.heap data).released = 0 →
      (s.heap data).simple.completed = 0) := by
  obtain ⟨h1, h2, -, h4, h5⟩ := (reachable_inv s h).1 data
  refine ⟨?_, h1, fun hr => (h2 hr).2, h4, h5⟩
  cases hc : (s.heap data).is_cancelled
  · by_cases hr : (s.heap data).released = 0
    · rw [h5 hc hr]; exact Nat.zero_le 1
    · have : (s.heap data).released = 1 := by omega
      rw [(h2 this).2]
  · rw [h4 hc]

/-- Instance of `result_completed_once`: record 0 in the state reached by
`overlapping_requests`, which was cancelled and later released. -/
theorem result_completed_once_witness :
    Reachable overlapping_state ∧
    (overlapping_state.heap 0).simple.completed ≤ 1 ∧
    (overlapping_state.heap 0).released ≤ 1 ∧
    ((overlapping_state.heap 0).released = 1 → (overlapping_state.heap 0).simple.completed = 1) ∧
    ((overlapping_state.heap 0).is_cancelled = true →
      (overlapping_state.heap 0).simple.completed = 1) ∧
    ((overlapping_state.heap 0).is_cancelled = false → (overlapping_state.heap 0).released = 0 →
      (overlapping_state.heap 0).simple.completed = 0) :=
  ⟨reachable_of_run overlapping_requests fresh_plain_state overlapping_state
      (Reachable.init plain_backend 0 none none) rfl,
    result_completed_once overlapping_state
      (reachable_of_run overlapping_requests fresh_plain_state overlapping_state
        (Reachable.init plain_backend 0 none none) rfl) 0⟩

/-! ### Automount, unlocked-volume policy and the audio-disc override -/

theorem strlen_pos_iff (str : String) : 0 < strlen str ↔ str ≠ "" := by
  unfold strlen
  constructor
  · intro h hs; subst hs; simp [String.utf8ByteSize] at h
  · intro h
    obtain ⟨l⟩ := str
    cases l with
    | nil => exact absurd rfl h
    | cons c cs =>
      simp only [String.utf8ByteSize, String.utf8ByteSize.go]
      have := Char.utf8Size_pos c
      omega

/-- A difference that fits into `time_t` is computed exactly. -/
theorem time_t_sub_exact (a b : Int)
    (h_low : -9223372036854775808 ≤ a - b) (h_high : a - b < 9223372036854775808) :
    time_t_sub a b = a - b := by
  unfold time_t_sub
  omega

/-- A difference that does not fit wraps around: with the insertion time at
the least `time_t` the difference to 1000 comes out negative. -/
theorem time_t_sub_wraps :
    time_t_sub 1000 (-9223372036854775808) = -9223372036854774808 := by decide

theorem update_volume_locked_should_automount (b : Backend) (volume : GGduVolume)
    (h : (update_volume b volume).2.cleartext_gdu_volume = none) :
    (update_volume b volume).2.should_automount =
      match volume.drive with
      | some drive => !decide (time_t_sub b.now (b.time_of_last_media_insertion drive) > 5)
      | none => true := by
  have hb : (update_cleartext_binding b volume
      (b.presentable volume.gdu_volume).device).cleartext_gdu_volume = none := by
    rw [← h]
    exact ((update_attributes_frame b _ _).2.2.2.1).symm
  have hd := (update_cleartext_binding_frame b volume (b.presentable volume.gdu_volume).device).2.1
  simp only [update_volume, update_attributes, hb, hd]

/-- Claim C11 (automount grace window): for every volume that has no unlocked
cleartext mapping after `update_volume`, `should_automount` is FALSE exactly
when the volume has a drive and the `time_t` difference
`now - time_of_last_media_insertion` the code computes is greater than 5.
Whenever the true difference of the two times fits into `time_t` (so that
the subtraction does not overflow), that is: exactly when the volume has a
drive and `now - time_of_last_media_insertion > 5` seconds.  In particular a
difference of 10 seconds gives FALSE, 2 seconds and exactly 5 seconds give
TRUE, and a volume without a drive gets TRUE. -/
theorem automount_grace_window (b : Backend) (volume : GGduVolume)
    (h : (update_volume b volume).2.cleartext_gdu_volume = none) :
    ((update_volume b volume).2.should_automount = false ↔
      ∃ drive, volume.drive = some drive ∧
        time_t_sub b.now (b.time_of_last_media_insertion drive) > 5) ∧
    ((∀ drive, volume.drive = some drive →
        -9223372036854775808 ≤ b.now - b.time_of_last_media_insertion drive ∧
        b.now - b.time_of_last_media_insertion drive < 9223372036854775808) →
      ((update_volume b volume).2.should_automount = false ↔
        ∃ drive, volume.drive = some drive ∧
          b.now - b.time_of_last_media_insertion drive > 5)) ∧
    (∀ drive, volume.drive = some drive →
      b.now - b.time_of_last_media_insertion drive = 10 →
      (update_volume b volume).2.should_automount = false) ∧
    (∀ drive, volume.drive = some drive →
      b.now - b.time_of_last_media_insertion drive = 2 →
      (update_volume b volume).2.should_automount = true) ∧
    (∀ drive, volume.drive = some drive →
      b.now - b.time_of_last_media_insertion drive = 5 →
      (update_volume b volume).2.should_automount = true) ∧
    (volume.drive = none → (update_volume b volume).2.should_automount = true) := by
  rw [update_volume_locked_should_automount b volume h]
  refine ⟨?_, ?_, ?_, ?_, ?_, ?_⟩
  · cases hd : volume.drive with
    | none => simp
    | some drive => simp
  · intro h_range
    cases hd : volume.drive with
    | none => simp
    | some drive =>
      obtain ⟨h_low, h_high⟩ := h_range drive hd
      simp [time_t_sub_exact _ _ h_low h_high]
  · intro drive hd ht
    have he := time_t_sub_exact b.now (b.time_of_last_media_insertion drive) (by omega) (by omega)
    simp [hd, he, ht]
  · intro drive hd ht
    have he := time_t_sub_exact b.now (b.time_of_last_media_insertion drive) (by omega) (by omega)
    simp [hd, he, ht]
  · intro drive hd ht
    have he := time_t_sub_exact b.now (b.time_of_last_media_insertion drive) (by omega) (by omega)
    simp [hd, he, ht]
  · intro hd; simp [hd]

/-- Claim C11, instance of `automount_grace_window`: the plain partition of
drive 3 appears ten seconds after the last media insertion of the drive
(`g_gdu_volume_new` runs `update_volume` on `appearing_volume`), and gets
`should_automount` FALSE; appearing one second after the insertion it gets
TRUE. -/
theorem automount_grace_window_witness :
    (g_gdu_volume_new late_backend 0 (some 3) none).volume =
      (update_volume late_backend appearing_volume).2 ∧
    (update_volume late_backend appearing_volume).2.cleartext_gdu_volume = none ∧
    late_backend.now - late_backend.time_of_last_media_insertion 3 = 10 ∧
    (update_volume late_backend appearing_volume).2.should_automount = false ∧
    plain_backend.now - plain_backend.time_of_last_media_insertion 3 = 1 ∧
    (update_volume plain_backend appearing_volume).2.should_automount = true ∧
    ((update_volume late_backend appearing_volume).2.should_automount = false ↔
      ∃ drive, appearing_volume.drive = some drive ∧
        late_backend.now - late_backend.time_of_last_media_insertion drive > 5) :=
  ⟨rfl, by decide, by decide,
    (automount_grace_window late_backend appearing_volume (by decide)).2.2.1 3 (by decide)
      (by decide),
    by decide, by decide,
    (automount_grace_window late_backend appearing_volume (by decide)).2.1
      (fun _ _ => of_decide_eq_true rfl)⟩

/-! ### Entry into the unlock flow -/

/-- The effects of connecting `cancelled_cb` in `new_mount_op_data`. -/
theorem new_mount_op_data_shape (s : State) (mount_operation : Option MountOperationId)
    (cancellable : Option CancellableId) :
    (new_mount_op_data s mount_operation cancellable).volume =
      { s.volume with pending_mount_op := some s.data_count } ∧
    (new_mount_op_data s mount_operation cancellable).heap = Function.update s.heap s.data_count
      { MountOpData.zero with
        cancellable := cancellable
        mount_operation := mount_operation
        cancelled_handler_id := if cancellable = none then 0 else s.handler_count + 1 } ∧
    (new_mount_op_data s mount_operation cancellable).trace =
      s.trace ++ (if cancellable = none then []
        else [Effect.signal_connect (s.handler_count + 1) "cancelled" none]) ∧
    (new_mount_op_data s mount_operation cancellable).device_data = s.device_data ∧
    (new_mount_op_data s mount_operation cancellable).data_count = s.data_count + 1 ∧
    (new_mount_op_data s mount_operation cancellable).handler_count =
      (if cancellable = none then s.handler_count else s.handler_count + 1) := by
  cases cancellable <;> simp [new_mount_op_data, g_signal_connect, MountOpData.zero]

/-- Claim C12 (inhibited daemon, no cached secret): for a locked LUKS volume
(no pending request, not mounted, not blank, no unlocked mapping) with no
secret in the keyring and the daemon inhibited, `g_gdu_volume_mount`
completes the request's result once with
`(G_IO_ERROR, G_IO_ERROR_FAILED_HANDLED)`, releases the record and returns
with `pending_mount_op` `NULL`, whether or not a mount operation is bound.
The trace gains only the connection of the "cancelled" handler (when a
cancellable is given), the secret lookup, the completion and the
disconnection of that handler: no "ask-password", no unlock, no mount. -/
theorem mount_inhibited (b : Backend) (s : State) (mount_operation : Option MountOperationId)
    (cancellable : Option CancellableId)
    (h_idle : s.volume.pending_mount_op = none)
    (h_locked : s.volume.cleartext_gdu_volume = none)
    (h_blank : (b.device (b.presentable s.volume.gdu_volume).device).optical_disc_is_blank = false)
    (h_mounted : (b.device (b.presentable s.volume.gdu_volume).device).is_mounted = false)
    (h_usage : (b.device (b.presentable s.volume.gdu_volume).device).id_usage = some "crypto")
    (h_type : (b.device (b.presentable s.volume.gdu_volume).device).id_type = some "crypto_LUKS")
    (h_secret : b.util_get_secret (b.presentable s.volume.gdu_volume).device = none)
    (h_inhibited : b.pool_is_daemon_inhibited = true) :
    ((g_gdu_volume_mount b s mount_operation cancellable).heap s.data_count).simple =
      { error := some { domain := .G_IO_ERROR, code := G_IO_ERROR_FAILED_HANDLED,
                        message := "Daemon is currently inhibited" },
        completed := 1 } ∧
    ((g_gdu_volume_mount b s mount_operation cancellable).heap s.data_count).released = 1 ∧
    ((g_gdu_volume_mount b s mount_operation cancellable).heap s.data_count).outstanding = [] ∧
    ((g_gdu_volume_mount b s mount_operation cancellable).heap
      s.data_count).reply_handler_connected = false ∧
    (g_gdu_volume_mount b s mount_operation cancellable).volume.pending_mount_op = none ∧
    (g_gdu_volume_mount b s mount_operation cancellable).trace =
      s.trace ++
        (if cancellable = none then []
         else [Effect.signal_connect (s.handler_count + 1) "cancelled" none]) ++
        [Effect.util_get_secret (b.presentable s.volume.gdu_volume).device,
         Effect.simple_async_result_complete (some s.data_count) (some
           { domain := .G_IO_ERROR, code := G_IO_ERROR_FAILED_HANDLED,
             message := "Daemon is currently inhibited" })] ++
        (if cancellable = none then []
         else [Effect.signal_handler_disconnect (s.handler_count + 1)]) := by
  obtain ⟨hv, hh, ht, -, -, -⟩ := new_mount_op_data_shape s mount_operation cancellable
  have hc : (new_mount_op_data s mount_operation cancellable).volume.cleartext_gdu_volume =
      none := by rw [hv]; exact h_locked
  have hg : (new_mount_op_data s mount_operation cancellable).volume.gdu_volume =
      s.volume.gdu_volume := by rw [hv]
  cases cancellable <;>
    simp [g_gdu_volume_mount, start_mount_op, h_idle, hc, h_blank, h_mounted, h_usage, h_type,
      h_secret, h_inhibited, g_strcmp0_eq, hh, ht, mount_op_data_unref,
      g_simple_async_result_complete, g_simple_async_result_set_error, MountOpData.zero,
      MountOpData.reply_handler_connected]

/-- Claim C12, instance of `mount_inhibited`: `mount ()` with cancellable 7
and no mount operation on the fresh LUKS volume while the daemon is
inhibited. -/
theorem mount_inhibited_witness :
    ((g_gdu_volume_mount luks_inhibited_backend fresh_luks_state none (some 7)).heap
      fresh_luks_state.data_count).simple =
      { error := some { domain := .G_IO_ERROR, code := G_IO_ERROR_FAILED_HANDLED,
                        message := "Daemon is currently inhibited" },
        completed := 1 } ∧
    (g_gdu_volume_mount luks_inhibited_backend fresh_luks_state none
      (some 7)).volume.pending_mount_op = none ∧
    (g_gdu_volume_mount luks_inhibited_backend fresh_luks_state none (some 7)).trace =
      [Effect.signal_connect 1 "cancelled" none,
       Effect.util_get_secret 0,
       Effect.simple_async_result_complete (some 0) (some
         { domain := .G_IO_ERROR, code := G_IO_ERROR_FAILED_HANDLED,
           message := "Daemon is currently inhibited" }),
       Effect.signal_handler_disconnect 1] := by
  have h := mount_inhibited luks_inhibited_backend fresh_luks_state none (some 7)
    (by decide) (by decide) (by decide) (by decide) (by decide) (by decide) (by decide)
    (by decide)
  exact ⟨h.1, h.2.2.2.2.1, by decide⟩

/-! ### Prompt replies other than HANDLED -/

/-- Claim C13 (prompt reply that is not HANDLED, amended): for a non-cancelled
request and a reply other than `G_MOUNT_OPERATION_HANDLED`,
`mount_operation_reply` fails the request without any unlock call: the
result is completed once more with `not_handled_error`, which is the silent
`(G_IO_ERROR, G_IO_ERROR_FAILED_HANDLED)` for `G_MOUNT_OPERATION_ABORTED` and
`(G_IO_ERROR, G_IO_ERROR_PERMISSION_DENIED)` for every other reply; the reply
handler is disconnected, `pending_mount_op` is `NULL`, the record is
released, no data is attached to any device, and the trace gains only the
handler disconnections and the completion. -/
theorem reply_not_handled (b : Backend) (s : State) (data : DataId)
    (result : GMountOperationResult) (password : Option String) (password_save : GPasswordSave)
    (h_live : (s.heap data).is_cancelled = false)
    (h_result : result ≠ .G_MOUNT_OPERATION_HANDLED) :
    ((mount_operation_reply b s data result password password_save).heap data).simple =
      { error := some (not_handled_error result),
        completed := (s.heap data).simple.completed + 1 } ∧
    (not_handled_error result).domain = .G_IO_ERROR ∧
    (not_handled_error result).code =
      (if result = .G_MOUNT_OPERATION_ABORTED then G_IO_ERROR_FAILED_HANDLED
       else G_IO_ERROR_PERMISSION_DENIED) ∧
    ((mount_operation_reply b s data result password password_save).heap data).released =
      (s.heap data).released + 1 ∧
    ((mount_operation_reply b s data result password password_save).heap
      data).mount_operation_reply_handler_id = 0 ∧
    (mount_operation_reply b s data result password password_save).volume.pending_mount_op
      = none ∧
    (mount_operation_reply b s data result password password_save).device_data
      = s.device_data ∧
    (mount_operation_reply b s data result password password_save).trace =
      s.trace ++
        (if (s.heap data).mount_operation_reply_handler_id ≠ 0 then
          [Effect.signal_handler_disconnect (s.heap data).mount_operation_reply_handler_id]
         else []) ++
        [Effect.simple_async_result_complete (some data) (some (not_handled_error result))] ++
        (if (s.heap data).cancelled_handler_id ≠ 0 then
          [Effect.signal_handler_disconnect (s.heap data).cancelled_handler_id]
         else []) := by
  cases result with
  | G_MOUNT_OPERATION_HANDLED => exact absurd rfl h_result
  | G_MOUNT_OPERATION_ABORTED =>
    by_cases hr : (s.heap data).mount_operation_reply_handler_id = 0 <;>
      by_cases hc : (s.heap data).cancelled_handler_id = 0 <;>
      simp [mount_operation_reply, mount_op_data_unref, g_simple_async_result_complete,
        g_simple_async_result_set_error, not_handled_error, h_live, hr, hc]
  | G_MOUNT_OPERATION_UNHANDLED =>
    by_cases hr : (s.heap data).mount_operation_reply_handler_id = 0 <;>
      by_cases hc : (s.heap data).cancelled_handler_id = 0 <;>
      simp [mount_operation_reply, mount_op_data_unref, g_simple_async_result_complete,
        g_simple_async_result_set_error, not_handled_error, h_live, hr, hc]

/-- Claim C13, instance of `reply_not_handled`: the prompt of request 0 of
the LUKS volume is answered `G_MOUNT_OPERATION_UNHANDLED`. -/
theorem reply_not_handled_witness :
    (prompting_state.heap 0).is_cancelled = false ∧
    ((mount_operation_reply luks_backend prompting_state 0 .G_MOUNT_OPERATION_UNHANDLED none
        .G_PASSWORD_SAVE_NEVER).heap 0).simple =
      { error := some (not_handled_error .G_MOUNT_OPERATION_UNHANDLED),
        completed := (prompting_state.heap 0).simple.completed + 1 } ∧
    (mount_operation_reply luks_backend prompting_state 0 .G_MOUNT_OPERATION_UNHANDLED none
        .G_PASSWORD_SAVE_NEVER).volume.pending_mount_op = none ∧
    (mount_operation_reply luks_backend prompting_state 0 .G_MOUNT_OPERATION_UNHANDLED none
        .G_PASSWORD_SAVE_NEVER).trace =
      prompting_state.trace ++
        [Effect.signal_handler_disconnect 2,
         Effect.simple_async_result_complete (some 0)
           (some (not_handled_error .G_MOUNT_OPERATION_UNHANDLED)),
         Effect.signal_handler_disconnect 1] := by
  have h := reply_not_handled luks_backend prompting_state 0 .G_MOUNT_OPERATION_UNHANDLED none
    .G_PASSWORD_SAVE_NEVER (by decide) (by decide)
  exact ⟨by decide, h.1, h.2.2.2.2.2.1, by decide⟩

/-- Claim C13, counterexample: the prompt of request 0 of the LUKS volume is
answered `G_MOUNT_OPERATION_UNHANDLED`; the request fails with
`(G_IO_ERROR, G_IO_ERROR_PERMISSION_DENIED)`, which is not the silent
classification `G_IO_ERROR_FAILED_HANDLED`. -/
theorem reply_unhandled_not_silent :
    (prompting_state.heap 0).is_cancelled = false ∧
    ((mount_operation_reply luks_backend prompting_state 0 .G_MOUNT_OPERATION_UNHANDLED none
        .G_PASSWORD_SAVE_NEVER).heap 0).simple =
      { error := some { domain := .G_IO_ERROR, code := G_IO_ERROR_PERMISSION_DENIED,
                        message := "Expected G_MOUNT_OPERATION_HANDLED but got 2" },
        completed := 1 } ∧
    G_IO_ERROR_PERMISSION_DENIED ≠ G_IO_ERROR_FAILED_HANDLED := by
  decide
/-! ### Failures delivered to the callbacks -/

/-- Claim C14, failing input: `foreign_error` is not the backend's inhibited
error (its domain is not `GDU_ERROR`), yet delivered to `unlock_cb`, to
`mount_cb` or to `mount_obtain_authz_cb` for a non-cancelled request it does
not reach the caller with its domain and code unchanged: the result carries
`(G_IO_ERROR, G_IO_ERROR_FAILED_HANDLED)`, because the three functions
compare only `error->code` with `GDU_ERROR_INHIBITED`. -/
theorem foreign_error_silenced :
    foreign_error.domain ≠ GQuark.GDU_ERROR ∧
    foreign_error.code = GDU_ERROR_INHIBITED ∧
    run_result_error fresh_luks_state foreign_unlock_failure 0 =
      some { domain := .G_IO_ERROR, code := G_IO_ERROR_FAILED_HANDLED,
             message := "Could not get owner of name" } ∧
    run_result_error fresh_plain_state foreign_mount_failure 0 =
      some { domain := .G_IO_ERROR, code := G_IO_ERROR_FAILED_HANDLED,
             message := "Could not get owner of name" } ∧
    run_result_error fresh_plain_state foreign_authz_failure 0 =
      some { domain := .G_IO_ERROR, code := G_IO_ERROR_FAILED_HANDLED,
             message := "Could not get owner of name" } := by
  decide

/-- A released record with nothing outstanding has no event left. -/
theorem released_record_has_no_event (b : Backend) (s : State) (e : Event) (data : DataId)
    (h_released : (s.heap data).released ≠ 0) (h_out : (s.heap data).outstanding = [])
    (h_event : e.record = some data) : step b s e = none := by
  cases e <;> simp [Event.record] at h_event <;> subst h_event <;>
    simp [step, MountOpData.cancelled_handler_connected, MountOpData.reply_handler_connected,
      h_released, h_out]

/-- Claim C15 (unlock failure is terminal): in a reachable state, when
`unlock_cb` runs for a non-cancelled request with an error, the result is
completed exactly once, with that failure (after the "be quiet if the daemon
is inhibited" rewrite), `pending_mount_op` is `NULL` and the record is
released.  The trace gains only the completion, the disconnection of the
"cancelled" handler and the scrubbing of the passphrase attached to the
device: no "ask-password", no unlock and no mount.  Afterwards no handler or
callback of that record can run any more. -/
theorem unlock_failure_terminal (b : Backend) (s s1 : State) (data : DataId)
    (device : DeviceId) (error : GError)
    (h : Reachable s)
    (h_live : (s.heap data).is_cancelled = false)
    (h_step : step b s (.unlock_cb data device (.error error)) = some s1) :
    (s1.heap data).simple =
      { error := some (quiet_if_inhibited error), completed := 1 } ∧
    s1.volume.pending_mount_op = none ∧
    (s1.heap data).released = 1 ∧
    s1.trace = s.trace ++
      [Effect.simple_async_result_complete (some data) (some (quiet_if_inhibited error))] ++
      (if (s.heap data).cancelled_handler_id ≠ 0 then
        [Effect.signal_handler_disconnect (s.heap data).cancelled_handler_id]
       else []) ++
      (match (s.device_data device).password with
        | some old => [Effect.scrub_n_free_string old]
        | none => []) ∧
    (∀ (b1 : Backend) (e : Event), e.record = some data → step b1 s1 e = none) := by
  have hinv := reachable_inv s h
  simp only [step] at h_step
  split_ifs at h_step with hcb
  simp only [Option.some.injEq] at h_step
  obtain ⟨ho, hr, hrel⟩ := taken_facts _ _ (hinv.1 data) hcb
  have h0 : (s.heap data).simple.completed = 0 := (hinv.1 data).2.2.2.2 h_live hrel
  have hheap : s1.heap data =
      { s.heap data with
        outstanding := []
        simple := { error := some (quiet_if_inhibited error), completed := 1 }
        released := 1 } := by
    subst h_step
    simp [unlock_cb, h_live, ho, hrel, h0]
  have htrace : s1.trace = s.trace ++
      [Effect.simple_async_result_complete (some data) (some (quiet_if_inhibited error))] ++
      (if (s.heap data).cancelled_handler_id ≠ 0 then
        [Effect.signal_handler_disconnect (s.heap data).cancelled_handler_id]
       else []) ++
      (match (s.device_data device).password with
        | some old => [Effect.scrub_n_free_string old]
        | none => []) := by
    subst h_step
    by_cases hc : (s.heap data).cancelled_handler_id = 0 <;>
      cases hp : (s.device_data device).password <;>
      simp [unlock_cb, h_live, hr, hc, hp, mount_op_data_unref, g_simple_async_result_complete,
        g_simple_async_result_set_from_error, set_device_password, set_device_password_save,
        scrub_n_free_string, State.take]
  have hpend : s1.volume.pending_mount_op = none := by
    subst h_step
    simp [unlock_cb, h_live]
  refine ⟨by rw [hheap], hpend, by rw [hheap], htrace, ?_⟩
  intro b1 e he
  exact released_record_has_no_event b1 s1 e data (by rw [hheap]; simp) (by rw [hheap]) he

/-- Claim C15, instance of `unlock_failure_terminal`: the unlock of request 0
of the LUKS volume fails after the passphrase was entered. -/
theorem unlock_failure_terminal_witness :
    Reachable unlocking_state ∧
    (unlocking_state.heap 0).is_cancelled = false ∧
    step luks_backend unlocking_state (.unlock_cb 0 0 (.error unlock_error)) =
      some (unlock_cb luks_backend (unlocking_state.take 0 .unlock_cb) 0 0
        (.error unlock_error)) ∧
    ((unlock_cb luks_backend (unlocking_state.take 0 .unlock_cb) 0 0
        (.error unlock_error)).heap 0).simple =
      { error := some (quiet_if_inhibited unlock_error), completed := 1 } ∧
    (unlock_cb luks_backend (unlocking_state.take 0 .unlock_cb) 0 0
        (.error unlock_error)).volume.pending_mount_op = none ∧
    ((unlock_cb luks_backend (unlocking_state.take 0 .unlock_cb) 0 0
        (.error unlock_error)).heap 0).released = 1 ∧
    (∀ (b1 : Backend) (e : Event), e.record = some 0 →
      step b1 (unlock_cb luks_backend (unlocking_state.take 0 .unlock_cb) 0 0
        (.error unlock_error)) e = none) := by
  have hr : Reachable unlocking_state :=
    reachable_of_run unlocking_events fresh_luks_state unlocking_state
      (Reachable.init luks_backend 0 none none) rfl
  have h := unlock_failure_terminal luks_backend unlocking_state _ 0 0 unlock_error hr
    (by decide) rfl
  exact ⟨hr, by decide, rfl, h.1, h.2.1, h.2.2.1, h.2.2.2.2⟩

/-- Claim C16 (missing cleartext device): for a non-cancelled request,
`mount_cleartext_device` stores the pool's answer in `device_to_mount`.  If
the pool cannot resolve the object path, the result is completed once more
with `(G_IO_ERROR, G_IO_ERROR_FAILED)` "Successfully unlocked encrypted volume
but cleartext device does not exist", `pending_mount_op` is set to `NULL`, the
record is released and no filesystem mount is issued (the trace gains the
completion and the handler disconnections only).  If the pool resolves it,
exactly one filesystem mount is issued on the resolved device, its callback
becomes outstanding, and the result and `pending_mount_op` are unchanged. -/
theorem mount_cleartext_device_outcome (b : Backend) (s : State) (data : DataId)
    (path : String) (h_live : (s.heap data).is_cancelled = false) :
    match b.pool_get_by_object_path path with
    | none =>
      ((mount_cleartext_device b s data path).heap data).simple =
        { error := some { domain := .G_IO_ERROR, code := G_IO_ERROR_FAILED,
                          message := "Successfully unlocked encrypted volume but cleartext device does not exist" },
          completed := (s.heap data).simple.completed + 1 } ∧
      ((mount_cleartext_device b s data path).heap data).device_to_mount = none ∧
      ((mount_cleartext_device b s data path).heap data).outstanding =
        (s.heap data).outstanding ∧
      ((mount_cleartext_device b s data path).heap data).released =
        (s.heap data).released + 1 ∧
      (mount_cleartext_device b s data path).volume.pending_mount_op = none ∧
      (mount_cleartext_device b s data path).trace =
        s.trace ++
          [Effect.simple_async_result_complete (some data) (some
            { domain := .G_IO_ERROR, code := G_IO_ERROR_FAILED,
              message := "Successfully unlocked encrypted volume but cleartext device does not exist" })] ++
          (if (s.heap data).cancelled_handler_id ≠ 0 then
            [Effect.signal_handler_disconnect (s.heap data).cancelled_handler_id]
           else []) ++
          (if (s.heap data).mount_operation_reply_handler_id ≠ 0 then
            [Effect.signal_handler_disconnect (s.heap data).mount_operation_reply_handler_id]
           else [])
    | some device_to_mount =>
      ((mount_cleartext_device b s data path).heap data).simple = (s.heap data).simple ∧
      ((mount_cleartext_device b s data path).heap data).device_to_mount =
        some device_to_mount ∧
      ((mount_cleartext_device b s data path).heap data).outstanding =
        (s.heap data).outstanding ++ [Callback.mount_cb] ∧
      ((mount_cleartext_device b s data path).heap data).released = (s.heap data).released ∧
      (mount_cleartext_device b s data path).volume = s.volume ∧
      (mount_cleartext_device b s data path).trace =
        s.trace ++ [Effect.device_op_filesystem_mount device_to_mount data] := by
  cases hpool : b.pool_get_by_object_path path with
  | none =>
    by_cases hc : (s.heap data).cancelled_handler_id = 0 <;>
      by_cases hr : (s.heap data).mount_operation_reply_handler_id = 0 <;>
      simp [mount_cleartext_device, h_live, hpool, hc, hr, mount_op_data_unref,
        g_simple_async_result_complete, g_simple_async_result_set_error]
  | some dev =>
    simp [mount_cleartext_device, h_live, hpool, gdu_device_op_filesystem_mount]

/-- Claim C16, instance of `mount_cleartext_device_outcome`: for the live
request 0 of the LUKS volume the pool of `luks_backend` does not know the
object path. -/
theorem mount_cleartext_device_outcome_witness :
    (prompting_state.heap 0).is_cancelled = false ∧
    ((mount_cleartext_device luks_backend prompting_state 0
        "/org/freedesktop/DeviceKit/Disks/devices/dm_2d0").heap 0).simple =
      { error := some { domain := .G_IO_ERROR, code := G_IO_ERROR_FAILED,
                        message := "Successfully unlocked encrypted volume but cleartext device does not exist" },
        completed := (prompting_state.heap 0).simple.completed + 1 } ∧
    (mount_cleartext_device luks_backend prompting_state 0
        "/org/freedesktop/DeviceKit/Disks/devices/dm_2d0").volume.pending_mount_op = none := by
  have h := mount_cleartext_device_outcome luks_backend prompting_state 0
    "/org/freedesktop/DeviceKit/Disks/devices/dm_2d0" (by decide)
  exact ⟨by decide, h.1, h.2.2.2.2.1⟩

/-- Claim C17 (unlocked-volume policy): whenever `update_volume` finds an
unlocked mapping (the device is LUKS, its holder object path is not `NULL`
and not "/", the pool resolves it to a cleartext device and that device to a
cleartext volume), then afterwards the volume is bound to that cleartext
volume, `name` and `icon` are the cleartext presentable's, `device_file` is
the cleartext device's device file, `can_mount` is TRUE and
`should_automount` is FALSE, for every clock reading and insertion time. -/
theorem unlocked_volume_policy (b : Backend) (volume : GGduVolume) (holder : String)
    (cleartext_device : DeviceId) (cleartext_volume : GduVolumeId)
    (h_luks : (b.device (b.presentable volume.gdu_volume).device).is_luks = true)
    (h_holder : (b.device (b.presentable volume.gdu_volume).device).luks_holder = some holder)
    (h_slash : holder ≠ "/")
    (h_pool : b.pool_get_by_object_path holder = some cleartext_device)
    (h_volume : b.pool_get_volume_by_device cleartext_device = some cleartext_volume) :
    (update_volume b volume).2.cleartext_gdu_volume = some cleartext_volume ∧
    (update_volume b volume).2.name = (b.presentable cleartext_volume).name ∧
    (update_volume b volume).2.icon = (b.presentable cleartext_volume).icon ∧
    (update_volume b volume).2.device_file =
      (b.device (b.presentable cleartext_volume).device).device_file ∧
    (update_volume b volume).2.can_mount = true ∧
    (update_volume b volume).2.should_automount = false := by
  have hfind : find_unlocked_mapping b (b.presentable volume.gdu_volume).device =
      some (some cleartext_volume) := by
    simp [find_unlocked_mapping, h_luks, h_holder, h_slash, h_pool, h_volume]
  obtain ⟨h1, h2, h3, h4, h5, h6⟩ := update_volume_unlocked b volume cleartext_volume hfind
  exact ⟨h1, h4, h5, h6, h2, h3⟩

/-- Claim C17, instance of `unlocked_volume_policy`: the LUKS volume
recomputed once the backend reports the cleartext device `dm-0`. -/
theorem unlocked_volume_policy_witness :
    (update_volume luks_unlocked_backend fresh_luks_state.volume).2.cleartext_gdu_volume
      = some 1 ∧
    (update_volume luks_unlocked_backend fresh_luks_state.volume).2.name
      = (luks_unlocked_backend.presentable 1).name ∧
    (update_volume luks_unlocked_backend fresh_luks_state.volume).2.icon
      = (luks_unlocked_backend.presentable 1).icon ∧
    (update_volume luks_unlocked_backend fresh_luks_state.volume).2.device_file
      = (luks_unlocked_backend.device (luks_unlocked_backend.presentable 1).device).device_file ∧
    (update_volume luks_unlocked_backend fresh_luks_state.volume).2.can_mount = true ∧
    (update_volume luks_unlocked_backend fresh_luks_state.volume).2.should_automount = false :=
  unlocked_volume_policy luks_unlocked_backend fresh_luks_state.volume
    "/org/freedesktop/DeviceKit/Disks/devices/dm_2d0" 1 1
    (by decide) (by decide) (by decide) (by decide) (by decide)

/-- Claim C18, counterexample: the activation root of `audio_luks_volume`
begins with "cdda://", and the backend reports an unlocked mapping; after
`update_volume` the name and the icon are those of the cleartext
presentable, not the "Audio Disc" label and the "media-optical-audio" icon. -/
theorem audio_override_skipped_when_unlocked :
    audio_luks_volume.activation_root = some "cdda://sr0" ∧
    g_str_has_prefix "cdda://sr0" "cdda://" = true ∧
    (update_volume luks_unlocked_backend audio_luks_volume).2.cleartext_gdu_volume = some 1 ∧
    (update_volume luks_unlocked_backend audio_luks_volume).2.name = some "Secret Data" ∧
    (update_volume luks_unlocked_backend audio_luks_volume).2.icon = some (GIcon.other 2) ∧
    (update_volume luks_unlocked_backend audio_luks_volume).2.name ≠
      some (gettext "Audio Disc") ∧
    (update_volume luks_unlocked_backend audio_luks_volume).2.icon ≠
      some (GIcon.themed_with_default_fallbacks "media-optical-audio") := by
  decide

/-- Claim C18 (audio-disc override, amended): for every volume whose
activation root URI begins with "cdda://", after `update_volume` the name is
the "Audio Disc" label and the icon is the themed icon "media-optical-audio"
whenever the volume is left without an unlocked cleartext volume, whatever
the presentable's own name and icon are; when it is left bound to a
cleartext volume the name and icon are that presentable's. -/
theorem audio_disc_override (b : Backend) (volume : GGduVolume) (uri : String)
    (h_root : volume.activation_root = some uri)
    (h_cdda : g_str_has_prefix uri "cdda://" = true) :
    match (update_volume b volume).2.cleartext_gdu_volume with
    | none =>
      (update_volume b volume).2.name = some (gettext "Audio Disc") ∧
      (update_volume b volume).2.icon =
        some (GIcon.themed_with_default_fallbacks "media-optical-audio")
    | some cleartext =>
      (update_volume b volume).2.name = (b.presentable cleartext).name ∧
      (update_volume b volume).2.icon = (b.presentable cleartext).icon := by
  have hc : (update_volume b volume).2.cleartext_gdu_volume =
      (update_cleartext_binding b volume
        (b.presentable volume.gdu_volume).device).cleartext_gdu_volume :=
    (update_attributes_frame b _ _).2.2.2.1
  have ha := (update_cleartext_binding_frame b volume
    (b.presentable volume.gdu_volume).device).2.2.1
  rw [hc]
  cases hb : (update_cleartext_binding b volume
      (b.presentable volume.gdu_volume).device).cleartext_gdu_volume with
  | none => simp [update_volume, update_attributes, hb, ha, h_root, h_cdda]
  | some c => simp [update_volume, update_attributes, hb]

/-- Claim C18, instance of `audio_disc_override`: the plain volume with
activation root `cdda://sr0`. -/
theorem audio_disc_override_witness :
    audio_volume.activation_root = some "cdda://sr0" ∧
    g_str_has_prefix "cdda://sr0" "cdda://" = true ∧
    (update_volume plain_backend audio_volume).2.cleartext_gdu_volume = none ∧
    (update_volume plain_backend audio_volume).2.name = some (gettext "Audio Disc") ∧
    (update_volume plain_backend audio_volume).2.icon =
      some (GIcon.themed_with_default_fallbacks "media-optical-audio") := by
  have h := audio_disc_override plain_backend audio_volume "cdda://sr0" (by decide) (by decide)
  have hn : (update_volume plain_backend audio_volume).2.cleartext_gdu_volume = none := by
    decide
  rw [hn] at h
  exact ⟨by decide, by decide, hn, h.1, h.2⟩

/-! ### Change notification and identifiers -/

theorem update_volume_changed_iff (b : Backend) (volume : GGduVolume) :
    (update_volume b volume).1 = observable_change volume (update_volume b volume).2 := by
  have h : (update_volume b volume).1 =
      !((volume.can_mount == (update_volume b volume).2.can_mount) &&
        (volume.should_automount == (update_volume b volume).2.should_automount) &&
        g_strcmp0_eq volume.name (update_volume b volume).2.name &&
        g_strcmp0_eq volume.device_file (update_volume b volume).2.device_file &&
        g_icon_equal volume.icon (update_volume b volume).2.icon) := rfl
  rw [h]
  generalize (update_volume b volume).2 = new
  simp only [observable_change, g_strcmp0_eq, g_icon_equal]
  by_cases h1 : volume.can_mount = new.can_mount <;>
    by_cases h2 : volume.should_automount = new.should_automount <;>
    by_cases h3 : volume.name = new.name <;>
    by_cases h4 : volume.device_file = new.device_file <;>
    by_cases h5 : volume.icon = new.icon <;> simp [h1, h2, h3, h4, h5]

theorem gdu_volume_changed_shape (b : Backend) (s : State) :
    (gdu_volume_changed b s).volume = (update_volume b s.volume).2 ∧
    (gdu_volume_changed b s).trace =
      s.trace ++
        (if observable_change s.volume (update_volume b s.volume).2 then
          [Effect.signal_emit_changed, Effect.signal_emit_volume_changed]
         else []) ∧
    (gdu_volume_changed b s).heap = s.heap ∧
    (gdu_volume_changed b s).device_data = s.device_data := by
  rw [← update_volume_changed_iff]
  by_cases hu : (update_volume b s.volume).1 = true <;>
    simp [gdu_volume_changed, hu, emit_changed]

/-- Claim C19 (notification iff observable change): `update_volume` returns
TRUE exactly when at least one of `can_mount`, `should_automount`, `name`,
`device_file` and `icon` differs between the volume before and after the
recomputation; each of the five handlers `gdu_volume_changed`,
`gdu_volume_job_changed`, `gdu_cleartext_volume_removed`,
`gdu_cleartext_volume_changed` and `gdu_cleartext_volume_job_changed` leaves
the recomputed volume and, in that case, emits exactly one "changed" on the
volume followed by exactly one "volume_changed" on the monitor; when all
five are equal it emits nothing.  The mount requests are untouched. -/
theorem notification_iff_change (b : Backend) (s : State) :
    (update_volume b s.volume).1 = observable_change s.volume (update_volume b s.volume).2 ∧
    ∀ handler ∈ change_handlers,
      (handler b s).volume = (update_volume b s.volume).2 ∧
      (handler b s).trace =
        s.trace ++
          (if observable_change s.volume (update_volume b s.volume).2 then
            [Effect.signal_emit_changed, Effect.signal_emit_volume_changed]
           else []) ∧
      (handler b s).heap = s.heap ∧
      (handler b s).device_data = s.device_data := by
  refine ⟨update_volume_changed_iff b s.volume, ?_⟩
  intro handler hmem
  simp only [change_handlers, List.mem_cons, List.mem_singleton, List.not_mem_nil,
    or_false] at hmem
  rcases hmem with rfl | rfl | rfl | rfl | rfl <;> exact gdu_volume_changed_shape b s

/-- Claim C19, instance of `notification_iff_change`: `gdu_volume_job_changed`
on the plain volume once its device is reported under another name. -/
theorem notification_iff_change_witness :
    (gdu_volume_job_changed luks_backend fresh_plain_state).trace =
      fresh_plain_state.trace ++
        (if observable_change fresh_plain_state.volume
            (update_volume luks_backend fresh_plain_state.volume).2 then
          [Effect.signal_emit_changed, Effect.signal_emit_volume_changed]
         else []) ∧
    observable_change fresh_plain_state.volume
      (update_volume luks_backend fresh_plain_state.volume).2 = true :=
  ⟨((notification_iff_change luks_backend fresh_plain_state).2 gdu_volume_job_changed
      (List.mem_cons_of_mem _ (List.mem_cons_self _ _))).2.1, by decide⟩

/-- Claim C20 (identifier lookup agrees with enumeration): with `label` and
`uuid` the (possibly empty) label and uuid of the volume's device,
`g_gdu_volume_enumerate_identifiers` returns, in this order, "unix-device",
then "label" iff `label` is not empty, then "uuid" iff `uuid` is not empty;
`g_gdu_volume_get_identifier` returns the volume's `device_file` for
"unix-device", the label (resp. uuid) when it is not empty and `NULL` when it
is empty, and `NULL` for every other kind; so "label" and "uuid" are
enumerated exactly when the lookup for that kind returns a value. -/
theorem identifiers_agree (b : Backend) (volume : GGduVolume) (kind : String) :
    g_gdu_volume_enumerate_identifiers b volume =
      ["unix-device"] ++
      (if (b.device (b.presentable volume.gdu_volume).device).id_label ≠ "" then ["label"]
       else []) ++
      (if (b.device (b.presentable volume.gdu_volume).device).id_uuid ≠ "" then ["uuid"]
       else []) ∧
    g_gdu_volume_get_identifier b volume kind =
      (if kind = "unix-device" then volume.device_file
       else if kind = "label" then
         (if (b.device (b.presentable volume.gdu_volume).device).id_label ≠ "" then
           some (b.device (b.presentable volume.gdu_volume).device).id_label else none)
       else if kind = "uuid" then
         (if (b.device (b.presentable volume.gdu_volume).device).id_uuid ≠ "" then
           some (b.device (b.presentable volume.gdu_volume).device).id_uuid else none)
       else none) ∧
    ("label" ∈ g_gdu_volume_enumerate_identifiers b volume ↔
      (g_gdu_volume_get_identifier b volume "label").isSome = true) ∧
    ("uuid" ∈ g_gdu_volume_enumerate_identifiers b volume ↔
      (g_gdu_volume_get_identifier b volume "uuid").isSome = true) := by
  have hl := strlen_pos_iff (b.device (b.presentable volume.gdu_volume).device).id_label
  have hu := strlen_pos_iff (b.device (b.presentable volume.gdu_volume).device).id_uuid
  simp only [g_gdu_volume_enumerate_identifiers, g_gdu_volume_get_identifier,
    G_VOLUME_IDENTIFIER_KIND_UNIX_DEVICE, G_VOLUME_IDENTIFIER_KIND_LABEL,
    G_VOLUME_IDENTIFIER_KIND_UUID, gt_iff_lt, hl, hu]
  by_cases h1 : (b.device (b.presentable volume.gdu_volume).device).id_label = "" <;>
    by_cases h2 : (b.device (b.presentable volume.gdu_volume).device).id_uuid = "" <;>
    simp [h1, h2]

/-! ### Trace and device data after the compound updates -/

@[simp] theorem mount_op_data_unref_trace (s : State) (data : DataId) :
    (mount_op_data_unref s data).trace =
      s.trace ++
        (if (s.heap data).cancelled_handler_id ≠ 0 then
          [Effect.signal_handler_disconnect (s.heap data).cancelled_handler_id]
         else []) ++
        (if (s.heap data).mount_operation_reply_handler_id ≠ 0 then
          [Effect.signal_handler_disconnect (s.heap data).mount_operation_reply_handler_id]
         else []) := by
  unfold mount_op_data_unref
  by_cases hc : (s.heap data).cancelled_handler_id = 0 <;>
    by_cases hr : (s.heap data).mount_operation_reply_handler_id = 0 <;> simp [hc, hr]

@[simp] theorem mount_op_data_unref_device_data (s : State) (data : DataId) :
    (mount_op_data_unref s data).device_data = s.device_data := by
  unfold mount_op_data_unref
  by_cases hc : (s.heap data).cancelled_handler_id = 0 <;>
    by_cases hr : (s.heap data).mount_operation_reply_handler_id = 0 <;> simp [hc, hr]

@[simp] theorem complete_trace (s : State) (data : DataId) :
    (g_simple_async_result_complete s data).trace =
      s.trace ++ [Effect.simple_async_result_complete (some data) (s.heap data).simple.error] := by
  simp [g_simple_async_result_complete]

@[simp] theorem complete_device_data (s : State) (data : DataId) :
    (g_simple_async_result_complete s data).device_data = s.device_data := by
  simp [g_simple_async_result_complete]

@[simp] theorem set_error_trace (s : State) (data : DataId) (domain : GQuark) (code : Int)
    (message : String) :
    (g_simple_async_result_set_error s data domain code message).trace = s.trace := rfl

@[simp] theorem set_error_device_data (s : State) (data : DataId) (domain : GQuark) (code : Int)
    (message : String) :
    (g_simple_async_result_set_error s data domain code message).device_data = s.device_data :=
  rfl

@[simp] theorem set_from_error_trace (s : State) (data : DataId) (error : GError) :
    (g_simple_async_result_set_from_error s data error).trace = s.trace := rfl

@[simp] theorem set_from_error_device_data (s : State) (data : DataId) (error : GError) :
    (g_simple_async_result_set_from_error s data error).device_data = s.device_data := rfl

@[simp] theorem luks_unlock_trace (s : State) (device : DeviceId) (secret : Option String)
    (callback : Callback) (data : DataId) :
    (gdu_device_op_luks_unlock s device secret callback data).trace =
      s.trace ++ [Effect.device_op_luks_unlock device secret callback data] := rfl

@[simp] theorem luks_unlock_device_data (s : State) (device : DeviceId) (secret : Option String)
    (callback : Callback) (data : DataId) :
    (gdu_device_op_luks_unlock s device secret callback data).device_data = s.device_data := rfl

@[simp] theorem filesystem_mount_trace (s : State) (device : DeviceId) (data : DataId) :
    (gdu_device_op_filesystem_mount s device data).trace =
      s.trace ++ [Effect.device_op_filesystem_mount device data] := rfl

@[simp] theorem filesystem_mount_device_data (s : State) (device : DeviceId) (data : DataId) :
    (gdu_device_op_filesystem_mount s device data).device_data = s.device_data := rfl

@[simp] theorem obtain_authz_trace (s : State) (action_id : String)
    (cancellable : Option CancellableId) (data : DataId) :
    (obtain_authz s action_id cancellable data).trace =
      s.trace ++ [Effect.obtain_authz action_id cancellable data] := rfl

@[simp] theorem obtain_authz_device_data (s : State) (action_id : String)
    (cancellable : Option CancellableId) (data : DataId) :
    (obtain_authz s action_id cancellable data).device_data = s.device_data := rfl

@[simp] theorem scrub_trace (s : State) (password : String) :
    (scrub_n_free_string s password).trace = s.trace ++ [Effect.scrub_n_free_string password] :=
  rfl

@[simp] theorem scrub_device_data (s : State) (password : String) :
    (scrub_n_free_string s password).device_data = s.device_data := rfl

@[simp] theorem set_device_password_trace (s : State) (device : DeviceId)
    (value : Option String) :
    (set_device_password s device value).trace =
      s.trace ++
        (match (s.device_data device).password with
          | some old => [Effect.scrub_n_free_string old]
          | none => []) := by
  unfold set_device_password
  cases (s.device_data device).password <;> simp [scrub_n_free_string]

@[simp] theorem set_device_password_device_data (s : State) (device : DeviceId)
    (value : Option String) :
    (set_device_password s device value).device_data =
      Function.update s.device_data device
        { s.device_data device with password := value } := by
  unfold set_device_password
  cases (s.device_data device).password <;> simp [scrub_n_free_string]

@[simp] theorem set_device_password_save_trace (s : State) (device : DeviceId)
    (value : GPasswordSave) : (set_device_password_save s device value).trace = s.trace := rfl

@[simp] theorem set_device_password_save_device_data (s : State) (device : DeviceId)
    (value : GPasswordSave) :
    (set_device_password_save s device value).device_data =
      Function.update s.device_data device
        { s.device_data device with password_save := value } := rfl

@[simp] theorem emit_changed_trace (s : State) :
    (emit_changed s).trace =
      s.trace ++ [Effect.signal_emit_changed, Effect.signal_emit_volume_changed] := by
  simp [emit_changed]

@[simp] theorem emit_changed_device_data (s : State) :
    (emit_changed s).device_data = s.device_data := rfl

@[simp] theorem take_trace (s : State) (data : DataId) (callback : Callback) :
    (s.take data callback).trace = s.trace := rfl

@[simp] theorem take_device_data (s : State) (data : DataId) (callback : Callback) :
    (s.take data callback).device_data = s.device_data := rfl

/-! ### Encrypted volume without a mount operation -/

/-- Claim C30 (encrypted volume without a prompt handle): for a non-cancelled
request with no bound mount operation, `mount_with_mount_operation` completes
the result once more with `(G_IO_ERROR, G_IO_ERROR_FAILED)` and the message
"Password required to access the encrypted data", sets `pending_mount_op` to
`NULL` and releases the record; the trace gains the completion and the
disconnection of the request's handlers only, so no "ask-password" is emitted
and no unlock is issued.  The prompting step is reached with exactly this
function from both routes: `unlock_from_keyring_cb` with a failed unlock, and
`g_gdu_volume_mount` (through `start_mount_op`) on a locked LUKS device with
no keyring secret while the daemon is not inhibited. -/
theorem prompt_without_mount_operation (b : Backend) (s : State) (data : DataId)
    (h_live : (s.heap data).is_cancelled = false)
    (h_unbound : (s.heap data).mount_operation = none) :
    ((mount_with_mount_operation b s data).heap data).simple =
      { error := some { domain := .G_IO_ERROR, code := G_IO_ERROR_FAILED,
                        message := "Password required to access the encrypted data" },
        completed := (s.heap data).simple.completed + 1 } ∧
    ((mount_with_mount_operation b s data).heap data).released = (s.heap data).released + 1 ∧
    (mount_with_mount_operation b s data).volume.pending_mount_op = none ∧
    (mount_with_mount_operation b s data).trace =
      s.trace ++
        [Effect.simple_async_result_complete (some data) (some
          { domain := .G_IO_ERROR, code := G_IO_ERROR_FAILED,
            message := "Password required to access the encrypted data" })] ++
        (if (s.heap data).cancelled_handler_id ≠ 0 then
          [Effect.signal_handler_disconnect (s.heap data).cancelled_handler_id]
         else []) ++
        (if (s.heap data).mount_operation_reply_handler_id ≠ 0 then
          [Effect.signal_handler_disconnect (s.heap data).mount_operation_reply_handler_id]
         else []) ∧
    (∀ error : GError,
      unlock_from_keyring_cb b s data (.error error) = mount_with_mount_operation b s data) ∧
    (∀ device : DeviceId,
      s.volume.cleartext_gdu_volume = none →
      (b.device device).id_usage = some "crypto" →
      (b.device device).id_type = some "crypto_LUKS" →
      b.util_get_secret device = none →
      b.pool_is_daemon_inhibited = false →
      start_mount_op b s device data =
        mount_with_mount_operation b (s.emit (.util_get_secret device)) data) := by
  refine ⟨?_, ?_, ?_, ?_, ?_, ?_⟩
  · simp [mount_with_mount_operation, h_live, h_unbound]
  · simp [mount_with_mount_operation, h_live, h_unbound]
  · simp [mount_with_mount_operation, h_live, h_unbound]
  · simp [mount_with_mount_operation, h_live, h_unbound]
  · intro error
    simp [unlock_from_keyring_cb, h_live]
  · intro device hc hu ht hs hi
    simp [start_mount_op, hc, hu, ht, hs, hi, g_strcmp0_eq]

/-- Claim C30, instance of `prompt_without_mount_operation`: the record of a
`mount ()` without mount operation on the fresh LUKS volume, with cancellable
7, once the keyring has been asked. -/
theorem prompt_without_mount_operation_witness :
    (mount_with_mount_operation luks_backend
      ((new_mount_op_data fresh_luks_state none (some 7)).emit (.util_get_secret 0))
      0).volume.pending_mount_op = none ∧
    (mount_with_mount_operation luks_backend
      ((new_mount_op_data fresh_luks_state none (some 7)).emit (.util_get_secret 0)) 0).trace =
      [Effect.signal_connect 1 "cancelled" none,
       Effect.util_get_secret 0,
       Effect.simple_async_result_complete (some 0) (some
         { domain := .G_IO_ERROR, code := G_IO_ERROR_FAILED,
           message := "Password required to access the encrypted data" }),
       Effect.signal_handler_disconnect 1] ∧
    g_gdu_volume_mount luks_backend fresh_luks_state none (some 7) =
      mount_with_mount_operation luks_backend
        ((new_mount_op_data fresh_luks_state none (some 7)).emit (.util_get_secret 0)) 0 := by
  have h := prompt_without_mount_operation luks_backend
    ((new_mount_op_data fresh_luks_state none (some 7)).emit (.util_get_secret 0)) 0
    (by decide) (by decide)
  exact ⟨h.2.2.1, by decide, rfl⟩

/-! ### Choice of phase at entry -/

/-- The effects of a `mount ()` call that passes the entry checks, branch by
branch. -/
theorem g_gdu_volume_mount_trace (b : Backend) (s : State)
    (mount_operation : Option MountOperationId) (cancellable : Option CancellableId)
    (h_idle : s.volume.pending_mount_op = none)
    (h_blank : (b.device (b.presentable s.volume.gdu_volume).device).optical_disc_is_blank = false)
    (h_mounted : (b.device (b.presentable s.volume.gdu_volume).device).is_mounted = false) :
    (g_gdu_volume_mount b s mount_operation cancellable).trace =
      s.trace ++
        ((if cancellable = none then []
          else [Effect.signal_connect (s.handler_count + 1) "cancelled" none]) ++
         (match s.volume.cleartext_gdu_volume with
          | some cleartext_gdu_volume =>
            (match b.pool_get_by_object_path
                (b.device (b.presentable cleartext_gdu_volume).device).object_path with
              | some device_to_mount =>
                [Effect.device_op_filesystem_mount device_to_mount s.data_count]
              | none =>
                Effect.simple_async_result_complete (some s.data_count) (some
                  { domain := .G_IO_ERROR, code := G_IO_ERROR_FAILED,
                    message := "Successfully unlocked encrypted volume but cleartext device does not exist" }) ::
                (if cancellable = none then []
                 else [Effect.signal_handler_disconnect (s.handler_count + 1)]))
          | none =>
            if (b.device (b.presentable s.volume.gdu_volume).device).id_usage = some "crypto" ∧
                (b.device (b.presentable s.volume.gdu_volume).device).id_type =
                  some "crypto_LUKS" then
              Effect.util_get_secret (b.presentable s.volume.gdu_volume).device ::
              (match b.util_get_secret (b.presentable s.volume.gdu_volume).device with
                | some password =>
                  [Effect.device_op_luks_unlock (b.presentable s.volume.gdu_volume).device
                     (some password) .unlock_from_keyring_cb s.data_count,
                   Effect.scrub_n_free_string password]
                | none =>
                  if b.pool_is_daemon_inhibited then
                    Effect.simple_async_result_complete (some s.data_count) (some
                      { domain := .G_IO_ERROR, code := G_IO_ERROR_FAILED_HANDLED,
                        message := "Daemon is currently inhibited" }) ::
                    (if cancellable = none then []
                     else [Effect.signal_handler_disconnect (s.handler_count + 1)])
                  else
                    (match mount_operation with
                      | none =>
                        Effect.simple_async_result_complete (some s.data_count) (some
                          { domain := .G_IO_ERROR, code := G_IO_ERROR_FAILED,
                            message := "Password required to access the encrypted data" }) ::
                        (if cancellable = none then []
                         else [Effect.signal_handler_disconnect (s.handler_count + 1)])
                      | some m =>
                        [Effect.signal_connect
                           (if cancellable = none then s.handler_count + 1
                            else s.handler_count + 2) "reply" (some s.data_count),
                         Effect.signal_emit_ask_password m (ask_password_message b s.volume) 9]))
            else
              [Effect.device_op_filesystem_mount (b.presentable s.volume.gdu_volume).device
                 s.data_count])) := by
  obtain ⟨hv, hh, ht, -, -, hn⟩ := new_mount_op_data_shape s mount_operation cancellable
  have hflags : (G_ASK_PASSWORD_NEED_PASSWORD ||| G_ASK_PASSWORD_SAVING_SUPPORTED) = 9 := by decide
  have hmsg : ask_password_message b (new_mount_op_data s mount_operation cancellable).volume =
      ask_password_message b s.volume := ask_password_message_congr b _ _ (by rw [hv])
  rw [g_gdu_volume_mount, if_neg (by simp [h_idle]), if_neg (by simp [h_blank, h_mounted])]
  cases hcl : s.volume.cleartext_gdu_volume with
  | some cv =>
    have hc : (new_mount_op_data s mount_operation cancellable).volume.cleartext_gdu_volume =
        some cv := by rw [hv]; exact hcl
    cases hp : b.pool_get_by_object_path (b.device (b.presentable cv).device).object_path <;>
      cases cancellable <;>
      simp [start_mount_op, hc, mount_cleartext_device, hh, ht, hp, MountOpData.zero]
  | none =>
    have hc : (new_mount_op_data s mount_operation cancellable).volume.cleartext_gdu_volume =
        none := by rw [hv]; exact hcl
    by_cases hu : (b.device (b.presentable s.volume.gdu_volume).device).id_usage = some "crypto"
    · by_cases hty : (b.device (b.presentable s.volume.gdu_volume).device).id_type =
          some "crypto_LUKS"
      · cases hs : b.util_get_secret (b.presentable s.volume.gdu_volume).device with
        | some password =>
          cases cancellable <;>
            simp [start_mount_op, hc, hu, hty, hs, g_strcmp0_eq, hh, ht, MountOpData.zero]
        | none =>
          cases hi : b.pool_is_daemon_inhibited
          · cases mount_operation <;> cases cancellable <;>
              simp [start_mount_op, hc, hu, hty, hs, hi, g_strcmp0_eq, hh, ht, hn, hmsg, hflags,
                MountOpData.zero, mount_with_mount_operation, g_signal_connect]
          · cases cancellable <;>
              simp [start_mount_op, hc, hu, hty, hs, hi, g_strcmp0_eq, hh, ht, MountOpData.zero]
      · cases cancellable <;>
          simp [start_mount_op, hc, hu, hty, g_strcmp0_eq, hh, ht, MountOpData.zero]
    · cases cancellable <;>
        simp [start_mount_op, hc, hu, g_strcmp0_eq, hh, ht, MountOpData.zero]

/-- Claim C23 (choice of phase at entry): a `mount ()` call that passes the
entry checks (no pending request, device neither mounted nor blank) looks up
the keyring secret, the first step of the unlock path, if and only if
`cleartext_gdu_volume` is `NULL` and the device has id usage "crypto" and id
type "crypto_LUKS".  When `cleartext_gdu_volume` is set the call is
`mount_cleartext_device` on the new record with the object path of the
cleartext device, and its only request call is the filesystem mount on the
device the pool resolves (or the completion with an error when it resolves
none): no secret lookup, prompt or unlock.  In the remaining case the only
request call is one filesystem mount on the volume's own device, which is
recorded as `device_to_mount`. -/
theorem mount_entry_phase (b : Backend) (s : State)
    (mount_operation : Option MountOperationId) (cancellable : Option CancellableId)
    (h_idle : s.volume.pending_mount_op = none)
    (h_blank : (b.device (b.presentable s.volume.gdu_volume).device).optical_disc_is_blank = false)
    (h_mounted : (b.device (b.presentable s.volume.gdu_volume).device).is_mounted = false) :
    ∃ new : List Effect,
      (g_gdu_volume_mount b s mount_operation cancellable).trace = s.trace ++ new ∧
      (Effect.util_get_secret (b.presentable s.volume.gdu_volume).device ∈ new ↔
        (s.volume.cleartext_gdu_volume = none ∧
         (b.device (b.presentable s.volume.gdu_volume).device).id_usage = some "crypto" ∧
         (b.device (b.presentable s.volume.gdu_volume).device).id_type = some "crypto_LUKS")) ∧
      (∀ cleartext_gdu_volume, s.volume.cleartext_gdu_volume = some cleartext_gdu_volume →
        g_gdu_volume_mount b s mount_operation cancellable =
          mount_cleartext_device b (new_mount_op_data s mount_operation cancellable) s.data_count
            (b.device (b.presentable cleartext_gdu_volume).device).object_path ∧
        new.filter Effect.is_request_call =
          (match b.pool_get_by_object_path
              (b.device (b.presentable cleartext_gdu_volume).device).object_path with
            | some device_to_mount =>
              [Effect.device_op_filesystem_mount device_to_mount s.data_count]
            | none =>
              [Effect.simple_async_result_complete (some s.data_count) (some
                { domain := .G_IO_ERROR, code := G_IO_ERROR_FAILED,
                  message := "Successfully unlocked encrypted volume but cleartext device does not exist" })])) ∧
      (s.volume.cleartext_gdu_volume = none →
        ¬ ((b.device (b.presentable s.volume.gdu_volume).device).id_usage = some "crypto" ∧
           (b.device (b.presentable s.volume.gdu_volume).device).id_type = some "crypto_LUKS") →
        new.filter Effect.is_request_call =
          [Effect.device_op_filesystem_mount (b.presentable s.volume.gdu_volume).device
            s.data_count] ∧
        ((g_gdu_volume_mount b s mount_operation cancellable).heap s.data_count).device_to_mount =
          some (b.presentable s.volume.gdu_volume).device) := by
  obtain ⟨hv, hh, -, -, -, -⟩ := new_mount_op_data_shape s mount_operation cancellable
  refine ⟨_, g_gdu_volume_mount_trace b s mount_operation cancellable h_idle h_blank h_mounted,
    ?_, ?_, ?_⟩
  · cases hcl : s.volume.cleartext_gdu_volume with
    | some cv =>
      cases hp : b.pool_get_by_object_path (b.device (b.presentable cv).device).object_path <;>
        cases cancellable <;> simp [hp]
    | none =>
      by_cases hc : (b.device (b.presentable s.volume.gdu_volume).device).id_usage =
          some "crypto" ∧
          (b.device (b.presentable s.volume.gdu_volume).device).id_type = some "crypto_LUKS"
      · simp [hc]
      · cases cancellable <;> simp [hc]
  · intro cv hcl
    have hc : (new_mount_op_data s mount_operation cancellable).volume.cleartext_gdu_volume =
        some cv := by rw [hv]; exact hcl
    refine ⟨?_, ?_⟩
    · rw [g_gdu_volume_mount, if_neg (by simp [h_idle]), if_neg (by simp [h_blank, h_mounted])]
      simp [start_mount_op, hc]
    · cases hp : b.pool_get_by_object_path (b.device (b.presentable cv).device).object_path <;>
        cases cancellable <;> simp [hcl, hp, List.filter_cons, Effect.is_request_call]
  · intro hcl hc
    have hcl2 : (new_mount_op_data s mount_operation cancellable).volume.cleartext_gdu_volume =
        none := by rw [hv]; exact hcl
    refine ⟨?_, ?_⟩
    · cases cancellable <;> simp [hcl, hc, List.filter_cons, Effect.is_request_call]
    · rw [g_gdu_volume_mount, if_neg (by simp [h_idle]), if_neg (by simp [h_blank, h_mounted])]
      simp [start_mount_op, hcl2, g_strcmp0_eq, hc]

/-- Claim C23, instance of `mount_entry_phase`: `mount ()` on the fresh plain
partition issues one filesystem mount on device 0 and nothing else. -/
theorem mount_entry_phase_witness :
    ∃ new : List Effect,
      (g_gdu_volume_mount plain_backend fresh_plain_state none none).trace =
        fresh_plain_state.trace ++ new ∧
      new.filter Effect.is_request_call = [Effect.device_op_filesystem_mount 0 0] := by
  obtain ⟨new, h1, -, -, h4⟩ := mount_entry_phase plain_backend fresh_plain_state none none
    (by decide) (by decide) (by decide)
  exact ⟨new, h1, (h4 (by decide) (by decide)).1⟩
/-! ### Authorization retry inside mounting -/

/-- Claim C24 (authorization retry inside mounting): for a non-cancelled
request whose filesystem mount failed with `error`, `mount_cb` requests the
authorization, leaving the record, its result and `pending_mount_op` as they
were, exactly when a mount operation is bound and the backend recognises
`error` as a polkit not-authorized error whose result is neither `NO` nor
`UNKNOWN`; the request goes out with the action of the error and the
cancellable of the record.  In every other case `mount_cb` completes the
result once more with the error (rewritten by `quiet_if_inhibited` when it
is not a recognised polkit error of a request with a mount operation), sets
`pending_mount_op` to `NULL`, releases the record and requests no
authorization.  In `mount_obtain_authz_cb` a granted authorization re-issues
the filesystem mount on `device_to_mount` with result and `pending_mount_op`
untouched, and a refused one completes the result with the authorization
error (as rewritten by `quiet_if_inhibited`) and sets `pending_mount_op` to
`NULL`. -/
theorem mount_authorization_retry (b : Backend) (s : State) (data : DataId) (error : GError)
    (h_live : (s.heap data).is_cancelled = false) :
    (∀ action_id pk_result,
      (s.heap data).mount_operation ≠ none →
      b.error_check_polkit_not_authorized error = some (action_id, pk_result) →
      pk_result ≠ .POLKIT_RESULT_NO → pk_result ≠ .POLKIT_RESULT_UNKNOWN →
      mount_cb b s data (some error) = obtain_authz s action_id (s.heap data).cancellable data ∧
      (mount_cb b s data (some error)).trace =
        s.trace ++ [Effect.obtain_authz action_id (s.heap data).cancellable data] ∧
      ((mount_cb b s data (some error)).heap data).simple = (s.heap data).simple ∧
      ((mount_cb b s data (some error)).heap data).released = (s.heap data).released ∧
      (mount_cb b s data (some error)).volume = s.volume) ∧
    (¬ ((s.heap data).mount_operation ≠ none ∧
        ∃ action_id pk_result,
          b.error_check_polkit_not_authorized error = some (action_id, pk_result) ∧
          pk_result ≠ .POLKIT_RESULT_NO ∧ pk_result ≠ .POLKIT_RESULT_UNKNOWN) →
      ∃ reported : GError,
        (reported = error ∨ reported = quiet_if_inhibited error) ∧
        ((mount_cb b s data (some error)).heap data).simple =
          { error := some reported, completed := (s.heap data).simple.completed + 1 } ∧
        ((mount_cb b s data (some error)).heap data).released = (s.heap data).released + 1 ∧
        (mount_cb b s data (some error)).volume.pending_mount_op = none ∧
        (mount_cb b s data (some error)).trace =
          s.trace ++
            [Effect.simple_async_result_complete (some data) (some reported)] ++
            (if (s.heap data).cancelled_handler_id ≠ 0 then
              [Effect.signal_handler_disconnect (s.heap data).cancelled_handler_id]
             else []) ++
            (if (s.heap data).mount_operation_reply_handler_id ≠ 0 then
              [Effect.signal_handler_disconnect (s.heap data).mount_operation_reply_handler_id]
             else [])) ∧
    (∀ device_to_mount, (s.heap data).device_to_mount = some device_to_mount →
      mount_obtain_authz_cb s data none =
        gdu_device_op_filesystem_mount s device_to_mount data ∧
      (mount_obtain_authz_cb s data none).trace =
        s.trace ++ [Effect.device_op_filesystem_mount device_to_mount data] ∧
      ((mount_obtain_authz_cb s data none).heap data).simple = (s.heap data).simple ∧
      ((mount_obtain_authz_cb s data none).heap data).released = (s.heap data).released ∧
      (mount_obtain_authz_cb s data none).volume = s.volume) ∧
    (∀ refusal : GError,
      ((mount_obtain_authz_cb s data (some refusal)).heap data).simple =
        { error := some (quiet_if_inhibited refusal),
          completed := (s.heap data).simple.completed + 1 } ∧
      ((mount_obtain_authz_cb s data (some refusal)).heap data).released =
        (s.heap data).released + 1 ∧
      (mount_obtain_authz_cb s data (some refusal)).volume.pending_mount_op = none ∧
      (mount_obtain_authz_cb s data (some refusal)).trace =
        s.trace ++
          [Effect.simple_async_result_complete (some data) (some (quiet_if_inhibited refusal))] ++
          (if (s.heap data).cancelled_handler_id ≠ 0 then
            [Effect.signal_handler_disconnect (s.heap data).cancelled_handler_id]
           else []) ++
          (if (s.heap data).mount_operation_reply_handler_id ≠ 0 then
            [Effect.signal_handler_disconnect (s.heap data).mount_operation_reply_handler_id]
           else [])) := by
  refine ⟨?_, ?_, ?_, ?_⟩
  · intro action_id pk_result hm hp hno hun
    have h : mount_cb b s data (some error) =
        obtain_authz s action_id (s.heap data).cancellable data := by
      simp [mount_cb, h_live, hm, hp, hno, hun]
    rw [h]
    simp
  · intro hn
    cases hm : (s.heap data).mount_operation with
    | none =>
      refine ⟨quiet_if_inhibited error, Or.inr rfl, ?_⟩
      simp [mount_cb, h_live, hm]
    | some m =>
      cases hp : b.error_check_polkit_not_authorized error with
      | none =>
        refine ⟨quiet_if_inhibited error, Or.inr rfl, ?_⟩
        simp [mount_cb, h_live, hm, hp]
      | some r =>
        obtain ⟨action_id, pk_result⟩ := r
        have hpk : ¬ (pk_result ≠ .POLKIT_RESULT_NO ∧ pk_result ≠ .POLKIT_RESULT_UNKNOWN) := by
          intro hpk
          exact hn ⟨by simp [hm], action_id, pk_result, hp, hpk.1, hpk.2⟩
        refine ⟨error, Or.inl rfl, ?_⟩
        simp only [mount_cb, h_live, hm, hp]
        simp [hpk]
  · intro device_to_mount hd
    have h : mount_obtain_authz_cb s data none =
        gdu_device_op_filesystem_mount s device_to_mount data := by
      simp [mount_obtain_authz_cb, h_live, hd]
    rw [h]
    simp
  · intro refusal
    simp [mount_obtain_authz_cb, h_live]

/-- Claim C24, instance of `mount_authorization_retry`: request 0 of the
plain volume with mount operation 5, where the backend recognises
`not_authorized_error`: `mount_cb` requests the authorization for the mount
action, and `mount_obtain_authz_cb` then re-issues the mount on device 0. -/
theorem mount_authorization_retry_witness :
    (mount_cb polkit_backend (g_gdu_volume_mount polkit_backend fresh_plain_state (some 5) none)
      0 (some not_authorized_error)).trace =
      (g_gdu_volume_mount polkit_backend fresh_plain_state (some 5) none).trace ++
        [Effect.obtain_authz "org.freedesktop.devicekit.disks.filesystem-mount" none 0] ∧
    (mount_obtain_authz_cb (g_gdu_volume_mount polkit_backend fresh_plain_state (some 5) none)
      0 none).trace =
      (g_gdu_volume_mount polkit_backend fresh_plain_state (some 5) none).trace ++
        [Effect.device_op_filesystem_mount 0 0] := by
  have h := mount_authorization_retry polkit_backend
    (g_gdu_volume_mount polkit_backend fresh_plain_state (some 5) none) 0 not_authorized_error
    (by decide)
  exact ⟨(h.1 "org.freedesktop.devicekit.disks.filesystem-mount"
      .POLKIT_RESULT_ONLY_VIA_ADMIN_AUTH (by decide) (by decide) (by decide) (by decide)).2.1,
    (h.2.2.1 0 (by decide)).2.1⟩

/-! ### Rounds of the authorization retry -/

/-- Running two sequences of events one after the other. -/
theorem run_append (s : State) (first second : List (Backend × Event)) :
    run s (first ++ second) = (run s first).bind fun s1 => run s1 second := by
  induction first generalizing s with
  | nil => simp [run]
  | cons x rest ih =>
    obtain ⟨b, e⟩ := x
    simp only [List.cons_append, run]
    cases step b s e with
    | none => simp
    | some s1 => simp [ih]

/-- One round of the authorization retry, when only the filesystem mount of
the record is outstanding: the state afterwards differs from the state
before in its trace only, which gains the authorization request and the
mount that is issued again. -/
theorem authz_round_run (b : Backend) (s : State) (data : DataId) (error : GError)
    (action_id : String) (pk_result : PolKitResult) (device_to_mount : DeviceId)
    (h_live : (s.heap data).is_cancelled = false)
    (h_op : (s.heap data).mount_operation ≠ none)
    (h_device : (s.heap data).device_to_mount = some device_to_mount)
    (h_out : (s.heap data).outstanding = [Callback.mount_cb])
    (h_polkit : b.error_check_polkit_not_authorized error = some (action_id, pk_result))
    (h_no : pk_result ≠ .POLKIT_RESULT_NO) (h_unknown : pk_result ≠ .POLKIT_RESULT_UNKNOWN) :
    run s (authz_round b error data) =
      some { s with
        trace := s.trace ++
          [Effect.obtain_authz action_id (s.heap data).cancellable data,
           Effect.device_op_filesystem_mount device_to_mount data] } := by
  obtain ⟨volume, heap, data_count, handler_count, device_data, trace⟩ := s
  simp only at h_live h_op h_device h_out
  simp [authz_round, run, step, h_out, mount_cb, mount_obtain_authz_cb, State.take, h_live, h_op,
    h_polkit, h_no, h_unknown, obtain_authz, gdu_device_op_filesystem_mount, State.modify,
    State.emit, h_device]
  generalize heap data = x at *
  cases x
  simp_all

/-- Claim C25, counterexample: request 0 of the plain volume (mount
operation 5) is refused the mount for lack of authorization, the
authorization is granted, the mount issued again is refused the same way and
the authorization is granted again.  `_obtain_authz` has been called twice
and the filesystem mount was re-issued twice; the result is still not
completed, `pending_mount_op` still holds the request, and a third mount is
outstanding. -/
theorem authorization_requested_twice :
    run fresh_plain_state repeated_authorization = some repeated_authorization_state ∧
    repeated_authorization_state.trace =
      [Effect.device_op_filesystem_mount 0 0,
       Effect.obtain_authz "org.freedesktop.devicekit.disks.filesystem-mount" none 0,
       Effect.device_op_filesystem_mount 0 0,
       Effect.obtain_authz "org.freedesktop.devicekit.disks.filesystem-mount" none 0,
       Effect.device_op_filesystem_mount 0 0] ∧
    (repeated_authorization_state.heap 0).simple = { error := none, completed := 0 } ∧
    repeated_authorization_state.volume.pending_mount_op = some 0 ∧
    (repeated_authorization_state.heap 0).outstanding = [Callback.mount_cb] :=
  ⟨rfl, by decide, by decide, by decide, by decide⟩

/-- Claim C25 (authorization retry, amended): the number of retries is not
bounded.  For a non-cancelled request with a mount operation bound, a known
`device_to_mount` and its filesystem mount outstanding, let the mount fail
`n` times in a row with an error the backend recognises as a polkit
not-authorized error whose result is neither `NO` nor `UNKNOWN`, the
authorization being granted each time.  All `2 n` callbacks run, and the
state afterwards differs from the state before in its trace only: every
round adds one `_obtain_authz` call and one filesystem mount on
`device_to_mount`, the result is as before (not completed), the mount is
outstanding again and `pending_mount_op` is unchanged. -/
theorem authorization_rounds (n : Nat) (b : Backend) (s : State) (data : DataId)
    (error : GError) (action_id : String) (pk_result : PolKitResult)
    (device_to_mount : DeviceId)
    (h_live : (s.heap data).is_cancelled = false)
    (h_op : (s.heap data).mount_operation ≠ none)
    (h_device : (s.heap data).device_to_mount = some device_to_mount)
    (h_out : (s.heap data).outstanding = [Callback.mount_cb])
    (h_polkit : b.error_check_polkit_not_authorized error = some (action_id, pk_result))
    (h_no : pk_result ≠ .POLKIT_RESULT_NO) (h_unknown : pk_result ≠ .POLKIT_RESULT_UNKNOWN) :
    run s (authz_rounds b error data n) =
      some { s with
        trace := s.trace ++
          (List.replicate n
            [Effect.obtain_authz action_id (s.heap data).cancellable data,
             Effect.device_op_filesystem_mount device_to_mount data]).flatten } := by
  induction n generalizing s with
  | zero => simp [authz_rounds, run]
  | succ n ih =>
    rw [authz_rounds, run_append,
      authz_round_run b s data error action_id pk_result device_to_mount h_live h_op h_device
        h_out h_polkit h_no h_unknown, Option.some_bind]
    have h := ih { s with
      trace := s.trace ++
        [Effect.obtain_authz action_id (s.heap data).cancellable data,
         Effect.device_op_filesystem_mount device_to_mount data] } h_live h_op h_device h_out
    rw [h]
    simp [List.replicate_succ]

/-- Claim C25, instance of `authorization_rounds`: three rounds for request 0
of the plain volume with mount operation 5. -/
theorem authorization_rounds_witness :
    run (g_gdu_volume_mount polkit_backend fresh_plain_state (some 5) none)
        (authz_rounds polkit_backend not_authorized_error 0 3) =
      some { g_gdu_volume_mount polkit_backend fresh_plain_state (some 5) none with
        trace := (g_gdu_volume_mount polkit_backend fresh_plain_state (some 5) none).trace ++
          (List.replicate 3
            [Effect.obtain_authz "org.freedesktop.devicekit.disks.filesystem-mount"
               ((g_gdu_volume_mount polkit_backend fresh_plain_state (some 5) none).heap
                 0).cancellable 0,
             Effect.device_op_filesystem_mount 0 0]).flatten } :=
  authorization_rounds 3 polkit_backend
    (g_gdu_volume_mount polkit_backend fresh_plain_state (some 5) none) 0 not_authorized_error
    "org.freedesktop.devicekit.disks.filesystem-mount" .POLKIT_RESULT_ONLY_VIA_ADMIN_AUTH 0
    (by decide) (by decide) (by decide) (by decide) (by decide) (by decide) (by decide)

/-! ### A failed keyring unlock while the daemon is inhibited -/

/-- Claim C22, failing input: request 0 of the LUKS volume (mount operation
5, cancellable 7) is started while the keyring holds a secret and the daemon
is inhibited, and the unlock with the keyring secret fails.
`unlock_from_keyring_cb` goes straight to `mount_with_mount_operation`, which
does not ask whether the daemon is inhibited: "ask-password" is emitted, the
result is not completed and `pending_mount_op` still holds the request.  The
same volume with no secret in the keyring is failed by `g_gdu_volume_mount`
with `(G_IO_ERROR, G_IO_ERROR_FAILED_HANDLED)` before any prompt. -/
theorem inhibited_keyring_failure_prompts :
    run fresh_luks_state inhibited_keyring_failure = some inhibited_prompt_state ∧
    luks_keyring_inhibited_backend.pool_is_daemon_inhibited = true ∧
    (inhibited_prompt_state.heap 0).is_cancelled = false ∧
    inhibited_prompt_state.trace =
      [Effect.signal_connect 1 "cancelled" none,
       Effect.util_get_secret 0,
       Effect.device_op_luks_unlock 0 (some "old secret") .unlock_from_keyring_cb 0,
       Effect.scrub_n_free_string "old secret",
       Effect.signal_connect 2 "reply" (some 0),
       Effect.signal_emit_ask_password 5
         "Enter a password to unlock the volume\nThe device \"USB Stick\" contains encrypted data on partition 2."
         9] ∧
    (inhibited_prompt_state.heap 0).simple = { error := none, completed := 0 } ∧
    inhibited_prompt_state.volume.pending_mount_op = some 0 ∧
    run_result_error fresh_luks_state [(luks_inhibited_backend, .mount (some 5) (some 7))] 0 =
      some { domain := .G_IO_ERROR, code := G_IO_ERROR_FAILED_HANDLED,
             message := "Daemon is currently inhibited" } :=
  ⟨rfl, rfl, by decide, by decide, by decide, by decide, by decide⟩

/-! ### Authorization and the unlock -/

/-- Claim C26, counterexample: the unlock of request 0 of the LUKS volume
(mount operation 5 bound) fails with `not_authorized_error`, which the
backend recognises as a polkit failure that an authentication would
overcome.  `unlock_cb` resolves the request with that error: the result is
completed once with it, `pending_mount_op` is `NULL`, the record is released,
and the trace gains no `_obtain_authz` and no second unlock. -/
theorem unlock_not_authorized_resolves :
    luks_polkit_backend.error_check_polkit_not_authorized not_authorized_error =
      some ("org.freedesktop.devicekit.disks.filesystem-mount",
        PolKitResult.POLKIT_RESULT_ONLY_VIA_ADMIN_AUTH) ∧
    (unlocking_state.heap 0).is_cancelled = false ∧
    (unlocking_state.heap 0).mount_operation = some 5 ∧
    step luks_polkit_backend unlocking_state (.unlock_cb 0 0 (.error not_authorized_error)) =
      some (unlock_cb luks_polkit_backend (unlocking_state.take 0 .unlock_cb) 0 0
        (.error not_authorized_error)) ∧
    ((unlock_cb luks_polkit_backend (unlocking_state.take 0 .unlock_cb) 0 0
        (.error not_authorized_error)).heap 0).simple =
      { error := some not_authorized_error, completed := 1 } ∧
    ((unlock_cb luks_polkit_backend (unlocking_state.take 0 .unlock_cb) 0 0
        (.error not_authorized_error)).heap 0).released = 1 ∧
    (unlock_cb luks_polkit_backend (unlocking_state.take 0 .unlock_cb) 0 0
        (.error not_authorized_error)).volume.pending_mount_op = none ∧
    (unlock_cb luks_polkit_backend (unlocking_state.take 0 .unlock_cb) 0 0
        (.error not_authorized_error)).trace =
      unlocking_state.trace ++
        [Effect.simple_async_result_complete (some 0) (some not_authorized_error),
         Effect.signal_handler_disconnect 1,
         Effect.scrub_n_free_string "passphrase"] :=
  ⟨by decide, by decide, by decide, rfl, by decide, by decide, by decide, by decide⟩

/-- Claim C26 (no authorization retry for the unlock, amended): for a
non-cancelled request whose LUKS unlock failed with `error`, the code never
asks for an authorization and never issues the unlock again, whatever the
backend says about `error` (also when it is a polkit not-authorized error
that an authentication would overcome).  `unlock_cb` completes the result
once more with the error (as rewritten by `quiet_if_inhibited`), sets
`pending_mount_op` to `NULL` and releases the record; its trace gains the
completion, the handler disconnections and the scrubbing of the passphrase
attached to the device.  `unlock_from_keyring_cb` is
`mount_with_mount_operation`: with a mount operation bound it connects the
"reply" handler and emits "ask-password", leaving the result untouched. -/
theorem unlock_failure_no_authorization (b : Backend) (s : State) (data : DataId)
    (device : DeviceId) (error : GError)
    (h_live : (s.heap data).is_cancelled = false) :
    ((unlock_cb b s data device (.error error)).heap data).simple =
      { error := some (quiet_if_inhibited error),
        completed := (s.heap data).simple.completed + 1 } ∧
    ((unlock_cb b s data device (.error error)).heap data).released =
      (s.heap data).released + 1 ∧
    ((unlock_cb b s data device (.error error)).heap data).outstanding =
      (s.heap data).outstanding ∧
    (unlock_cb b s data device (.error error)).volume.pending_mount_op = none ∧
    (unlock_cb b s data device (.error error)).trace =
      s.trace ++
        [Effect.simple_async_result_complete (some data) (some (quiet_if_inhibited error))] ++
        (if (s.heap data).cancelled_handler_id ≠ 0 then
          [Effect.signal_handler_disconnect (s.heap data).cancelled_handler_id]
         else []) ++
        (if (s.heap data).mount_operation_reply_handler_id ≠ 0 then
          [Effect.signal_handler_disconnect (s.heap data).mount_operation_reply_handler_id]
         else []) ++
        (match (s.device_data device).password with
          | some old => [Effect.scrub_n_free_string old]
          | none => []) ∧
    unlock_from_keyring_cb b s data (.error error) = mount_with_mount_operation b s data ∧
    (∀ m, (s.heap data).mount_operation = some m →
      (mount_with_mount_operation b s data).trace =
        s.trace ++
          [Effect.signal_connect (s.handler_count + 1) "reply" (some data),
           Effect.signal_emit_ask_password m (ask_password_message b s.volume) 9] ∧
      ((mount_with_mount_operation b s data).heap data).simple = (s.heap data).simple ∧
      ((mount_with_mount_operation b s data).heap data).outstanding =
        (s.heap data).outstanding) := by
  have hflags : (G_ASK_PASSWORD_NEED_PASSWORD ||| G_ASK_PASSWORD_SAVING_SUPPORTED) = 9 := by decide
  refine ⟨?_, ?_, ?_, ?_, ?_, ?_, ?_⟩
  · simp [unlock_cb, h_live]
  · simp [unlock_cb, h_live]
  · simp [unlock_cb, h_live]
  · simp [unlock_cb, h_live]
  · simp [unlock_cb, h_live]
  · simp [unlock_from_keyring_cb, h_live]
  · intro m hm
    simp [mount_with_mount_operation, h_live, hm, g_signal_connect, hflags]

/-- Claim C26, instance of `unlock_failure_no_authorization`: the unlock of
request 0 of the LUKS volume fails with the not-authorized error. -/
theorem unlock_failure_no_authorization_witness :
    ((unlock_cb luks_polkit_backend (unlocking_state.take 0 .unlock_cb) 0 0
        (.error not_authorized_error)).heap 0).simple =
      { error := some (quiet_if_inhibited not_authorized_error),
        completed := ((unlocking_state.take 0 .unlock_cb).heap 0).simple.completed + 1 } ∧
    (unlock_cb luks_polkit_backend (unlocking_state.take 0 .unlock_cb) 0 0
        (.error not_authorized_error)).volume.pending_mount_op = none := by
  have h := unlock_failure_no_authorization luks_polkit_backend
    (unlocking_state.take 0 .unlock_cb) 0 0 not_authorized_error (by decide)
  exact ⟨h.1, h.2.2.2.1⟩

/-! ### Late callbacks of a cancelled request -/

/-- What the seven functions of the mount flow do for a cancelled request:
five of them only release the record (and `unlock_cb` then clears the data
attached to the device); `mount_cb` and `mount_obtain_authz_cb` first set
`pending_mount_op` to `NULL`. -/
theorem cancelled_paths (b : Backend) (s : State) (data : DataId)
    (h_cancelled : (s.heap data).is_cancelled = true) :
    mount_with_mount_operation b s data = mount_op_data_unref s data ∧
    (∀ result password password_save,
      mount_operation_reply b s data result password password_save =
        mount_op_data_unref s data) ∧
    (∀ result, unlock_from_keyring_cb b s data result = mount_op_data_unref s data) ∧
    (∀ device result, unlock_cb b s data device result =
      set_device_password
        (set_device_password_save (mount_op_data_unref s data) device .G_PASSWORD_SAVE_NEVER)
        device none) ∧
    (∀ path, mount_cleartext_device b s data path = mount_op_data_unref s data) ∧
    (∀ error, mount_cb b s data error = mount_op_data_unref (s.set_pending none) data) ∧
    (∀ res, mount_obtain_authz_cb s data res =
      mount_op_data_unref (s.set_pending none) data) := by
  refine ⟨?_, ?_, ?_, ?_, ?_, ?_, ?_⟩
  · simp [mount_with_mount_operation, h_cancelled]
  · intro result password password_save
    simp [mount_operation_reply, h_cancelled]
  · intro result
    simp [unlock_from_keyring_cb, h_cancelled]
  · intro device result
    simp [unlock_cb, h_cancelled]
  · intro path
    simp [mount_cleartext_device, h_cancelled]
  · intro error
    simp [mount_cb, h_cancelled]
  · intro res
    simp [mount_obtain_authz_cb, h_cancelled]

/-- Claim C28, failing input: request 0 of the plain volume is cancelled and
request 1 is started while a callback of request 0 is still to come.  When
that callback arrives, `mount_cb` (first run) or `mount_obtain_authz_cb`
(second run) finds `is_cancelled` set and jumps to `bailout`, which sets
`pending_mount_op` to `NULL` before it releases the record: the slot that
held request 1 is emptied, so the state of the volume is not left unchanged. -/
theorem cancelled_callback_clears_slot :
    run fresh_plain_state superseded_mount = some superseded_mount_state ∧
    (superseded_mount_state.heap 0).is_cancelled = true ∧
    superseded_mount_state.volume.pending_mount_op = some 1 ∧
    step plain_backend superseded_mount_state (.mount_cb 0 none) =
      some (mount_cb plain_backend (superseded_mount_state.take 0 .mount_cb) 0 none) ∧
    (mount_cb plain_backend (superseded_mount_state.take 0 .mount_cb) 0
      none).volume.pending_mount_op = none ∧
    run fresh_plain_state superseded_authz = some superseded_authz_state ∧
    (superseded_authz_state.heap 0).is_cancelled = true ∧
    superseded_authz_state.volume.pending_mount_op = some 1 ∧
    step polkit_backend superseded_authz_state (.mount_obtain_authz_cb 0 none) =
      some (mount_obtain_authz_cb (superseded_authz_state.take 0 .mount_obtain_authz_cb) 0
        none) ∧
    (mount_obtain_authz_cb (superseded_authz_state.take 0 .mount_obtain_authz_cb) 0
      none).volume.pending_mount_op = none :=
  ⟨rfl, by decide, by decide, rfl, by decide, rfl, by decide, by decide, rfl, by decide⟩

/-! ### The automount flag on a later recomputation -/

/-- Claim C29, failing input: the plain partition of drive 3 is constructed
one second after the last media insertion, so `should_automount` is `TRUE`.
Nine seconds later `update_volume` runs again with the same drive, the same
insertion time and the same device: it reads the clock anew, finds ten
seconds since the insertion, sets `should_automount` to `FALSE` and returns
`TRUE`. -/
theorem automount_lost_on_recomputation :
    drive_volume.drive = some 3 ∧
    drive_volume.cleartext_gdu_volume = none ∧
    plain_backend.now - plain_backend.time_of_last_media_insertion 3 = 1 ∧
    drive_volume.should_automount = true ∧
    late_backend.device = plain_backend.device ∧
    late_backend.presentable = plain_backend.presentable ∧
    late_backend.time_of_last_media_insertion = plain_backend.time_of_last_media_insertion ∧
    late_backend.now - late_backend.time_of_last_media_insertion 3 = 10 ∧
    (update_volume late_backend drive_volume).1 = true ∧
    (update_volume late_backend drive_volume).2.should_automount = false :=
  ⟨by decide, by decide, by decide, by decide, rfl, rfl, rfl, by decide, by decide, by decide⟩

/-! ### Calls of `gdu_util_save_secret` -/

@[simp] theorem saved_emit (s : State) (e : Effect) :
    (s.emit e).saved = s.saved ++ (if e.is_save_secret then [e] else []) := by
  by_cases h : e.is_save_secret = true <;> simp [State.saved, List.filter_append, h]

@[simp] theorem saved_modify (s : State) (d : DataId) (f : MountOpData → MountOpData) :
    (s.modify d f).saved = s.saved := rfl

@[simp] theorem saved_set_pending (s : State) (p : Option DataId) :
    (s.set_pending p).saved = s.saved := rfl

@[simp] theorem saved_take (s : State) (data : DataId) (callback : Callback) :
    (s.take data callback).saved = s.saved := rfl

@[simp] theorem saved_mount_op_data_unref (s : State) (data : DataId) :
    (mount_op_data_unref s data).saved = s.saved := by
  by_cases hc : (s.heap data).cancelled_handler_id = 0 <;>
    by_cases hr : (s.heap data).mount_operation_reply_handler_id = 0 <;>
    simp [State.saved, List.filter_append, hc, hr, Effect.is_save_secret]

@[simp] theorem saved_complete (s : State) (data : DataId) :
    (g_simple_async_result_complete s data).saved = s.saved := by
  simp [State.saved, List.filter_append, Effect.is_save_secret]

@[simp] theorem saved_set_error (s : State) (data : DataId) (domain : GQuark) (code : Int)
    (message : String) :
    (g_simple_async_result_set_error s data domain code message).saved = s.saved := rfl

@[simp] theorem saved_set_from_error (s : State) (data : DataId) (error : GError) :
    (g_simple_async_result_set_from_error s data error).saved = s.saved := rfl

@[simp] theorem saved_luks_unlock (s : State) (device : DeviceId) (secret : Option String)
    (callback : Callback) (data : DataId) :
    (gdu_device_op_luks_unlock s device secret callback data).saved = s.saved := by
  simp [State.saved, List.filter_append, Effect.is_save_secret]

@[simp] theorem saved_filesystem_mount (s : State) (device : DeviceId) (data : DataId) :
    (gdu_device_op_filesystem_mount s device data).saved = s.saved := by
  simp [State.saved, List.filter_append, Effect.is_save_secret]

@[simp] theorem saved_obtain_authz (s : State) (action_id : String)
    (cancellable : Option CancellableId) (data : DataId) :
    (obtain_authz s action_id cancellable data).saved = s.saved := by
  simp [State.saved, List.filter_append, Effect.is_save_secret]

@[simp] theorem saved_scrub (s : State) (password : String) :
    (scrub_n_free_string s password).saved = s.saved := by
  simp [State.saved, List.filter_append, Effect.is_save_secret]

@[simp] theorem saved_set_device_password (s : State) (device : DeviceId)
    (value : Option String) : (set_device_password s device value).saved = s.saved := by
  cases h : (s.device_data device).password <;>
    simp [State.saved, List.filter_append, Effect.is_save_secret, h]

@[simp] theorem saved_set_device_password_save (s : State) (device : DeviceId)
    (value : GPasswordSave) : (set_device_password_save s device value).saved = s.saved := rfl

@[simp] theorem saved_emit_changed (s : State) : (emit_changed s).saved = s.saved := by
  simp [State.saved, List.filter_append, Effect.is_save_secret]

@[simp] theorem saved_with_volume (s : State) (volume : GGduVolume) :
    State.saved { s with volume := volume } = s.saved := rfl

@[simp] theorem saved_cancel_pending_mount_op (s : State) (data : DataId) :
    (cancel_pending_mount_op s data).saved = s.saved := by
  unfold cancel_pending_mount_op
  cases h : (s.heap data).mount_operation <;> simp [h, Effect.is_save_secret]

@[simp] theorem saved_mount_cleartext_device (b : Backend) (s : State) (data : DataId)
    (path : String) : (mount_cleartext_device b s data path).saved = s.saved := by
  unfold mount_cleartext_device
  cases h : (s.heap data).is_cancelled <;> cases hp : b.pool_get_by_object_path path <;>
    simp [h, hp]

@[simp] theorem saved_mount_with_mount_operation (b : Backend) (s : State) (data : DataId) :
    (mount_with_mount_operation b s data).saved = s.saved := by
  unfold mount_with_mount_operation
  cases h : (s.heap data).is_cancelled <;> cases hm : (s.heap data).mount_operation <;>
    simp [h, hm, g_signal_connect, Effect.is_save_secret, State.saved, List.filter_append]

theorem saved_cancelled_cb (s : State) : (cancelled_cb s).saved = s.saved := by
  unfold cancelled_cb
  cases h : s.volume.pending_mount_op <;> simp [h]

theorem saved_g_gdu_volume_removed (s : State) : (g_gdu_volume_removed s).saved = s.saved := by
  have hA : ∀ t : State,
      (match t.volume.pending_mount_op with
        | some pending_mount_op => cancel_pending_mount_op t pending_mount_op
        | none => t).saved = t.saved := by
    intro t
    cases t.volume.pending_mount_op <;> simp
  have hB : ∀ t : State,
      (match t.volume.mount with
        | some mount =>
          { t.emit (.mount_unset_volume mount) with volume := { t.volume with mount := none } }
        | none => t).saved = t.saved := by
    intro t
    cases t.volume.mount <;> simp [State.saved, List.filter_append, Effect.is_save_secret]
  have hC : ∀ t : State,
      (match t.volume.drive with
        | some drive =>
          { t.emit (.drive_unset_volume drive) with volume := { t.volume with drive := none } }
        | none => t).saved = t.saved := by
    intro t
    cases t.volume.drive <;> simp [State.saved, List.filter_append, Effect.is_save_secret]
  unfold g_gdu_volume_removed
  dsimp only
  rw [hC, hB, hA]

theorem saved_mount_operation_reply (b : Backend) (s : State) (data : DataId)
    (result : GMountOperationResult) (password : Option String)
    (password_save : GPasswordSave) :
    (mount_operation_reply b s data result password password_save).saved = s.saved := by
  unfold mount_operation_reply
  by_cases hc : (s.heap data).is_cancelled = true
  · simp [hc]
  · by_cases hr : (s.heap data).mount_operation_reply_handler_id = 0 <;>
      by_cases hh : result = .G_MOUNT_OPERATION_HANDLED <;>
      by_cases ha : result = .G_MOUNT_OPERATION_ABORTED <;>
      simp [hc, hr, hh, ha, Effect.is_save_secret]

theorem saved_unlock_from_keyring_cb (b : Backend) (s : State) (data : DataId)
    (result : Except GError String) :
    (unlock_from_keyring_cb b s data result).saved = s.saved := by
  unfold unlock_from_keyring_cb
  cases hc : (s.heap data).is_cancelled <;> cases result <;> simp [hc]

theorem saved_mount_obtain_authz_cb (s : State) (data : DataId) (res : Option GError) :
    (mount_obtain_authz_cb s data res).saved = s.saved := by
  unfold mount_obtain_authz_cb
  cases hc : (s.heap data).is_cancelled <;> cases res <;>
    cases hd : (s.heap data).device_to_mount <;> simp [hc, hd]

theorem saved_mount_cb (b : Backend) (s : State) (data : DataId) (error : Option GError) :
    (mount_cb b s data error).saved = s.saved := by
  unfold mount_cb
  cases hc : (s.heap data).is_cancelled
  · cases error with
    | none => simp [hc]
    | some error =>
      cases hm : (s.heap data).mount_operation with
      | none => simp [hc, hm]
      | some m =>
        cases hp : b.error_check_polkit_not_authorized error with
        | none => simp [hc, hm, hp]
        | some r =>
          obtain ⟨action_id, pk_result⟩ := r
          by_cases hpk : pk_result ≠ .POLKIT_RESULT_NO ∧ pk_result ≠ .POLKIT_RESULT_UNKNOWN
          · simp only [hc, hm, hp]
            simp [hpk]
          · simp only [hc, hm, hp]
            simp [hpk]
  · simp [hc]

theorem saved_new_mount_op_data (s : State) (mount_operation : Option MountOperationId)
    (cancellable : Option CancellableId) :
    (new_mount_op_data s mount_operation cancellable).saved = s.saved := by
  obtain ⟨-, -, ht, -, -, -⟩ := new_mount_op_data_shape s mount_operation cancellable
  cases cancellable <;> simp [State.saved, ht, List.filter_append, Effect.is_save_secret]

theorem saved_start_mount_op (b : Backend) (s : State) (device : DeviceId) (data : DataId) :
    (start_mount_op b s device data).saved = s.saved := by
  unfold start_mount_op
  cases hcl : s.volume.cleartext_gdu_volume with
  | some cv => simp
  | none =>
    by_cases hl : (g_strcmp0_eq (b.device device).id_usage (some "crypto") &&
        g_strcmp0_eq (b.device device).id_type (some "crypto_LUKS")) = true
    · cases hs : b.util_get_secret device with
      | some password => simp [hl, hs, Effect.is_save_secret]
      | none =>
        cases hi : b.pool_is_daemon_inhibited <;> simp [hl, hs, hi, Effect.is_save_secret]
    · simp [hl]

theorem saved_g_gdu_volume_mount (b : Backend) (s : State)
    (mount_operation : Option MountOperationId) (cancellable : Option CancellableId) :
    (g_gdu_volume_mount b s mount_operation cancellable).saved = s.saved := by
  unfold g_gdu_volume_mount
  by_cases hp : s.volume.pending_mount_op = none
  · by_cases hb : ((b.device (b.presentable s.volume.gdu_volume).device).optical_disc_is_blank ||
        (b.device (b.presentable s.volume.gdu_volume).device).is_mounted) = true
    · simp [hp, hb, Effect.is_save_secret]
    · simp only [hp, hb]
      simp [saved_start_mount_op, saved_new_mount_op_data]
  · simp [hp, Effect.is_save_secret]

theorem saved_gdu_volume_changed (b : Backend) (s : State) :
    (gdu_volume_changed b s).saved = s.saved := by
  unfold gdu_volume_changed
  by_cases hu : (update_volume b s.volume).1 = true <;> simp [hu]

theorem saved_mk (volume : GGduVolume) (heap : DataId → MountOpData)
    (data_count handler_count : Nat) (device_data : DeviceId → DeviceData)
    (trace : List Effect) :
    State.saved
      { volume := volume, heap := heap, data_count := data_count,
        handler_count := handler_count, device_data := device_data, trace := trace } =
      trace.filter Effect.is_save_secret := rfl

theorem saved_fold (s : State) : s.trace.filter Effect.is_save_secret = s.saved := rfl

/-- The store calls made by `unlock_cb`. -/
theorem saved_unlock_cb (b : Backend) (s : State) (data : DataId) (device : DeviceId)
    (result : Except GError String) :
    (unlock_cb b s data device result).saved =
      s.saved ++
        (match result with
          | .ok _ =>
            if (s.heap data).is_cancelled then []
            else
              match (s.device_data device).password with
              | some password =>
                (match (s.device_data device).password_save with
                  | .G_PASSWORD_SAVE_FOR_SESSION =>
                    [Effect.util_save_secret device password true]
                  | .G_PASSWORD_SAVE_PERMANENTLY =>
                    [Effect.util_save_secret device password false]
                  | .G_PASSWORD_SAVE_NEVER => [])
              | none => []
          | .error _ => []) := by
  unfold unlock_cb
  cases hc : (s.heap data).is_cancelled
  · cases result with
    | error error => simp [hc]
    | ok path =>
      cases hp : (s.device_data device).password with
      | none =>
        by_cases hu : (update_volume b s.volume).1 = true <;> simp [hc, hp, hu]
      | some password =>
        cases hs : (s.device_data device).password_save <;>
          by_cases hu : (update_volume b s.volume).1 = true <;>
          simp [hc, hp, hs, hu, Effect.is_save_secret, saved_mk, saved_fold, List.filter_append]
  · cases result <;> simp [hc]

/-- Claim C27 (when a secret is stored): whatever event runs, the list of
`gdu_util_save_secret` calls in the trace grows only when `unlock_cb`
receives a successful unlock for a request that is not cancelled while the
device carries a passphrase and the attached save policy is
`G_PASSWORD_SAVE_FOR_SESSION` (one call, session flag `TRUE`) or
`G_PASSWORD_SAVE_PERMANENTLY` (one call, session flag `FALSE`); in every
other case (another handler or callback, failed unlock, cancelled request,
no passphrase, policy "never") no call is made.  The call is made with the
device of the unlock and the passphrase attached to it, and what is stored
is independent of the rest of the flow: record, volume and device data after
`unlock_cb` are those of the same run with the policy set to "never". -/
theorem secret_store_calls (b : Backend) (s s1 : State) (e : Event)
    (h_step : step b s e = some s1) :
    s1.saved =
      s.saved ++
        (match e with
          | .unlock_cb data device (.ok _) =>
            if (s.heap data).is_cancelled then []
            else
              match (s.device_data device).password with
              | some password =>
                (match (s.device_data device).password_save with
                  | .G_PASSWORD_SAVE_FOR_SESSION =>
                    [Effect.util_save_secret device password true]
                  | .G_PASSWORD_SAVE_PERMANENTLY =>
                    [Effect.util_save_secret device password false]
                  | .G_PASSWORD_SAVE_NEVER => [])
              | none => []
          | _ => []) ∧
    (∀ data device path,
      (unlock_cb b s data device (.ok path)).heap =
        (unlock_cb b (set_device_password_save s device .G_PASSWORD_SAVE_NEVER) data device
          (.ok path)).heap ∧
      (unlock_cb b s data device (.ok path)).volume =
        (unlock_cb b (set_device_password_save s device .G_PASSWORD_SAVE_NEVER) data device
          (.ok path)).volume ∧
      (unlock_cb b s data device (.ok path)).device_data =
        (unlock_cb b (set_device_password_save s device .G_PASSWORD_SAVE_NEVER) data device
          (.ok path)).device_data) := by
  refine ⟨?_, ?_⟩
  · cases e with
    | mount mount_operation cancellable =>
      simp only [step, Option.some.injEq] at h_step
      subst h_step
      simp [saved_g_gdu_volume_mount]
    | cancelled data =>
      simp only [step] at h_step
      split_ifs at h_step
      simp only [Option.some.injEq] at h_step
      subst h_step
      simp [saved_cancelled_cb]
    | removed =>
      simp only [step, Option.some.injEq] at h_step
      subst h_step
      simp [saved_g_gdu_volume_removed]
    | reply data result password password_save =>
      simp only [step] at h_step
      split_ifs at h_step
      simp only [Option.some.injEq] at h_step
      subst h_step
      simp [saved_mount_operation_reply]
    | unlock_from_keyring_cb data result =>
      simp only [step] at h_step
      split_ifs at h_step
      simp only [Option.some.injEq] at h_step
      subst h_step
      simp [saved_unlock_from_keyring_cb]
    | unlock_cb data device result =>
      simp only [step] at h_step
      split_ifs at h_step
      simp only [Option.some.injEq] at h_step
      subst h_step
      rw [saved_unlock_cb]
      cases result <;> simp [State.take]
    | mount_cb data error =>
      simp only [step] at h_step
      split_ifs at h_step
      simp only [Option.some.injEq] at h_step
      subst h_step
      simp [saved_mount_cb]
    | mount_obtain_authz_cb data res =>
      simp only [step] at h_step
      split_ifs at h_step
      simp only [Option.some.injEq] at h_step
      subst h_step
      simp [saved_mount_obtain_authz_cb]
    | presentable_changed =>
      simp only [step, Option.some.injEq] at h_step
      subst h_step
      simp [saved_gdu_volume_changed]
  · intro data device path
    cases hc : (s.heap data).is_cancelled <;>
      cases hp : (s.device_data device).password <;>
      cases hs : (s.device_data device).password_save <;>
      cases hq : b.pool_get_by_object_path path <;>
      by_cases hu : (update_volume b s.volume).1 = true <;>
      simp [unlock_cb, mount_cleartext_device, hc, hp, hs, hq, hu, set_device_password_save]

/-- Claim C27, instance of `secret_store_calls`: the prompt of request 0 of
the LUKS volume was answered with a passphrase to be saved permanently, and
the unlock succeeds: one store call with the session flag `FALSE`. -/
theorem secret_store_calls_witness :
    (unlock_cb luks_unlocked_backend
      ((mount_operation_reply luks_backend prompting_state 0 .G_MOUNT_OPERATION_HANDLED
        (some "passphrase") .G_PASSWORD_SAVE_PERMANENTLY).take 0 .unlock_cb) 0 0
      (.ok "/org/freedesktop/DeviceKit/Disks/devices/dm_2d0")).saved =
      [Effect.util_save_secret 0 "passphrase" false] :=
  (secret_store_calls luks_unlocked_backend
    (mount_operation_reply luks_backend prompting_state 0 .G_MOUNT_OPERATION_HANDLED
      (some "passphrase") .G_PASSWORD_SAVE_PERMANENTLY) _
    (.unlock_cb 0 0 (.ok "/org/freedesktop/DeviceKit/Disks/devices/dm_2d0")) rfl).1.trans
    (by decide)
/-! ### Scrubbing of secrets -/

@[simp] theorem mount_cleartext_device_device_data (b : Backend) (s : State) (data : DataId)
    (path : String) : (mount_cleartext_device b s data path).device_data = s.device_data := by
  unfold mount_cleartext_device
  cases h : (s.heap data).is_cancelled <;> cases hp : b.pool_get_by_object_path path <;>
    simp [h, hp]

/-- The data attached to the devices is untouched by `unlock_cb` until it
reaches `bailout`. -/
theorem unlock_cb_clears_device_data (b : Backend) (s : State) (data : DataId)
    (device : DeviceId) (result : Except GError String) :
    ∃ body : State,
      body.device_data = s.device_data ∧
      unlock_cb b s data device result =
        set_device_password (set_device_password_save body device .G_PASSWORD_SAVE_NEVER)
          device none := by
  cases hc : (s.heap data).is_cancelled with
  | true => exact ⟨mount_op_data_unref s data, by simp, by simp [unlock_cb, hc]⟩
  | false =>
    cases result with
    | error error =>
      apply Exists.intro
      apply And.intro
      swap
      · simp only [unlock_cb, hc, Bool.false_eq_true, if_false]
        rfl
      · simp
    | ok path =>
      apply Exists.intro
      apply And.intro
      swap
      · simp only [unlock_cb, hc, Bool.false_eq_true, if_false]
        rfl
      cases hp : (s.device_data device).password <;>
        cases hs : (s.device_data device).password_save <;>
        by_cases hu : (update_volume b s.volume).1 = true <;>
        simp [hp, hs, hu]

/-- The bytes `scrub_n_free_string` leaves behind. -/
theorem scrubbed_eq (password : List Nat) :
    scrubbed password =
      List.replicate (buffer_strlen password) 0 ++ password.drop (buffer_strlen password) := by
  have h : buffer_strlen password ≤ password.length := by
    unfold buffer_strlen
    exact (List.takeWhile_sublist _).length_le
  simp [scrubbed, memset, Nat.min_eq_left h]

/-- Claim C21 (secret scrubbing): on every exit path of `unlock_cb` (any
record, cancelled or not, with a successful or a failed unlock) the device
ends with no "password" and no "password-save" data, the data of the other
devices being untouched; when the device carried a passphrase, the last
effect of `unlock_cb` is `scrub_n_free_string` on that passphrase.
`scrub_n_free_string` overwrites the buffer before it is freed: the buffer
keeps its length, every byte below `strlen` is zero and the bytes from the
terminator on are not written.  In `g_gdu_volume_mount`, for a locked LUKS
device whose keyring holds a secret, the unlock with that secret is issued
and the next effect, the last of the call, is `scrub_n_free_string` on it. -/
theorem secrets_scrubbed (b : Backend) (s : State) (data : DataId) (device : DeviceId)
    (result : Except GError String) :
    (unlock_cb b s data device result).device_data device =
      { password := none, password_save := .G_PASSWORD_SAVE_NEVER } ∧
    (∀ other, other ≠ device →
      (unlock_cb b s data device result).device_data other = s.device_data other) ∧
    (∀ password, (s.device_data device).password = some password →
      (unlock_cb b s data device result).trace.getLast? =
        some (Effect.scrub_n_free_string password)) ∧
    (∀ password : List Nat,
      (scrubbed password).length = password.length ∧
      (∀ i, i < buffer_strlen password → (scrubbed password)[i]? = some 0) ∧
      (scrubbed password).drop (buffer_strlen password) =
        password.drop (buffer_strlen password)) ∧
    (∀ mount_operation cancellable secret,
      s.volume.pending_mount_op = none →
      (b.device (b.presentable s.volume.gdu_volume).device).optical_disc_is_blank = false →
      (b.device (b.presentable s.volume.gdu_volume).device).is_mounted = false →
      s.volume.cleartext_gdu_volume = none →
      (b.device (b.presentable s.volume.gdu_volume).device).id_usage = some "crypto" →
      (b.device (b.presentable s.volume.gdu_volume).device).id_type = some "crypto_LUKS" →
      b.util_get_secret (b.presentable s.volume.gdu_volume).device = some secret →
      (g_gdu_volume_mount b s mount_operation cancellable).trace =
        s.trace ++
          ((if cancellable = none then []
            else [Effect.signal_connect (s.handler_count + 1) "cancelled" none]) ++
           [Effect.util_get_secret (b.presentable s.volume.gdu_volume).device,
            Effect.device_op_luks_unlock (b.presentable s.volume.gdu_volume).device
              (some secret) .unlock_from_keyring_cb s.data_count,
            Effect.scrub_n_free_string secret])) := by
  obtain ⟨body, hbody, heq⟩ := unlock_cb_clears_device_data b s data device result
  refine ⟨?_, ?_, ?_, ?_, ?_⟩
  · rw [heq]
    simp
  · intro other ho
    rw [heq]
    simp [hbody, Function.update_noteq ho]
  · intro password hp
    rw [heq]
    simp [hbody, hp]
  · intro password
    have hlen : buffer_strlen password ≤ password.length := by
      unfold buffer_strlen
      exact (List.takeWhile_sublist _).length_le
    refine ⟨?_, ?_, ?_⟩
    · rw [scrubbed_eq]
      simp
      omega
    · intro i hi
      rw [scrubbed_eq, List.getElem?_append_left (by simpa using hi)]
      simp [hi]
    · rw [scrubbed_eq]
      simp
  · intro mount_operation cancellable secret h_idle h_blank h_mounted h_locked h_usage h_type
      h_secret
    rw [g_gdu_volume_mount_trace b s mount_operation cancellable h_idle h_blank h_mounted]
    simp [h_locked, h_usage, h_type, h_secret]

/-- Claim C21, instance of `secrets_scrubbed`: `unlock_cb` fails for request
0 of the LUKS volume after the passphrase "passphrase" was attached to device
0; `mount ()` on the fresh LUKS volume whose keyring holds "old secret"; and
the buffer of the string "pw" followed by one more byte. -/
theorem secrets_scrubbed_witness :
    (unlock_cb luks_backend (unlocking_state.take 0 .unlock_cb) 0 0
      (.error unlock_error)).device_data 0 =
      { password := none, password_save := .G_PASSWORD_SAVE_NEVER } ∧
    (unlock_cb luks_backend (unlocking_state.take 0 .unlock_cb) 0 0
      (.error unlock_error)).trace.getLast? =
      some (Effect.scrub_n_free_string "passphrase") ∧
    (g_gdu_volume_mount luks_keyring_backend fresh_luks_state (some 5) (some 7)).trace =
      [Effect.signal_connect 1 "cancelled" none,
       Effect.util_get_secret 0,
       Effect.device_op_luks_unlock 0 (some "old secret") .unlock_from_keyring_cb 0,
       Effect.scrub_n_free_string "old secret"] ∧
    scrubbed [112, 119, 0, 7] = [0, 0, 0, 7] := by
  have h := secrets_scrubbed luks_backend (unlocking_state.take 0 .unlock_cb) 0 0
    (.error unlock_error)
  have hk := (secrets_scrubbed luks_keyring_backend fresh_luks_state 0 0
    (.error unlock_error)).2.2.2.2 (some 5) (some 7) "old secret" (by decide) (by decide)
    (by decide) (by decide) (by decide) (by decide) (by decide)
  exact ⟨h.1, h.2.2.1 "passphrase" (by decide), hk.trans (by decide), by decide⟩

/-! ### Which request a cancellation reaches -/

/-- The record `cancelled_cb` acts on is the one in `pending_mount_op`,
whichever record the invoked handler was connected for: with the slot empty
nothing happens, and otherwise every record but the pending one is left as
it was while the pending one is cancelled and its result completed. -/
theorem cancelled_cb_target (s : State) :
    (s.volume.pending_mount_op = none → cancelled_cb s = s) ∧
    (∀ pending, s.volume.pending_mount_op = some pending →
      ((cancelled_cb s).heap pending).is_cancelled = true ∧
      ((cancelled_cb s).heap pending).simple =
        { error := some { domain := .G_IO_ERROR, code := G_IO_ERROR_FAILED_HANDLED,
                          message := "Operation was cancelled" },
          completed := (s.heap pending).simple.completed + 1 } ∧
      (∀ other, other ≠ pending → (cancelled_cb s).heap other = s.heap other)) := by
  refine ⟨?_, ?_⟩
  · intro h
    simp [cancelled_cb, h]
  · intro pending h
    refine ⟨?_, ?_, ?_⟩
    · simp [cancelled_cb, h, cancel_pending_mount_op_heap]
    · simp [cancelled_cb, h, cancel_pending_mount_op_heap]
    · intro other ho
      simp [cancelled_cb, h, cancel_pending_mount_op_heap, Function.update_noteq ho]

/-- Claim C31, failing run: on the plain volume request 0 (cancellable 7) is
cancelled, request 1 is started with cancellable 8, the mount callback of
the cancelled request 0 empties `pending_mount_op`, and request 2 is started
without a cancellable.  When cancellable 8 then emits "cancelled", the
handler connected for request 1 runs `cancelled_cb` with the volume as user
data, which cancels the record in `pending_mount_op`: request 2 gets
`is_cancelled` set and its result completed with the cancelled error, while
request 1, the one the cancellable was passed with, is neither cancelled nor
completed.  In the second run the volume is removed while request 0
(cancellable 7) is pending and request 1 is started afterwards: "cancelled"
from cancellable 7 cancels request 1. -/
theorem cancellation_reaches_other_request :
    run fresh_plain_state misdirected_cancel = some misdirected_cancel_state ∧
    Reachable misdirected_cancel_state ∧
    (three_requests_state.heap 1).cancellable = some 8 ∧
    (three_requests_state.heap 1).cancelled_handler_connected = true ∧
    (three_requests_state.heap 2).cancellable = none ∧
    (three_requests_state.heap 2).cancelled_handler_connected = false ∧
    three_requests_state.active 1 = true ∧
    three_requests_state.active 2 = true ∧
    three_requests_state.volume.pending_mount_op = some 2 ∧
    (misdirected_cancel_state.heap 2).is_cancelled = true ∧
    (misdirected_cancel_state.heap 2).simple =
      { error := some { domain := .G_IO_ERROR, code := G_IO_ERROR_FAILED_HANDLED,
                        message := "Operation was cancelled" },
        completed := 1 } ∧
    (misdirected_cancel_state.heap 1).is_cancelled = false ∧
    (misdirected_cancel_state.heap 1).simple = { error := none, completed := 0 } ∧
    run fresh_plain_state cancel_after_removal = some cancel_after_removal_state ∧
    (cancel_after_removal_state.heap 0).cancellable = some 7 ∧
    (cancel_after_removal_state.heap 1).cancellable = none ∧
    (g_gdu_volume_mount plain_backend
      (g_gdu_volume_removed (g_gdu_volume_mount plain_backend fresh_plain_state none (some 7)))
      none none).active 1 = true ∧
    (cancel_after_removal_state.heap 1).is_cancelled = true ∧
    (cancel_after_removal_state.heap 1).simple =
      { error := some { domain := .G_IO_ERROR, code := G_IO_ERROR_FAILED_HANDLED,
                        message := "Operation was cancelled" },
        completed := 1 } :=
  ⟨rfl, reachable_of_run misdirected_cancel fresh_plain_state misdirected_cancel_state
      (Reachable.init plain_backend 0 none none) rfl,
    by decide, by decide, by decide, by decide, by decide, by decide, by decide, by decide,
    by decide, by decide, by decide, rfl, by decide, by decide, by decide, by decide, by decide⟩

/-! ### Completion while the caller's callback calls back -/

/-- A callback that makes no call leaves `mount_cb` as it is. -/
theorem mount_cb_calling_nil (b : Backend) (s : State) (data : DataId)
    (error : Option GError) : mount_cb_calling b s data error [] = mount_cb b s data error := by
  simp [mount_cb_calling, mount_cb, g_simple_async_result_complete_calling, run]

/-- Claim C4, failing run: request 0 of the plain volume is started with
cancellable 7 and its filesystem mount succeeds.  `mount_cb` completes the
result while `pending_mount_op` still holds the request and its "cancelled"
handler is still connected; the caller's callback, run inside that
completion, cancels cancellable 7, so `cancelled_cb` finds the request
pending and `cancel_pending_mount_op` completes the result a second time,
with the cancelled error.  Back in `mount_cb` the record is released: by then
`g_simple_async_result_complete` has been invoked twice on its result, first
with success and then with an error. -/
theorem result_completed_twice :
    ((g_gdu_volume_mount plain_backend fresh_plain_state none (some 7)).heap 0).simple =
      { error := none, completed := 0 } ∧
    (g_gdu_volume_mount plain_backend fresh_plain_state none (some 7)).volume.pending_mount_op =
      some 0 ∧
    ((g_gdu_volume_mount plain_backend fresh_plain_state none (some 7)).heap 0).outstanding =
      [Callback.mount_cb] ∧
    (cancel_in_callback_state.heap 0).simple.completed = 2 ∧
    (cancel_in_callback_state.heap 0).released = 1 ∧
    (cancel_in_callback_state.heap 0).is_cancelled = true ∧
    cancel_in_callback_state.volume.pending_mount_op = none ∧
    cancel_in_callback_state.trace =
      [Effect.signal_connect 1 "cancelled" none,
       Effect.device_op_filesystem_mount 0 0,
       Effect.simple_async_result_complete (some 0) none,
       Effect.simple_async_result_complete (some 0) (some
         { domain := .G_IO_ERROR, code := G_IO_ERROR_FAILED_HANDLED,
           message := "Operation was cancelled" }),
       Effect.signal_handler_disconnect 1] := by
  decide

end GduMonitor
